import Mathlib

/-!
Verification of `src/fritzbox_smart_home.py` (fritzbox-munin smart-home plugin).

The development shallowly embeds the three core components of the plugin:

* `getSimplifiedDevices` — the normalizer that flattens the raw JSON
  device/unit/skill tree into one flat record (`Dev`) per device,
* `getDevices` / `sortDevices` — the sorter ordering records by display name,
* `print_smart_home_measurements` and `print_config` — the metric and
  metadata emitters, modelled as pure functions from a device sequence to the
  list of printed lines.

JSON values are modelled by the inductive type `J`; Python dictionaries built
by the code are association lists updated with Python's `d[k] = v` semantics
(update the existing entry in place, else append).  Fallible code (`KeyError`
/ `TypeError` on subscripting) is modelled in the `Except String` monad.
Numeric JSON values are modelled as rationals; Python's `float` / `int`
conversions become exact rational operations and truncation toward zero
(`int()` truncates toward zero).  String rendering of values (`fmtJ`) is
exact for the integer and string values the theorems below inspect.

Each printed line becomes an `Entry`: either a `multigraph` group header or a
plain line tagged with the id of the device whose loop iteration printed it
(`none` for static lines).  `Entry.render` recovers the exact printed text.
-/
/-- JSON values as delivered by the router (and Python's `None`). -/
inductive J where
  | null
  | bool (b : Bool)
  | num (q : ℚ)
  | str (s : String)
  | arr (xs : List J)
  | obj (fs : List (String × J))

mutual

/-- Python `==` on JSON values (structural equality; numbers compare as
rationals, mirroring Python's numeric cross-type equality). -/
def jbeq : J → J → Bool
  | .null, .null => true
  | .bool a, .bool b => a == b
  | .num a, .num b => a == b
  | .str a, .str b => a == b
  | .arr a, .arr b => jbeqList a b
  | .obj a, .obj b => jbeqObj a b
  | _, _ => false

def jbeqList : List J → List J → Bool
  | [], [] => true
  | x :: l, y :: m => jbeq x y && jbeqList l m
  | _, _ => false

def jbeqObj : List (String × J) → List (String × J) → Bool
  | [], [] => true
  | (k, v) :: l, (k2, v2) :: m => k == k2 && jbeq v v2 && jbeqObj l m
  | _, _ => false

end

/-- `j[k]` lookup on a JSON object; `none` when the key is missing or `j` is
not an object. -/
def jGet? : J → String → Option J
  | .obj fs, k => (fs.find? (fun p => p.1 == k)).map (·.2)
  | _, _ => none

/-- Python subscripting `j[k]`: raises (`KeyError` / `TypeError`) unless `j`
is an object carrying the key. -/
def jIndex (j : J) (k : String) : Except String J :=
  match jGet? j k with
  | some v => .ok v
  | none => .error ("KeyError: " ++ k)

/-- Python `k in j` (on the objects the plugin applies it to). -/
def jHas (j : J) (k : String) : Bool := (jGet? j k).isSome

/-- Total lookup used only under a `jHas` guard. -/
def jget (j : J) (k : String) : J := (jGet? j k).getD J.null

/-- Python iteration `for x in j`: the plugin only iterates lists. -/
def asArr : J → Except String (List J)
  | .arr xs => .ok xs
  | _ => .error "TypeError: not a list"

/-- Python `j == "s"` against a string literal. -/
def jeqStr (j : J) (s : String) : Bool :=
  match j with
  | .str t => t == s
  | _ => false

/-- Is the value Python's `None`? (`x is not None` checks). -/
def jIsNull : J → Bool
  | .null => true
  | _ => false

/-- Python truthiness of a JSON value. -/
def jTruthy : J → Bool
  | .null => false
  | .bool b => b
  | .num q => q != 0
  | .str s => s != ""
  | .arr xs => !xs.isEmpty
  | .obj fs => !fs.isEmpty

/-- Is the value a JSON object (a Python dict)? -/
def jIsObj : J → Bool
  | .obj _ => true
  | _ => false

/-- Is the value hashable in Python (usable as a dict key)? Lists and dicts
are not. -/
def jHashable : J → Bool
  | .arr _ => false
  | .obj _ => false
  | _ => true

/-- Does the first character list start with the second? -/
def strStartsWith : List Char → List Char → Bool
  | _, [] => true
  | [], _ :: _ => false
  | c :: cs, p :: ps => c == p && strStartsWith cs ps

/-- Substring containment on character lists (Python `str in str`). -/
def strHasSub : List Char → List Char → Bool
  | [], pat => strStartsWith [] pat
  | c :: cs, pat => strStartsWith (c :: cs) pat || strHasSub cs pat

/-- Python `key in v` on an arbitrary value: key membership on a dict,
substring test on a string, element equality on a list, and a `TypeError`
on `None`, booleans and numbers. -/
def pyIn (key : String) (v : J) : Except String Bool :=
  match v with
  | .obj fs => .ok (fs.any (fun p => p.1 == key))
  | .str s => .ok (strHasSub s.data key.data)
  | .arr xs => .ok (xs.any (fun x => jbeq x (J.str key)))
  | _ => .error "TypeError: argument is not iterable"

/-- Python `int()` truncation toward zero on rationals (the numerator and
denominator are coprime, so truncated division of them truncates the value). -/
def ratTrunc (q : ℚ) : Int := Int.tdiv q.num q.den

/-- Python `int(x)` on the values the emitters convert (bools and numbers). -/
def pyToInt : J → Int
  | .bool b => if b then 1 else 0
  | .num q => ratTrunc q
  | _ => 0

/-- Python `float(x)` on the values the normalizer converts. -/
def pyFloat : J → Except String ℚ
  | .num q => .ok q
  | .bool b => .ok (if b then 1 else 0)
  | _ => .error "TypeError: float() argument"

/-- Numeric value of a JSON number for arithmetic inside the emitters. -/
def jNumVal : J → ℚ
  | .num q => q
  | .bool b => if b then 1 else 0
  | _ => 0

/-- Python `"{}".format(x)` rendering: exact for strings, integers, bools and
`None`; non-integral rationals get a placeholder rendering (no theorem below
inspects such a line's text). -/
def fmtJ : J → String
  | .str s => s
  | .num q => if q.den = 1 then toString q.num else toString q
  | .bool b => if b then "True" else "False"
  | .null => "None"
  | .arr _ => "<list>"
  | .obj _ => "<dict>"

/-- Right-alignment to width 15, as in the f-string `\x7bx:15\x7d`. -/
def pad15 (s : String) : String :=
  String.mk (List.replicate (15 - s.length) ' ') ++ s

/-- A flat per-device record (`simpleDev` in the source): a Python dict with
string keys in insertion order. -/
abbrev Dev := List (String × J)

/-- Python `k in d` for a `Dev` dict. -/
def dictHas (d : Dev) (k : String) : Bool := d.any (fun p => p.1 == k)

/-- Lookup in a `Dev` dict. -/
def dget? (d : Dev) (k : String) : Option J :=
  (d.find? (fun p => p.1 == k)).map (·.2)

/-- Total lookup in a `Dev` dict (the emitters only read keys they guarded). -/
def dget (d : Dev) (k : String) : J := (dget? d k).getD J.null

/-- Python `d[k] = v` on a `Dev` dict: update the first (unique) entry in
place, else append. -/
def dictSet : Dev → String → J → Dev
  | [], k, v => [(k, v)]
  | p :: rest, k, v => if p.1 == k then (p.1, v) :: rest else p :: dictSet rest k v

/-- The normalizer's result dict `simplifiedDevices`, keyed by the raw device
id (a JSON value), in insertion order. -/
abbrev SDict := List (J × Dev)

/-- Python `m[k] = v` on the id-keyed dict. -/
def dictSetJ : SDict → J → Dev → SDict
  | [], k, v => [(k, v)]
  | p :: rest, k, v => if jbeq p.1 k then (p.1, v) :: rest else p :: dictSetJ rest k v

/-- Lookup in the id-keyed dict (Python `m[k]`). -/
def lookupJ (m : SDict) (k : J) : Option Dev :=
  (m.find? (fun p => jbeq p.1 k)).map (·.2)

/-- The newer nested `state.current` extraction of the thermostat handler
(source lines 87–94): `"current" in state` follows Python `in` semantics on
an arbitrary value (`pyIn`), and `state["current"]` is Python subscripting
(`jIndex`), raising when `state` is not a dict. -/
def thermoStateStep (skill : J) (dev : Dev) : Except String Dev :=
  if jHas skill "state" then do
    let state := jget skill "state"
    let hasCur ← pyIn "current" state
    if hasCur then do
      let _ ← jIndex state "current"
      let dev := dictSet dev "summerActive"
        (J.num (if jeqStr (jget state "current") "SUMMER" then 1 else 0))
      let dev := dictSet dev "holidyActive"
        (J.num (if jeqStr (jget state "current") "HOLIDAY" then 1 else 0))
      pure (dictSet dev "windowOpen"
        (J.num (if jeqStr (jget state "current") "WINDOW_OPEN" then 1 else 0)))
    else pure dev
  else pure dev

/-- The legacy `temperatureDropDetection` window flag of the thermostat
handler (source lines 106–107): the second conjunct of the guard,
`"isWindowOpen" in skill["temperatureDropDetection"]`, is Python `in` on
an arbitrary value, and line 107's subscripting raises on a non-dict. -/
def thermoTddStep (skill : J) (dev : Dev) : Except String Dev :=
  if jHas skill "temperatureDropDetection" then do
    let hasW ← pyIn "isWindowOpen" (jget skill "temperatureDropDetection")
    if hasW then do
      let _ ← jIndex (jget skill "temperatureDropDetection") "isWindowOpen"
      pure (dictSet dev "windowOpen"
        (jget (jget skill "temperatureDropDetection") "isWindowOpen"))
    else pure dev
  else pure dev

/-- One reference skill of the `usedTempSensor` scan (source lines 116–118):
`"currentInCelsius" in refSkill` is Python `in` on an arbitrary value, and
line 118's subscripting raises on a non-dict. -/
def thermoRefStep (refSkill : J) (acc : Dev) : Except String Dev := do
  let hasC ← pyIn "currentInCelsius" refSkill
  if hasC then do
    let _ ← jIndex refSkill "currentInCelsius"
    pure (dictSet acc "refTemperatureInDegC" (jget refSkill "currentInCelsius"))
  else pure acc

/-- The whole thermostat handler (source lines 81–118), in source order:
mode, the newer nested state shape, the legacy flat fields, the window-drop
detection, the always-assigned target temperature, and the `usedTempSensor`
reference scan. -/
def thermoSkillStep (skill : J) (dev : Dev) : Except String Dev := do
  let dev := if jHas skill "mode" then dictSet dev "mode" (jget skill "mode") else dev
  -- new state reporting in Fritz!OS 7.51/7.56
  let dev ← thermoStateStep skill dev
  -- old state reporting in Fritz!OS 7.29/7.31
  let dev :=
    if jHas skill "summerActive" then
      dictSet dev "summerActive" (jget skill "summerActive")
    else dev
  let dev :=
    if jHas skill "holidayActive" then
      dictSet dev "holidayActive" (jget skill "holidayActive")
    else dev
  let dev ← thermoTddStep skill dev
  let dev :=
    if jHas skill "targetTemp" then
      dictSet dev "targetTemperatureInDegC" (jget skill "targetTemp")
    else dictSet dev "targetTemperatureInDegC" J.null
  if jHas skill "usedTempSensor" then
    let refSkills ← jIndex (jget skill "usedTempSensor") "skills"
    let refL ← asArr refSkills
    refL.foldlM (fun acc refSkill => thermoRefStep refSkill acc) dev
  else
    pure dev

/-- One `skill` record of the inner loop of `getSimplifiedDevices`
(source lines 75–166): dispatch on `skill["type"]` and conditionally extend
the flat record. -/
def processSkill (skill : J) (dev : Dev) : Except String Dev := do
  let skillType ← jIndex skill "type"
  if jeqStr skillType "SmartHomeThermostat" then
    thermoSkillStep skill dev
  else if jeqStr skillType "SmartHomeTemperatureSensor" then
    pure (dictSet dev "currentTemperatureInDegC"
      (if jHas skill "currentInCelsius" then jget skill "currentInCelsius" else J.null))
  else if jeqStr skillType "SmartHomeHumiditySensor" then
    pure (dictSet dev "currentHumidityInPct"
      (if jHas skill "currentInPercent" then jget skill "currentInPercent" else J.null))
  else if jeqStr skillType "SmartHomeBattery" then
    pure (dictSet dev "batteryChargeLevelInPct"
      (if jHas skill "chargeLevelInPercent" then jget skill "chargeLevelInPercent" else J.null))
  else if jeqStr skillType "SmartHomeMultimeter" then
    let dev :=
      if jHas skill "electricCurrentInAmpere" then
        dictSet dev "currentInAmp" (jget skill "electricCurrentInAmpere")
      else dev
    let dev :=
      if jHas skill "powerConsumptionInWatt" then
        dictSet dev "powerInWatt" (jget skill "powerConsumptionInWatt")
      else dev
    let dev ←
      if jHas skill "powerPerHour" then do
        let q ← pyFloat (jget skill "powerPerHour")
        pure (dictSet dev "energyInKWH" (J.num (q / 1000)))
      else pure dev
    pure (if jHas skill "voltageInVolt" then
      dictSet dev "voltageInVolt" (jget skill "voltageInVolt") else dev)
  else if jeqStr skillType "SmartHomeSocket" then
    pure dev
  else if jeqStr skillType "SmartHomeSwitch" then
    pure (if jHas skill "state" then
      dictSet dev "powerSwitchOn" (J.bool (jeqStr (jget skill "state") "ON")) else dev)
  else
    pure dev

/-- One `unit` record of `getSimplifiedDevices` (source lines 66–167). -/
def processUnit (unit : J) (dev : Dev) : Except String Dev := do
  let _unitDisplayName ← jIndex unit "displayName"
  let skills ← jIndex unit "skills"
  let _unitType ← jIndex unit "type"
  let _unitID ← jIndex unit "id"
  let skillsL ← asArr skills
  skillsL.foldlM (fun acc skill => processSkill skill acc) dev

/-- One `device` record of `getSimplifiedDevices` (source lines 48–170):
read the eight required attributes, build the five always-present fields and
fold the units over the record.  Returns the id together with the record. -/
def processDevice (device : J) : Except String (J × Dev) := do
  let devDisplayName ← jIndex device "displayName"
  let _category ← jIndex device "category"
  let _deviceType ← jIndex device "type"
  let units ← jIndex device "units"
  let connected ← jIndex device "masterConnectionState"
  let devID ← jIndex device "id"
  let model ← jIndex device "model"
  let identifier ← jIndex device "actorIdentificationNumber"
  let simpleDev : Dev :=
    [("id", devID), ("displayName", devDisplayName),
     ("present", J.bool (jeqStr connected "CONNECTED")),
     ("model", model), ("identifier", identifier)]
  let unitsL ← asArr units
  let simpleDev ← unitsL.foldlM (fun acc unit => processUnit unit acc) simpleDev
  pure (devID, simpleDev)

/-- The normalizer (source lines 45–179), applied to the already fetched JSON
document instead of performing the network call. -/
def getSimplifiedDevices (data : J) : Except String SDict := do
  let d1 ← jIndex data "data"
  let devices ← jIndex d1 "devices"
  let devL ← asArr devices
  devL.foldlM (fun acc device => do
    let r ← processDevice device
    pure (dictSetJ acc r.1 r.2)) []

/-- Lexicographic string order on the underlying character lists (Python's
code-point string comparison). -/
def pyStrLE (a b : String) : Prop := a.data ≤ b.data

instance : DecidableRel pyStrLE := fun a b => by unfold pyStrLE; infer_instance

/-- Sort key of `getDevices`: the record's display name (a string on every
record the normalizer produces). -/
def sortKey (dev : Dev) : String :=
  match dget dev "displayName" with
  | .str s => s
  | _ => ""

/-- The comparison underlying `sorted(..., key = lambda x: x["displayName"])`. -/
def devLE (a b : Dev) : Prop := pyStrLE (sortKey a) (sortKey b)

instance : DecidableRel devLE := fun a b => by unfold devLE; infer_instance

instance : IsTotal Dev devLE := ⟨fun a b => le_total (sortKey a).data (sortKey b).data⟩

instance : IsTrans Dev devLE := ⟨fun _ _ _ h h2 => le_trans h h2⟩

/-- The sorter of `getDevices` (source line 326): a stable sort of the dict's
values by display name; a stable insertion sort produces exactly the output
of Python's stable `sorted`. -/
def sortDevices (m : SDict) : List Dev :=
  List.insertionSort devLE (m.map (·.2))

/-- `getDevices` (source lines 323–329), on the fetched JSON document. -/
def getDevices (data : J) : Except String (List Dev) :=
  (getSimplifiedDevices data).map sortDevices

/-- One printed line of an emitter: either a `multigraph` group header or a
plain line.  A plain line is tagged with the id of the device whose loop
iteration printed it (`none` for static/global lines); `Entry.render`
recovers the exact printed text. -/
inductive Entry where
  | header (g : String)
  | line (ann : Option J) (s : String)

/-- The exact text of a printed line. -/
def Entry.render : Entry → String
  | .header g => "multigraph " ++ g
  | .line _ s => s

/-- Emitter output: the list of printed lines in order. -/
abbrev Out := List Entry

/-- A static printed line. -/
def nline (s : String) : Entry := Entry.line none s

/-- A line printed inside a `for dev in simpleDevices` loop. -/
def dline (dev : Dev) (s : String) : Entry := Entry.line (some (dget dev "id")) s

/-- `dev["present"]` truthiness test of the emitters. -/
def devPresent (dev : Dev) : Bool := jTruthy (dget dev "present")

/-- `"\x7b\x7d".format(dev["id"])`. -/
def idStr (dev : Dev) : String := fmtJ (dget dev "id")

/-- `"\x7b\x7d".format(dev["displayName"])`. -/
def nameStr (dev : Dev) : String := fmtJ (dget dev "displayName")

/-- The `[model - identifier]` suffix of the `.info` metadata lines. -/
def infoSuffix (dev : Dev) : String :=
  "[" ++ fmtJ (dget dev "model") ++ " - " ++ fmtJ (dget dev "identifier") ++ "]"

/-- `"targetTemperatureInDegC" in dev and dev["targetTemperatureInDegC"] is
not None`. -/
def hasTargetSet (dev : Dev) : Bool :=
  dictHas dev "targetTemperatureInDegC" && !(jIsNull (dget dev "targetTemperatureInDegC"))

/-- Metric emitter, `temperatures` loop (source lines 192–195). -/
def measTemps (devs : List Dev) : Out :=
  devs.flatMap (fun dev =>
    if devPresent dev && dictHas dev "currentTemperatureInDegC" then
      [dline dev ("t" ++ idStr dev ++ ".value " ++ fmtJ (dget dev "currentTemperatureInDegC"))]
    else [])

/-- Metric emitter, `humidity` loop (source lines 200–203). -/
def measHumidity (devs : List Dev) : Out :=
  devs.flatMap (fun dev =>
    if devPresent dev && dictHas dev "currentHumidityInPct" then
      [dline dev ("humidity" ++ idStr dev ++ ".value " ++ fmtJ (dget dev "currentHumidityInPct"))]
    else [])

/-- Metric emitter, `temperatures_target` loop (source lines 211–214). -/
def measTarget (devs : List Dev) : Out :=
  devs.flatMap (fun dev =>
    if devPresent dev && hasTargetSet dev then
      [dline dev ("tsoll" ++ idStr dev ++ ".value " ++ fmtJ (dget dev "targetTemperatureInDegC"))]
    else [])

/-- Conditional value lines of one `temperatures.t<id>` block (source lines
223–230). -/
def measTempDetailLines (dev : Dev) : List String :=
  (if dictHas dev "refTemperatureInDegC" then
    ["tref" ++ idStr dev ++ ".value " ++ fmtJ (dget dev "refTemperatureInDegC")] else []) ++
  (if dictHas dev "currentTemperatureInDegC" then
    ["t" ++ idStr dev ++ ".value " ++ fmtJ (dget dev "currentTemperatureInDegC")] else []) ++
  (if hasTargetSet dev then
    ["tsoll" ++ idStr dev ++ ".value " ++ fmtJ (dget dev "targetTemperatureInDegC")] else [])

/-- Metric emitter, per-device `temperatures.t<id>` blocks (source lines
216–230): the whole block, header included, is guarded by `dev["present"]`. -/
def measTempDetail (devs : List Dev) : Out :=
  devs.flatMap (fun dev =>
    if devPresent dev then
      [nline "", Entry.header ("temperatures.t" ++ idStr dev)] ++
        (measTempDetailLines dev).map (dline dev)
    else [])

/-- Metric emitter, `thermostat_modes` loop (source lines 237–240). -/
def measModes (devs : List Dev) : Out :=
  devs.flatMap (fun dev =>
    if devPresent dev && dictHas dev "windowOpen" then
      [dline dev ("windowopenmode" ++ idStr dev ++ ".value " ++
        toString (pyToInt (dget dev "windowOpen")))]
    else [])

/-- Conditional value lines of one `thermostat_modes.id<id>` block (source
lines 250–257). -/
def measModesDetailLines (dev : Dev) : List String :=
  (if dictHas dev "windowOpen" then
    ["windowopenmode" ++ idStr dev ++ ".value " ++ toString (pyToInt (dget dev "windowOpen"))]
   else []) ++
  (if dictHas dev "summerActive" then
    ["summermode" ++ idStr dev ++ ".value " ++ toString (pyToInt (dget dev "summerActive"))]
   else []) ++
  (if dictHas dev "holidayActive" then
    ["holidaymode" ++ idStr dev ++ ".value " ++ toString (pyToInt (dget dev "holidayActive"))]
   else [])

/-- The guard of both per-device `thermostat_modes.id<id>` blocks (source
lines 245 and 443): any of the three mode fields, with no presence check. -/
def modesFlag (dev : Dev) : Bool :=
  dictHas dev "windowOpen" || dictHas dev "summerActive" || dictHas dev "holidayActive"

/-- Metric emitter, per-device `thermostat_modes.id<id>` blocks (source lines
243–257): guarded by any of the three mode fields, with no presence check. -/
def measModesDetail (devs : List Dev) : Out :=
  devs.flatMap (fun dev =>
    if modesFlag dev then
      [nline "\n", Entry.header ("thermostat_modes.id" ++ idStr dev)] ++
        (measModesDetailLines dev).map (dline dev)
    else [])

/-- Metric emitter, `battery` loop (source lines 262–265). -/
def measBattery (devs : List Dev) : Out :=
  devs.flatMap (fun dev =>
    if devPresent dev && dictHas dev "batteryChargeLevelInPct" then
      [dline dev ("battery" ++ idStr dev ++ ".value " ++
        fmtJ (dget dev "batteryChargeLevelInPct"))]
    else [])

/-- Metric emitter, `batterylow` loop (source lines 272–275). -/
def measBatteryLow (devs : List Dev) : Out :=
  devs.flatMap (fun dev =>
    if devPresent dev && dictHas dev "batteryLow" then
      [dline dev ("batterylow" ++ idStr dev ++ ".value " ++ fmtJ (dget dev "batteryLow"))]
    else [])

/-- Metric emitter, `voltage` loop (source lines 281–284). -/
def measVoltage (devs : List Dev) : Out :=
  devs.flatMap (fun dev =>
    if devPresent dev && dictHas dev "voltageInVolt" then
      [dline dev ("voltage" ++ idStr dev ++ ".value " ++ fmtJ (dget dev "voltageInVolt"))]
    else [])

/-- Metric emitter, `smarthome_power` loop (source lines 290–293). -/
def measPower (devs : List Dev) : Out :=
  devs.flatMap (fun dev =>
    if devPresent dev && dictHas dev "powerInWatt" then
      [dline dev ("smarthome_power" ++ idStr dev ++ ".value " ++ fmtJ (dget dev "powerInWatt"))]
    else [])

/-- Metric emitter, `smarthome_powerAvg` loop (source lines 298–305):
`int(dev["energyInKWH"] * 3600000)` rendered right-aligned to width 15. -/
def measPowerAvg (devs : List Dev) : Out :=
  devs.flatMap (fun dev =>
    if devPresent dev && dictHas dev "energyInKWH" then
      [dline dev ("smarthome_powerAvg" ++ idStr dev ++ ".value " ++
        pad15 (toString (ratTrunc (jNumVal (dget dev "energyInKWH") * 3600000))))]
    else [])

/-- Metric emitter, `energy` loop (source lines 310–313). -/
def measEnergy (devs : List Dev) : Out :=
  devs.flatMap (fun dev =>
    if devPresent dev && dictHas dev "energyInKWH" then
      [dline dev ("energy" ++ idStr dev ++ ".value " ++ fmtJ (dget dev "energyInKWH"))]
    else [])

/-- Metric emitter, `smarthome_powerswitch` loop (source lines 317–320). -/
def measPowerSwitch (devs : List Dev) : Out :=
  devs.flatMap (fun dev =>
    if devPresent dev && dictHas dev "powerSwitchOn" then
      [dline dev ("smarthome_powerswitch" ++ idStr dev ++ ".value " ++
        toString (pyToInt (dget dev "powerSwitchOn")))]
    else [])

/-- The Metric Emitter `print_smart_home_measurements` (source lines 186–320)
as the ordered list of printed lines. -/
def print_smart_home_measurements (devs : List Dev) : Out :=
  [Entry.header "temperatures"] ++ measTemps devs ++
  [nline "", Entry.header "humidity"] ++ measHumidity devs ++
  [nline "\n", Entry.header "temperatures_target"] ++ measTarget devs ++
  measTempDetail devs ++
  [nline "\n", Entry.header "thermostat_modes"] ++ measModes devs ++
  measModesDetail devs ++
  [nline "", Entry.header "battery"] ++ measBattery devs ++
  [nline "", Entry.header "batterylow"] ++ measBatteryLow devs ++
  [nline "", Entry.header "voltage"] ++ measVoltage devs ++
  [nline "", Entry.header "smarthome_power"] ++ measPower devs ++
  [nline "", Entry.header "smarthome_powerAvg"] ++ measPowerAvg devs ++
  [nline "", Entry.header "energy"] ++ measEnergy devs ++
  [nline "", Entry.header "smarthome_powerswitch"] ++ measPowerSwitch devs

/-- Metadata lines of one device in the `temperatures` group (source lines
343–349). -/
def cfgTempsLines (dev : Dev) : List String :=
  ["t" ++ idStr dev ++ ".label " ++ nameStr dev,
   "t" ++ idStr dev ++ ".type GAUGE",
   "t" ++ idStr dev ++ ".graph LINE",
   "t" ++ idStr dev ++ ".info Locally measured temperature " ++ infoSuffix dev]

/-- Metadata emitter, `temperatures` loop (source lines 343–349): note the
missing presence check. -/
def cfgTemps (devs : List Dev) : Out :=
  devs.flatMap (fun dev =>
    if dictHas dev "currentTemperatureInDegC" then (cfgTempsLines dev).map (dline dev) else [])

/-- Metadata lines of one device in the `humidity` group (source lines
361–370). -/
def cfgHumidityLines (dev : Dev) : List String :=
  ["humidity" ++ idStr dev ++ ".label " ++ nameStr dev,
   "humidity" ++ idStr dev ++ ".type GAUGE",
   "humidity" ++ idStr dev ++ ".graph LINE",
   "humidity" ++ idStr dev ++ ".max 100",
   "humidity" ++ idStr dev ++ ".min   0",
   "humidity" ++ idStr dev ++ ".warning 30:70",
   "humidity" ++ idStr dev ++ ".critical 20:75",
   "humidity" ++ idStr dev ++ ".info Humidity " ++ infoSuffix dev]

/-- Metadata emitter, `humidity` loop (source lines 361–370). -/
def cfgHumidity (devs : List Dev) : Out :=
  devs.flatMap (fun dev =>
    if devPresent dev && dictHas dev "currentHumidityInPct" then
      (cfgHumidityLines dev).map (dline dev)
    else [])

/-- Metadata lines of one device in the `temperatures_target` group (source
lines 383–389). -/
def cfgTargetLines (dev : Dev) : List String :=
  ["tsoll" ++ idStr dev ++ ".label " ++ nameStr dev,
   "tsoll" ++ idStr dev ++ ".type GAUGE",
   "tsoll" ++ idStr dev ++ ".graph LINE",
   "tsoll" ++ idStr dev ++ ".info Target temperature " ++ infoSuffix dev]

/-- Metadata emitter, `temperatures_target` loop (source lines 383–389): no
presence check and no `is not None` check. -/
def cfgTarget (devs : List Dev) : Out :=
  devs.flatMap (fun dev =>
    if dictHas dev "targetTemperatureInDegC" then (cfgTargetLines dev).map (dline dev) else [])

/-- Conditional metadata lines of one `temperatures.t<id>` block (source
lines 401–419). -/
def cfgTempDetailLines (dev : Dev) : List String :=
  (if dictHas dev "currentTemperatureInDegC" then
    ["t" ++ idStr dev ++ ".label measured locally",
     "t" ++ idStr dev ++ ".type GAUGE",
     "t" ++ idStr dev ++ ".graph LINE",
     "t" ++ idStr dev ++ ".warning 15:30",
     "t" ++ idStr dev ++ ".critical 10:35",
     "t" ++ idStr dev ++ ".info Locally measured temperature " ++ infoSuffix dev]
   else []) ++
  (if dictHas dev "refTemperatureInDegC" then
    ["tref" ++ idStr dev ++ ".label measured ref.",
     "tref" ++ idStr dev ++ ".type GAUGE",
     "tref" ++ idStr dev ++ ".graph LINE",
     "tref" ++ idStr dev ++ ".info Measured reference temperature " ++ infoSuffix dev]
   else []) ++
  (if dictHas dev "targetTemperatureInDegC" then
    ["tsoll" ++ idStr dev ++ ".label target",
     "tsoll" ++ idStr dev ++ ".type GAUGE",
     "tsoll" ++ idStr dev ++ ".graph LINE",
     "tsoll" ++ idStr dev ++ ".info Target temperature " ++ infoSuffix dev]
   else [])

/-- Metadata emitter, per-device `temperatures.t<id>` blocks (source lines
392–419): one block for every device, no presence check. -/
def cfgTempDetail (devs : List Dev) : Out :=
  devs.flatMap (fun dev =>
    [nline "\n", Entry.header ("temperatures.t" ++ idStr dev),
     nline ("graph_title Temperatures for " ++ nameStr dev),
     nline "graph_vlabel degrees Celsius",
     nline "graph_category smart home",
     nline "graph_scale no",
     nline "\n"] ++
    (cfgTempDetailLines dev).map (dline dev))

/-- Metadata lines of one device in the `thermostat_modes` group (source
lines 430–438). -/
def cfgModesLines (dev : Dev) : List String :=
  ["windowopenmode" ++ idStr dev ++ ".label " ++ nameStr dev,
   "windowopenmode" ++ idStr dev ++ ".type GAUGE",
   "windowopenmode" ++ idStr dev ++ ".graph LINE",
   "windowopenmode" ++ idStr dev ++ ".max   1",
   "windowopenmode" ++ idStr dev ++ ".min   0",
   "windowopenmode" ++ idStr dev ++ ".info Window Open Mode " ++ infoSuffix dev]

/-- Metadata emitter, `thermostat_modes` loop (source lines 430–438). -/
def cfgModes (devs : List Dev) : Out :=
  devs.flatMap (fun dev =>
    if devPresent dev && dictHas dev "windowOpen" then (cfgModesLines dev).map (dline dev)
    else [])

/-- Conditional metadata lines of one `thermostat_modes.id<id>` block (source
lines 453–475). -/
def cfgModesDetailLines (dev : Dev) : List String :=
  (if dictHas dev "windowOpen" then
    ["windowopenmode" ++ idStr dev ++ ".label Window Open",
     "windowopenmode" ++ idStr dev ++ ".type  GAUGE",
     "windowopenmode" ++ idStr dev ++ ".graph LINE",
     "windowopenmode" ++ idStr dev ++ ".max   1",
     "windowopenmode" ++ idStr dev ++ ".min   0",
     "windowopenmode" ++ idStr dev ++ ".info Window Open Mode " ++ infoSuffix dev]
   else []) ++
  (if dictHas dev "summerActive" then
    ["summermode" ++ idStr dev ++ ".label Summer Mode",
     "summermode" ++ idStr dev ++ ".type  GAUGE",
     "summermode" ++ idStr dev ++ ".graph LINE",
     "summermode" ++ idStr dev ++ ".max   1",
     "summermode" ++ idStr dev ++ ".min   0",
     "summermode" ++ idStr dev ++ ".info Summer Mode " ++ infoSuffix dev]
   else []) ++
  (if dictHas dev "holidayActive" then
    ["holidaymode" ++ idStr dev ++ ".label Holiday Mode",
     "holidaymode" ++ idStr dev ++ ".type  GAUGE",
     "holidaymode" ++ idStr dev ++ ".graph LINE",
     "holidaymode" ++ idStr dev ++ ".max   1",
     "holidaymode" ++ idStr dev ++ ".min   0",
     "holidaymode" ++ idStr dev ++ ".info Holiday Mode " ++ infoSuffix dev]
   else [])

/-- Metadata emitter, per-device `thermostat_modes.id<id>` blocks (source
lines 441–476): same guard as the metric emitter, no presence check. -/
def cfgModesDetail (devs : List Dev) : Out :=
  devs.flatMap (fun dev =>
    if modesFlag dev then
      [nline "\n", Entry.header ("thermostat_modes.id" ++ idStr dev),
       nline ("graph_title AVM Fritz!Box SmartHome Modes for " ++ nameStr dev),
       nline "graph_vlabel on/off",
       nline "graph_category smart home",
       nline "graph_scale no",
       nline "\n"] ++
      (cfgModesDetailLines dev).map (dline dev)
    else [])

/-- Metadata lines of one device in the `battery` group (source lines
489–498). -/
def cfgBatteryLines (dev : Dev) : List String :=
  ["battery" ++ idStr dev ++ ".label " ++ nameStr dev,
   "battery" ++ idStr dev ++ ".type GAUGE",
   "battery" ++ idStr dev ++ ".graph LINE",
   "battery" ++ idStr dev ++ ".max 100",
   "battery" ++ idStr dev ++ ".min   0",
   "battery" ++ idStr dev ++ ".warning 30:110",
   "battery" ++ idStr dev ++ ".critical 10:120",
   "battery" ++ idStr dev ++ ".info Battery " ++ infoSuffix dev]

/-- Metadata emitter, `battery` loop (source lines 489–498). -/
def cfgBattery (devs : List Dev) : Out :=
  devs.flatMap (fun dev =>
    if devPresent dev && dictHas dev "batteryChargeLevelInPct" then
      (cfgBatteryLines dev).map (dline dev)
    else [])

/-- Metadata lines of one device in the `batterylow` group (source lines
510–519). -/
def cfgBatteryLowLines (dev : Dev) : List String :=
  ["batterylow" ++ idStr dev ++ ".label " ++ nameStr dev,
   "batterylow" ++ idStr dev ++ ".type GAUGE",
   "batterylow" ++ idStr dev ++ ".graph LINE",
   "batterylow" ++ idStr dev ++ ".max   1",
   "batterylow" ++ idStr dev ++ ".min   0",
   "batterylow" ++ idStr dev ++ ".warning  0.5",
   "batterylow" ++ idStr dev ++ ".critical 1",
   "batterylow" ++ idStr dev ++ ".info Battery Low Warning " ++ infoSuffix dev]

/-- Metadata emitter, `batterylow` loop (source lines 510–519). -/
def cfgBatteryLow (devs : List Dev) : Out :=
  devs.flatMap (fun dev =>
    if devPresent dev && dictHas dev "batteryLow" then
      (cfgBatteryLowLines dev).map (dline dev)
    else [])

/-- Metadata lines of one device in the `voltage` group (source lines
530–538). -/
def cfgVoltageLines (dev : Dev) : List String :=
  ["voltage" ++ idStr dev ++ ".label " ++ nameStr dev,
   "voltage" ++ idStr dev ++ ".type GAUGE",
   "voltage" ++ idStr dev ++ ".graph LINE",
   "voltage" ++ idStr dev ++ ".min     0",
   "voltage" ++ idStr dev ++ ".warning  220:240",
   "voltage" ++ idStr dev ++ ".critical 210:245",
   "voltage" ++ idStr dev ++ ".info Voltage " ++ infoSuffix dev]

/-- Metadata emitter, `voltage` loop (source lines 530–538). -/
def cfgVoltage (devs : List Dev) : Out :=
  devs.flatMap (fun dev =>
    if devPresent dev && dictHas dev "voltageInVolt" then
      (cfgVoltageLines dev).map (dline dev)
    else [])

/-- `powerIdList` (source line 549). -/
def powerIdList (devs : List Dev) : List String :=
  (devs.filter (fun dev => devPresent dev && dictHas dev "powerInWatt")).map
    (fun dev => "smarthome_power" ++ idStr dev)

/-- Metadata lines of one device in the `smarthome_power` group (source lines
554–562). -/
def cfgPowerLines (dev : Dev) : List String :=
  ["smarthome_power" ++ idStr dev ++ ".label " ++ nameStr dev,
   "smarthome_power" ++ idStr dev ++ ".type GAUGE",
   "smarthome_power" ++ idStr dev ++ ".graph LINE",
   "smarthome_power" ++ idStr dev ++ ".min      0",
   "smarthome_power" ++ idStr dev ++ ".warning  1500",
   "smarthome_power" ++ idStr dev ++ ".critical 2000",
   "smarthome_power" ++ idStr dev ++ ".info Power " ++ infoSuffix dev]

/-- Metadata emitter, `smarthome_power` loop (source lines 554–562). -/
def cfgPower (devs : List Dev) : Out :=
  devs.flatMap (fun dev =>
    if devPresent dev && dictHas dev "powerInWatt" then (cfgPowerLines dev).map (dline dev)
    else [])

/-- `powerAvgIdList` (source line 580). -/
def powerAvgIdList (devs : List Dev) : List String :=
  (devs.filter (fun dev => devPresent dev && dictHas dev "energyInKWH")).map
    (fun dev => "smarthome_powerAvg" ++ idStr dev)

/-- Metadata lines of one device in the `smarthome_powerAvg` group (source
lines 585–591). -/
def cfgPowerAvgLines (dev : Dev) : List String :=
  ["smarthome_powerAvg" ++ idStr dev ++ ".label " ++ nameStr dev,
   "smarthome_powerAvg" ++ idStr dev ++ ".type DERIVE",
   "smarthome_powerAvg" ++ idStr dev ++ ".graph LINE",
   "smarthome_powerAvg" ++ idStr dev ++ ".min   0",
   "smarthome_powerAvg" ++ idStr dev ++ ".info Power Average " ++ infoSuffix dev]

/-- Metadata emitter, `smarthome_powerAvg` loop (source lines 585–591). -/
def cfgPowerAvg (devs : List Dev) : Out :=
  devs.flatMap (fun dev =>
    if devPresent dev && dictHas dev "energyInKWH" then (cfgPowerAvgLines dev).map (dline dev)
    else [])

/-- `energyIdList` (source line 605). -/
def energyIdList (devs : List Dev) : List String :=
  (devs.filter (fun dev => devPresent dev && dictHas dev "energyInKWH")).map
    (fun dev => "energy" ++ idStr dev)

/-- Metadata lines of one device in the `energy` group (source lines
610–616). -/
def cfgEnergyLines (dev : Dev) : List String :=
  ["energy" ++ idStr dev ++ ".label " ++ nameStr dev,
   "energy" ++ idStr dev ++ ".type GAUGE",
   "energy" ++ idStr dev ++ ".graph LINE",
   "energy" ++ idStr dev ++ ".min   0",
   "energy" ++ idStr dev ++ ".info Energy " ++ infoSuffix dev]

/-- Metadata emitter, `energy` loop (source lines 610–616). -/
def cfgEnergy (devs : List Dev) : Out :=
  devs.flatMap (fun dev =>
    if devPresent dev && dictHas dev "energyInKWH" then (cfgEnergyLines dev).map (dline dev)
    else [])

/-- Metadata lines of one device in the `smarthome_powerswitch` group (source
lines 632–639). -/
def cfgPowerSwitchLines (dev : Dev) : List String :=
  ["smarthome_powerswitch" ++ idStr dev ++ ".label " ++ nameStr dev,
   "smarthome_powerswitch" ++ idStr dev ++ ".type GAUGE",
   "smarthome_powerswitch" ++ idStr dev ++ ".graph LINE",
   "smarthome_powerswitch" ++ idStr dev ++ ".min   0",
   "smarthome_powerswitch" ++ idStr dev ++ ".max   1",
   "smarthome_powerswitch" ++ idStr dev ++ ".info On/Off " ++ infoSuffix dev]

/-- Metadata emitter, `smarthome_powerswitch` loop (source lines 632–639). -/
def cfgPowerSwitch (devs : List Dev) : Out :=
  devs.flatMap (fun dev =>
    if devPresent dev && dictHas dev "powerSwitchOn" then
      (cfgPowerSwitchLines dev).map (dline dev)
    else [])

/-- `",ADDNAN" * (len(idList) - 1)` (Python's string repetition, empty for a
non-positive count). -/
def addnanRep (n : Nat) : String := String.join (List.replicate (n - 1) ",ADDNAN")

/-- The three `total_<group>` pseudo-metric lines (source lines 567–569,
593–595, 618–620). -/
def totalLines (total : String) (idList : List String) : Out :=
  [nline (total ++ ".label       total"),
   nline (total ++ ".cdef        " ++ String.intercalate "," idList ++ addnanRep idList.length),
   nline (total ++ ".min         0")]

/-- The final `host_name` override (source lines 642–643), with the
environment read `os.environ.get('host_name')` passed in as a parameter. -/
def hostNameLines (hostName : Option String) : Out :=
  match hostName with
  | some h => if h ≠ "" then [nline ("host_name " ++ h)] else []
  | none => []

/-- The Metadata Emitter `print_config` (source lines 332–643) as the ordered
list of printed lines. -/
def print_config (devs : List Dev) (hostName : Option String) : Out :=
  [Entry.header "temperatures",
   nline "graph_title AVM Fritz!Box SmartHome Temperatures (locally measured)",
   nline "graph_vlabel degrees Celsius",
   nline "graph_category smart home",
   nline "graph_scale no",
   nline ""] ++ cfgTemps devs ++
  [nline "\n", Entry.header "humidity",
   nline "graph_title AVM Fritz!Box SmartHome Humidity",
   nline "graph_vlabel percent",
   nline "graph_category smart home",
   nline "graph_scale no",
   nline "\n"] ++ cfgHumidity devs ++
  [nline "\n", Entry.header "temperatures_target",
   nline "graph_title AVM Fritz!Box SmartHome Target Temperatures",
   nline "graph_vlabel degrees Celsius",
   nline "graph_category smart home",
   nline "graph_scale no",
   nline ""] ++ cfgTarget devs ++
  cfgTempDetail devs ++
  [nline "\n", Entry.header "thermostat_modes",
   nline "graph_title AVM Fritz!Box SmartHome Thermostat Modes",
   nline "graph_vlabel on/off",
   nline "graph_category smart home",
   nline "graph_scale no",
   nline "\n"] ++ cfgModes devs ++
  cfgModesDetail devs ++
  [nline "\n", Entry.header "battery",
   nline "graph_title AVM Fritz!Box SmartHome Battery",
   nline "graph_vlabel percent",
   nline "graph_category smart home",
   nline "graph_scale no",
   nline "\n"] ++ cfgBattery devs ++
  [nline "\n", Entry.header "batterylow",
   nline "graph_title AVM Fritz!Box SmartHome Battery Low Warning",
   nline "graph_vlabel ok/warning",
   nline "graph_category smart home",
   nline "graph_scale no",
   nline "\n"] ++ cfgBatteryLow devs ++
  [nline "\n", Entry.header "voltage",
   nline "graph_title AVM Fritz!Box SmartHome Voltage",
   nline "graph_vlabel Volt",
   nline "graph_category smart home",
   nline "graph_scale no",
   nline "\n"] ++ cfgVoltage devs ++
  [nline "\n", Entry.header "smarthome_power",
   nline "graph_title AVM Fritz!Box SmartHome Power",
   nline "graph_vlabel Watt",
   nline "graph_category smart home",
   nline "graph_scale no",
   nline ("graph_order total_smarthome_power " ++ String.intercalate " " (powerIdList devs)),
   nline "\n"] ++ cfgPower devs ++
  totalLines "total_smarthome_power" (powerIdList devs) ++
  [nline "\n", Entry.header "smarthome_powerAvg",
   nline "graph_title AVM Fritz!Box SmartHome Power Average (from Energy)",
   nline "graph_vlabel W",
   nline "graph_category smart home",
   nline "graph_scale no",
   nline ("graph_order total_smarthome_powerAvg " ++
     String.intercalate " " (powerAvgIdList devs)),
   nline "\n"] ++ cfgPowerAvg devs ++
  totalLines "total_smarthome_powerAvg" (powerAvgIdList devs) ++
  [nline "\n", Entry.header "energy",
   nline "graph_title AVM Fritz!Box SmartHome Energy",
   nline "graph_vlabel kWh",
   nline "graph_category smart home",
   nline "graph_scale no",
   nline ("graph_order total_energy " ++ String.intercalate " " (energyIdList devs)),
   nline "\n"] ++ cfgEnergy devs ++
  totalLines "total_energy" (energyIdList devs) ++
  [nline "\n", Entry.header "smarthome_powerswitch",
   nline "graph_title AVM Fritz!Box SmartHome Power Switch",
   nline "graph_vlabel On/Off",
   nline "graph_category smart home",
   nline "graph_scale no",
   nline "\n"] ++ cfgPowerSwitch devs ++
  hostNameLines hostName

/-- The ordered list of multigraph group names announced by an emitter
output (the `multigraph <name>` header lines, in order). -/
def groupNames (o : Out) : List String :=
  o.filterMap (fun e => match e with | Entry.header g => some g | Entry.line _ _ => none)

/-- Group/id pairs of an emitter output: each device-tagged line is paired
with the group announced by the closest preceding header (`cur` is the group
in effect before the output starts). -/
def gip : Option String → Out → List (String × J)
  | _, [] => []
  | _, (Entry.header h) :: rest => gip (some h) rest
  | cur, (Entry.line ann _) :: rest =>
    (match cur, ann with
     | some g, some i => [(g, i)]
     | _, _ => []) ++ gip cur rest

/-- The group in effect after an output has been printed. -/
def lastG : Option String → Out → Option String
  | c, [] => c
  | _, (Entry.header h) :: rest => lastG (some h) rest
  | c, (Entry.line _ _) :: rest => lastG c rest

/-- Closed form of the group/id pairs of the Metric Emitter: per group, the
devices that receive a value line, in output order. -/
def measPairs (devs : List Dev) : List (String × J) :=
  (devs.filter (fun dev => devPresent dev && dictHas dev "currentTemperatureInDegC")).map
    (fun dev => (("temperatures" : String), dget dev "id")) ++
  (devs.filter (fun dev => devPresent dev && dictHas dev "currentHumidityInPct")).map
    (fun dev => (("humidity" : String), dget dev "id")) ++
  (devs.filter (fun dev => devPresent dev && hasTargetSet dev)).map
    (fun dev => (("temperatures_target" : String), dget dev "id")) ++
  (devs.flatMap (fun dev =>
    if devPresent dev then
      (measTempDetailLines dev).map (fun _ => ("temperatures.t" ++ idStr dev, dget dev "id"))
    else [])) ++
  (devs.filter (fun dev => devPresent dev && dictHas dev "windowOpen")).map
    (fun dev => (("thermostat_modes" : String), dget dev "id")) ++
  (devs.flatMap (fun dev =>
    if modesFlag dev then
      (measModesDetailLines dev).map
        (fun _ => ("thermostat_modes.id" ++ idStr dev, dget dev "id"))
    else [])) ++
  (devs.filter (fun dev => devPresent dev && dictHas dev "batteryChargeLevelInPct")).map
    (fun dev => (("battery" : String), dget dev "id")) ++
  (devs.filter (fun dev => devPresent dev && dictHas dev "batteryLow")).map
    (fun dev => (("batterylow" : String), dget dev "id")) ++
  (devs.filter (fun dev => devPresent dev && dictHas dev "voltageInVolt")).map
    (fun dev => (("voltage" : String), dget dev "id")) ++
  (devs.filter (fun dev => devPresent dev && dictHas dev "powerInWatt")).map
    (fun dev => (("smarthome_power" : String), dget dev "id")) ++
  (devs.filter (fun dev => devPresent dev && dictHas dev "energyInKWH")).map
    (fun dev => (("smarthome_powerAvg" : String), dget dev "id")) ++
  (devs.filter (fun dev => devPresent dev && dictHas dev "energyInKWH")).map
    (fun dev => (("energy" : String), dget dev "id")) ++
  (devs.filter (fun dev => devPresent dev && dictHas dev "powerSwitchOn")).map
    (fun dev => (("smarthome_powerswitch" : String), dget dev "id"))

/-- Closed form of the group/id pairs of the Metadata Emitter. -/
def cfgPairs (devs : List Dev) : List (String × J) :=
  (devs.flatMap (fun dev =>
    if dictHas dev "currentTemperatureInDegC" then
      (cfgTempsLines dev).map (fun _ => (("temperatures" : String), dget dev "id"))
    else [])) ++
  (devs.flatMap (fun dev =>
    if devPresent dev && dictHas dev "currentHumidityInPct" then
      (cfgHumidityLines dev).map (fun _ => (("humidity" : String), dget dev "id"))
    else [])) ++
  (devs.flatMap (fun dev =>
    if dictHas dev "targetTemperatureInDegC" then
      (cfgTargetLines dev).map (fun _ => (("temperatures_target" : String), dget dev "id"))
    else [])) ++
  (devs.flatMap (fun dev =>
    (cfgTempDetailLines dev).map (fun _ => ("temperatures.t" ++ idStr dev, dget dev "id")))) ++
  (devs.flatMap (fun dev =>
    if devPresent dev && dictHas dev "windowOpen" then
      (cfgModesLines dev).map (fun _ => (("thermostat_modes" : String), dget dev "id"))
    else [])) ++
  (devs.flatMap (fun dev =>
    if modesFlag dev then
      (cfgModesDetailLines dev).map
        (fun _ => ("thermostat_modes.id" ++ idStr dev, dget dev "id"))
    else [])) ++
  (devs.flatMap (fun dev =>
    if devPresent dev && dictHas dev "batteryChargeLevelInPct" then
      (cfgBatteryLines dev).map (fun _ => (("battery" : String), dget dev "id"))
    else [])) ++
  (devs.flatMap (fun dev =>
    if devPresent dev && dictHas dev "batteryLow" then
      (cfgBatteryLowLines dev).map (fun _ => (("batterylow" : String), dget dev "id"))
    else [])) ++
  (devs.flatMap (fun dev =>
    if devPresent dev && dictHas dev "voltageInVolt" then
      (cfgVoltageLines dev).map (fun _ => (("voltage" : String), dget dev "id"))
    else [])) ++
  (devs.flatMap (fun dev =>
    if devPresent dev && dictHas dev "powerInWatt" then
      (cfgPowerLines dev).map (fun _ => (("smarthome_power" : String), dget dev "id"))
    else [])) ++
  (devs.flatMap (fun dev =>
    if devPresent dev && dictHas dev "energyInKWH" then
      (cfgPowerAvgLines dev).map (fun _ => (("smarthome_powerAvg" : String), dget dev "id"))
    else [])) ++
  (devs.flatMap (fun dev =>
    if devPresent dev && dictHas dev "energyInKWH" then
      (cfgEnergyLines dev).map (fun _ => (("energy" : String), dget dev "id"))
    else [])) ++
  (devs.flatMap (fun dev =>
    if devPresent dev && dictHas dev "powerSwitchOn" then
      (cfgPowerSwitchLines dev).map
        (fun _ => (("smarthome_powerswitch" : String), dget dev "id"))
    else []))

/-- Closed form of the ordered group-name list of the Metric Emitter. -/
def measGroups (devs : List Dev) : List String :=
  ["temperatures", "humidity", "temperatures_target"] ++
  (devs.filter devPresent).map (fun dev => "temperatures.t" ++ idStr dev) ++
  ["thermostat_modes"] ++
  (devs.filter modesFlag).map (fun dev => "thermostat_modes.id" ++ idStr dev) ++
  ["battery", "batterylow", "voltage", "smarthome_power", "smarthome_powerAvg", "energy",
   "smarthome_powerswitch"]

/-- Closed form of the ordered group-name list of the Metadata Emitter: the
per-device temperature blocks appear for every device, present or not. -/
def cfgGroups (devs : List Dev) : List String :=
  ["temperatures", "humidity", "temperatures_target"] ++
  devs.map (fun dev => "temperatures.t" ++ idStr dev) ++
  ["thermostat_modes"] ++
  (devs.filter modesFlag).map (fun dev => "thermostat_modes.id" ++ idStr dev) ++
  ["battery", "batterylow", "voltage", "smarthome_power", "smarthome_powerAvg", "energy",
   "smarthome_powerswitch"]

/-- Test fixture: a raw device with the eight required attributes. -/
def mkDevice (name : String) (idq : ℚ) (conn : String) (units : List J) : J :=
  J.obj [("displayName", J.str name), ("category", J.str "THERMOSTAT"),
         ("type", J.str "dev"), ("units", J.arr units),
         ("masterConnectionState", J.str conn), ("id", J.num idq),
         ("model", J.str "M"), ("actorIdentificationNumber", J.str "A1")]

/-- Test fixture: a raw unit with the four required attributes. -/
def mkUnit (skills : List J) : J :=
  J.obj [("displayName", J.str "u"), ("skills", J.arr skills),
         ("type", J.str "ut"), ("id", J.num 100)]

/-- Test fixture: a raw input document. -/
def mkInput (devices : List J) : J :=
  J.obj [("data", J.obj [("devices", J.arr devices)])]

/-- The single normalized record of a one-device result (for concrete
evaluations). -/
def firstDev (r : Except String SDict) : Dev :=
  match r with
  | .ok m => (m.map (·.2)).headD []
  | .error _ => []

/-- C1 fixture: a thermostat skill carrying both the newer nested state shape
(`state.current = "HOLIDAY"`) and the legacy flat field `summerActive = v`. -/
def c1Input (v : J) : J :=
  mkInput [mkDevice "T" 7 "CONNECTED" [mkUnit [J.obj
    [("type", J.str "SmartHomeThermostat"),
     ("state", J.obj [("current", J.str "HOLIDAY")]),
     ("summerActive", v)]]]]

/-- C1 fixture without the legacy field: the newer shape alone. -/
def c1InputNewOnly : J :=
  mkInput [mkDevice "T" 7 "CONNECTED" [mkUnit [J.obj
    [("type", J.str "SmartHomeThermostat"),
     ("state", J.obj [("current", J.str "HOLIDAY")])]]]]

/-- C2 fixture: a thermostat skill with the newer shape and
`state.current = "WINDOW_OPEN"`, no legacy fields. -/
def c2Input : J :=
  mkInput [mkDevice "T" 7 "CONNECTED" [mkUnit [J.obj
    [("type", J.str "SmartHomeThermostat"),
     ("state", J.obj [("current", J.str "WINDOW_OPEN")])]]]]

/-- C5 fixture: a multimeter skill with `powerPerHour = 500`. -/
def c5Input : J :=
  mkInput [mkDevice "P" 7 "CONNECTED" [mkUnit [J.obj
    [("type", J.str "SmartHomeMultimeter"), ("powerPerHour", J.num 500)]]]]

/-- The device sequence of a `getDevices` result (for concrete evaluations). -/
def devsOf (r : Except String (List Dev)) : List Dev :=
  match r with
  | .ok devs => devs
  | .error _ => []

/-- The normalized record the C5 fixture produces. -/
def c5dev : Dev :=
  [("id", J.num 7), ("displayName", J.str "P"), ("present", J.bool true),
   ("model", J.str "M"), ("identifier", J.str "A1"),
   ("energyInKWH", J.num ((500 : ℚ) / 1000))]

/-- C4 fixture: a disconnected temperature sensor reporting 20 °C. -/
def c4Input : J :=
  mkInput [mkDevice "S" 9 "DISCONNECTED" [mkUnit [J.obj
    [("type", J.str "SmartHomeTemperatureSensor"), ("currentInCelsius", J.num 20)]]]]

/-- C4 fixture for the witness: a disconnected thermostat with a legacy
`summerActive` flag (so the modes detail block fires). -/
def c4bInput : J :=
  mkInput [mkDevice "S" 9 "DISCONNECTED" [mkUnit [J.obj
    [("type", J.str "SmartHomeThermostat"), ("summerActive", J.num 1)]]]]

/-- The normalized record the C4 witness fixture produces. -/
def c4bDev : Dev :=
  [("id", J.num 9), ("displayName", J.str "S"), ("present", J.bool false),
   ("model", J.str "M"), ("identifier", J.str "A1"),
   ("summerActive", J.num 1), ("targetTemperatureInDegC", J.null)]

/-- C3 fixture: a single disconnected temperature sensor. -/
def c3Input : J :=
  mkInput [mkDevice "S" 5 "DISCONNECTED" [mkUnit [J.obj
    [("type", J.str "SmartHomeTemperatureSensor"), ("currentInCelsius", J.num 21)]]]]

/-- The normalized record the C3 fixture produces. -/
def c3dev : Dev :=
  [("id", J.num 5), ("displayName", J.str "S"), ("present", J.bool false),
   ("model", J.str "M"), ("identifier", J.str "A1"),
   ("currentTemperatureInDegC", J.num 21)]

/-- A skill record carrying a `type` that none of the six field-extracting
handlers match (socket and unknown types are allowed). -/
def inertSkill (skill : J) : Bool :=
  jHas skill "type" &&
  !(jeqStr (jget skill "type") "SmartHomeThermostat") &&
  !(jeqStr (jget skill "type") "SmartHomeTemperatureSensor") &&
  !(jeqStr (jget skill "type") "SmartHomeHumiditySensor") &&
  !(jeqStr (jget skill "type") "SmartHomeBattery") &&
  !(jeqStr (jget skill "type") "SmartHomeMultimeter") &&
  !(jeqStr (jget skill "type") "SmartHomeSwitch")

/-- A unit with the four required attributes whose skills are all inert. -/
def inertUnit (unit : J) : Bool :=
  jHas unit "displayName" && jHas unit "type" && jHas unit "id" &&
  (match jGet? unit "skills" with
   | some (J.arr skills) => skills.all inertSkill
   | _ => false)

/-- A device with the eight required attributes and only inert skills. -/
def inertDevice (device : J) : Bool :=
  jHas device "displayName" && jHas device "category" && jHas device "type" &&
  jHas device "masterConnectionState" && jHas device "id" &&
  jHas device "model" && jHas device "actorIdentificationNumber" &&
  (match jGet? device "units" with
   | some (J.arr units) => units.all inertUnit
   | _ => false)

/-- C6 fixture: a device with a socket skill and an unrecognized skill. -/
def c6Device : J :=
  mkDevice "X" 3 "CONNECTED" [mkUnit
    [J.obj [("type", J.str "SmartHomeSocket")],
     J.obj [("type", J.str "SmartHomeFutureThing"), ("mystery", J.num 42)]]]

/-- Is an `Except` value a success? -/
def isOkE {ε α : Type} : Except ε α → Bool
  | .ok _ => true
  | .error _ => false

/-- The eight device attributes read unconditionally (source lines 49–60). -/
def required8 : List String :=
  ["displayName", "category", "type", "units", "masterConnectionState", "id", "model",
   "actorIdentificationNumber"]

/-- Malformed input per the claim: the `data` or `devices` key is missing, or
some device lacks one of the eight required attributes. -/
def badInput (j : J) : Prop :=
  jGet? j "data" = none
  ∨ (∃ d, jGet? j "data" = some d ∧ jGet? d "devices" = none)
  ∨ (∃ d l, jGet? j "data" = some d ∧ jGet? d "devices" = some (J.arr l)
      ∧ ∃ dev ∈ l, ∃ k ∈ required8, jGet? dev k = none)

/-- Structurally well-formed skill: has a `type`; a thermostat's optional
`state` and `temperatureDropDetection`, when present, are objects; its
optional `usedTempSensor`, when present, carries a `skills` list of objects;
a multimeter's optional `powerPerHour`, when present, is numeric.  No
optional field is required to be present. -/
def wfSkill (skill : J) : Bool :=
  jHas skill "type" &&
  (if jeqStr (jget skill "type") "SmartHomeThermostat" then
    (!(jHas skill "state") || jIsObj (jget skill "state")) &&
    (!(jHas skill "temperatureDropDetection") ||
      jIsObj (jget skill "temperatureDropDetection")) &&
    (!(jHas skill "usedTempSensor") ||
      (match jGet? (jget skill "usedTempSensor") "skills" with
       | some (J.arr rl) => rl.all jIsObj
       | _ => false))
   else true) &&
  (if jeqStr (jget skill "type") "SmartHomeMultimeter" then
    (!(jHas skill "powerPerHour") ||
      (match jget skill "powerPerHour" with
       | J.num _ => true
       | J.bool _ => true
       | _ => false))
   else true)

/-- Structurally well-formed unit: the four required attributes, with a list
of well-formed skills. -/
def wfUnit (unit : J) : Bool :=
  jHas unit "displayName" && jHas unit "type" && jHas unit "id" &&
  (match jGet? unit "skills" with
   | some (J.arr skills) => skills.all wfSkill
   | _ => false)

/-- Structurally well-formed device: the eight required attributes, an id
that is hashable in Python (`simplifiedDevices[devID] = simpleDev` needs a
hashable key), with a list of well-formed units. -/
def wfDevice (device : J) : Bool :=
  jHas device "displayName" && jHas device "category" && jHas device "type" &&
  jHas device "masterConnectionState" && jHas device "id" &&
  jHashable (jget device "id") && jHas device "model" &&
  jHas device "actorIdentificationNumber" &&
  (match jGet? device "units" with
   | some (J.arr units) => units.all wfUnit
   | _ => false)

/-- Structurally well-formed input document. -/
def wellFormed (j : J) : Bool :=
  match jGet? j "data" with
  | some d =>
    (match jGet? d "devices" with
     | some (J.arr l) => l.all wfDevice
     | _ => false)
  | none => false

/-- C7 fixture: a thermostat skill with no optional fields at all. -/
def c7cInput : J :=
  mkInput [mkDevice "T" 4 "CONNECTED" [mkUnit [J.obj
    [("type", J.str "SmartHomeThermostat")]]]]

/-- The raw device list of an input document, when present. -/
def devicesArr (j : J) : Option (List J) :=
  match jGet? j "data" with
  | some d =>
    (match jGet? d "devices" with
     | some (J.arr l) => some l
     | _ => none)
  | none => none

/-- The record built from the last device (in input order) whose id compares
equal to `i`, folding over the raw device list. -/
def lastDevFrom (cur : Option Dev) (l : List J) (i : J) : Option Dev :=
  l.foldl (fun cur device =>
    match processDevice device with
    | .ok r => if jbeq r.1 i then some r.2 else cur
    | .error _ => cur) cur

/-- `lastDevFrom` started with no candidate. -/
def lastDev (l : List J) (i : J) : Option Dev := lastDevFrom none l i

/-- C10 fixture: first of two raw devices sharing id 7. -/
def c10raw1 : J := mkDevice "A" 7 "CONNECTED" []

/-- C10 fixture: second of two raw devices sharing id 7. -/
def c10raw2 : J := mkDevice "B" 7 "CONNECTED" []

/-- C10 fixture: input document with two devices of the same id. -/
def c10Input : J := mkInput [c10raw1, c10raw2]

/-- The record the first C10 device normalizes to. -/
def c10dev1 : Dev :=
  [("id", J.num 7), ("displayName", J.str "A"), ("present", J.bool true),
   ("model", J.str "M"), ("identifier", J.str "A1")]

/-- The record the second C10 device normalizes to. -/
def c10dev2 : Dev :=
  [("id", J.num 7), ("displayName", J.str "B"), ("present", J.bool true),
   ("model", J.str "M"), ("identifier", J.str "A1")]

mutual

theorem jbeq_iff : ∀ (a b : J), jbeq a b = true ↔ a = b
  | .null, .null => by simp [jbeq]
  | .null, .bool _ => by simp [jbeq]
  | .null, .num _ => by simp [jbeq]
  | .null, .str _ => by simp [jbeq]
  | .null, .arr _ => by simp [jbeq]
  | .null, .obj _ => by simp [jbeq]
  | .bool _, .null => by simp [jbeq]
  | .bool _, .bool _ => by simp [jbeq]
  | .bool _, .num _ => by simp [jbeq]
  | .bool _, .str _ => by simp [jbeq]
  | .bool _, .arr _ => by simp [jbeq]
  | .bool _, .obj _ => by simp [jbeq]
  | .num _, .null => by simp [jbeq]
  | .num _, .bool _ => by simp [jbeq]
  | .num _, .num _ => by simp [jbeq]
  | .num _, .str _ => by simp [jbeq]
  | .num _, .arr _ => by simp [jbeq]
  | .num _, .obj _ => by simp [jbeq]
  | .str _, .null => by simp [jbeq]
  | .str _, .bool _ => by simp [jbeq]
  | .str _, .num _ => by simp [jbeq]
  | .str _, .str _ => by simp [jbeq]
  | .str _, .arr _ => by simp [jbeq]
  | .str _, .obj _ => by simp [jbeq]
  | .arr _, .null => by simp [jbeq]
  | .arr _, .bool _ => by simp [jbeq]
  | .arr _, .num _ => by simp [jbeq]
  | .arr _, .str _ => by simp [jbeq]
  | .arr xs, .arr ys => by simp [jbeq, jbeqList_iff xs ys]
  | .arr _, .obj _ => by simp [jbeq]
  | .obj _, .null => by simp [jbeq]
  | .obj _, .bool _ => by simp [jbeq]
  | .obj _, .num _ => by simp [jbeq]
  | .obj _, .str _ => by simp [jbeq]
  | .obj _, .arr _ => by simp [jbeq]
  | .obj fs, .obj gs => by simp [jbeq, jbeqObj_iff fs gs]

theorem jbeqList_iff : ∀ (l m : List J), jbeqList l m = true ↔ l = m
  | [], [] => by simp [jbeqList]
  | [], _ :: _ => by simp [jbeqList]
  | _ :: _, [] => by simp [jbeqList]
  | x :: l, y :: m => by simp [jbeqList, jbeq_iff x y, jbeqList_iff l m]

theorem jbeqObj_iff : ∀ (l m : List (String × J)), jbeqObj l m = true ↔ l = m
  | [], [] => by simp [jbeqObj]
  | [], _ :: _ => by simp [jbeqObj]
  | _ :: _, [] => by simp [jbeqObj]
  | (k, v) :: l, (k2, v2) :: m => by simp [jbeqObj, jbeq_iff v v2, jbeqObj_iff l m]

end

theorem gip_nil (c : Option String) : gip c [] = [] := rfl

theorem gip_header (c : Option String) (g : String) (rest : Out) :
    gip c (Entry.header g :: rest) = gip (some g) rest := by
  cases c <;> rfl

theorem gip_nline (c : Option String) (s : String) (rest : Out) :
    gip c (nline s :: rest) = gip c rest := by
  cases c <;> rfl

theorem gip_dline_some (g : String) (dev : Dev) (s : String) (rest : Out) :
    gip (some g) (dline dev s :: rest) = (g, dget dev "id") :: gip (some g) rest := rfl

theorem gip_dline_none (dev : Dev) (s : String) (rest : Out) :
    gip none (dline dev s :: rest) = gip none rest := rfl

theorem lastG_nil (c : Option String) : lastG c [] = c := rfl

theorem lastG_header (c : Option String) (g : String) (rest : Out) :
    lastG c (Entry.header g :: rest) = lastG (some g) rest := by
  cases c <;> rfl

theorem lastG_nline (c : Option String) (s : String) (rest : Out) :
    lastG c (nline s :: rest) = lastG c rest := rfl

theorem lastG_dline (c : Option String) (dev : Dev) (s : String) (rest : Out) :
    lastG c (dline dev s :: rest) = lastG c rest := rfl

theorem gip_append (A : Out) : ∀ (c : Option String) (B : Out),
    gip c (A ++ B) = gip c A ++ gip (lastG c A) B := by
  induction A with
  | nil => intro c B; simp [gip, lastG]
  | cons e rest ih =>
    intro c B
    cases e with
    | header g => simp [gip, lastG, ih]
    | line ann s =>
      cases c with
      | none => cases ann <;> simp [gip, lastG, ih]
      | some g => cases ann <;> simp [gip, lastG, ih]

theorem groupNames_append (A B : Out) :
    groupNames (A ++ B) = groupNames A ++ groupNames B := by
  simp [groupNames]

theorem groupNames_header (g : String) (rest : Out) :
    groupNames (Entry.header g :: rest) = g :: groupNames rest := rfl

theorem groupNames_nline (s : String) (rest : Out) :
    groupNames (nline s :: rest) = groupNames rest := rfl

theorem groupNames_dline (dev : Dev) (s : String) (rest : Out) :
    groupNames (dline dev s :: rest) = groupNames rest := rfl

theorem gip_mapDline (g : String) (dev : Dev) (ss : List String) (rest : Out) :
    gip (some g) (ss.map (dline dev) ++ rest) =
      ss.map (fun _ => (g, dget dev "id")) ++ gip (some g) rest := by
  induction ss with
  | nil => simp
  | cons s ss ih => simp [gip_dline_some, ih]

theorem lastG_mapDline (c : Option String) (dev : Dev) (ss : List String) :
    lastG c (ss.map (dline dev)) = c := by
  induction ss with
  | nil => rfl
  | cons s ss ih => simp [lastG_dline, ih]

theorem groupNames_mapDline (dev : Dev) (ss : List String) :
    groupNames (ss.map (dline dev)) = [] := by
  induction ss with
  | nil => rfl
  | cons s ss ih => simp [groupNames_dline, ih]

/-- Closed form of `gip` over a one-line-per-device loop segment. -/
theorem gip_loop1 (g : String) (p : Dev → Bool) (f : Dev → String) (devs : List Dev) :
    gip (some g) (devs.flatMap (fun dev => if p dev then [dline dev (f dev)] else [])) =
      (devs.filter p).map (fun dev => (g, dget dev "id")) := by
  induction devs with
  | nil => rfl
  | cons dev devs ih =>
    by_cases h : p dev <;> simp [h, gip_dline_some, ih]

theorem lastG_loop1 (c : Option String) (p : Dev → Bool) (f : Dev → String) (devs : List Dev) :
    lastG c (devs.flatMap (fun dev => if p dev then [dline dev (f dev)] else [])) = c := by
  induction devs with
  | nil => rfl
  | cons dev devs ih =>
    by_cases h : p dev <;> simp [h, lastG_dline, ih]

theorem groupNames_loop1 (p : Dev → Bool) (f : Dev → String) (devs : List Dev) :
    groupNames (devs.flatMap (fun dev => if p dev then [dline dev (f dev)] else [])) = [] := by
  induction devs with
  | nil => rfl
  | cons dev devs ih =>
    by_cases h : p dev <;> simp [h, groupNames_dline, ih]

theorem lastG_mapDline_append (c : Option String) (dev : Dev) (ss : List String) (rest : Out) :
    lastG c (ss.map (dline dev) ++ rest) = lastG c rest := by
  induction ss with
  | nil => rfl
  | cons s ss ih => simp only [List.map_cons, List.cons_append, lastG_dline, ih]

/-- Closed form of `gip` over a many-lines-per-device loop segment. -/
theorem gip_loopN (g : String) (p : Dev → Bool) (lns : Dev → List String) (devs : List Dev) :
    gip (some g) (devs.flatMap (fun dev => if p dev then (lns dev).map (dline dev) else [])) =
      devs.flatMap (fun dev =>
        if p dev then (lns dev).map (fun _ => (g, dget dev "id")) else []) := by
  induction devs with
  | nil => rfl
  | cons dev devs ih =>
    rw [List.flatMap_cons, List.flatMap_cons]
    by_cases h : p dev
    · rw [if_pos h, if_pos h, gip_mapDline, ih]
    · rw [if_neg h, if_neg h, List.nil_append, List.nil_append, ih]

theorem lastG_loopN (c : Option String) (p : Dev → Bool) (lns : Dev → List String)
    (devs : List Dev) :
    lastG c (devs.flatMap (fun dev => if p dev then (lns dev).map (dline dev) else [])) = c := by
  induction devs with
  | nil => rfl
  | cons dev devs ih =>
    rw [List.flatMap_cons]
    by_cases h : p dev
    · rw [if_pos h, lastG_mapDline_append, ih]
    · rw [if_neg h, List.nil_append, ih]

theorem groupNames_loopN (p : Dev → Bool) (lns : Dev → List String) (devs : List Dev) :
    groupNames (devs.flatMap (fun dev => if p dev then (lns dev).map (dline dev) else [])) =
      [] := by
  induction devs with
  | nil => rfl
  | cons dev devs ih =>
    by_cases h : p dev <;> simp [h, groupNames_append, groupNames_mapDline, ih]

theorem gip_measTempDetail (devs : List Dev) : ∀ (c : Option String),
    gip c (measTempDetail devs) =
      devs.flatMap (fun dev =>
        if devPresent dev then
          (measTempDetailLines dev).map
            (fun _ => ("temperatures.t" ++ idStr dev, dget dev "id"))
        else []) := by
  induction devs with
  | nil => intro c; rfl
  | cons dev devs ih =>
    intro c
    rw [measTempDetail, List.flatMap_cons, List.flatMap_cons, ← measTempDetail]
    by_cases h : devPresent dev
    · rw [if_pos h, if_pos h, List.append_assoc, List.cons_append, List.cons_append,
        List.nil_append, gip_nline, gip_header, gip_mapDline, ih]
    · rw [if_neg h, if_neg h, List.nil_append, List.nil_append, ih]

theorem groupNames_measTempDetail (devs : List Dev) :
    groupNames (measTempDetail devs) =
      (devs.filter devPresent).map (fun dev => "temperatures.t" ++ idStr dev) := by
  induction devs with
  | nil => rfl
  | cons dev devs ih =>
    rw [measTempDetail, List.flatMap_cons, ← measTempDetail]
    by_cases h : devPresent dev
    · rw [if_pos h, List.append_assoc, List.cons_append, List.cons_append, List.nil_append,
        groupNames_nline, groupNames_header, groupNames_append, groupNames_mapDline,
        List.nil_append, ih, List.filter_cons_of_pos h, List.map_cons]
    · rw [if_neg h, List.nil_append, ih, List.filter_cons_of_neg h]

theorem gip_measModesDetail (devs : List Dev) : ∀ (c : Option String),
    gip c (measModesDetail devs) =
      devs.flatMap (fun dev =>
        if modesFlag dev then
          (measModesDetailLines dev).map
            (fun _ => ("thermostat_modes.id" ++ idStr dev, dget dev "id"))
        else []) := by
  induction devs with
  | nil => intro c; rfl
  | cons dev devs ih =>
    intro c
    rw [measModesDetail, List.flatMap_cons, List.flatMap_cons, ← measModesDetail]
    by_cases h : modesFlag dev
    · rw [if_pos h, if_pos h, List.append_assoc, List.cons_append, List.cons_append,
        List.nil_append, gip_nline, gip_header, gip_mapDline, ih]
    · rw [if_neg h, if_neg h, List.nil_append, List.nil_append, ih]

theorem groupNames_measModesDetail (devs : List Dev) :
    groupNames (measModesDetail devs) =
      (devs.filter modesFlag).map (fun dev => "thermostat_modes.id" ++ idStr dev) := by
  induction devs with
  | nil => rfl
  | cons dev devs ih =>
    rw [measModesDetail, List.flatMap_cons, ← measModesDetail]
    by_cases h : modesFlag dev
    · rw [if_pos h, List.append_assoc, List.cons_append, List.cons_append, List.nil_append,
        groupNames_nline, groupNames_header, groupNames_append, groupNames_mapDline,
        List.nil_append, ih, List.filter_cons_of_pos h, List.map_cons]
    · rw [if_neg h, List.nil_append, ih, List.filter_cons_of_neg h]

theorem gip_cfgTempDetail (devs : List Dev) : ∀ (c : Option String),
    gip c (cfgTempDetail devs) =
      devs.flatMap (fun dev =>
        (cfgTempDetailLines dev).map
          (fun _ => ("temperatures.t" ++ idStr dev, dget dev "id"))) := by
  induction devs with
  | nil => intro c; rfl
  | cons dev devs ih =>
    intro c
    rw [cfgTempDetail, List.flatMap_cons, List.flatMap_cons, ← cfgTempDetail,
      List.append_assoc, List.cons_append, List.cons_append, List.cons_append,
      List.cons_append, List.cons_append, List.cons_append, List.cons_append,
      List.nil_append, gip_nline, gip_header, gip_nline, gip_nline, gip_nline, gip_nline,
      gip_nline, gip_mapDline, ih]

theorem groupNames_cfgTempDetail (devs : List Dev) :
    groupNames (cfgTempDetail devs) =
      devs.map (fun dev => "temperatures.t" ++ idStr dev) := by
  induction devs with
  | nil => rfl
  | cons dev devs ih =>
    rw [cfgTempDetail, List.flatMap_cons, ← cfgTempDetail, List.append_assoc,
      List.cons_append, List.cons_append, List.cons_append, List.cons_append,
      List.cons_append, List.cons_append, List.cons_append, List.nil_append,
      groupNames_nline, groupNames_header, groupNames_nline, groupNames_nline,
      groupNames_nline, groupNames_nline, groupNames_nline, groupNames_append,
      groupNames_mapDline, List.nil_append, ih, List.map_cons]

theorem gip_cfgModesDetail (devs : List Dev) : ∀ (c : Option String),
    gip c (cfgModesDetail devs) =
      devs.flatMap (fun dev =>
        if modesFlag dev then
          (cfgModesDetailLines dev).map
            (fun _ => ("thermostat_modes.id" ++ idStr dev, dget dev "id"))
        else []) := by
  induction devs with
  | nil => intro c; rfl
  | cons dev devs ih =>
    intro c
    rw [cfgModesDetail, List.flatMap_cons, List.flatMap_cons, ← cfgModesDetail]
    by_cases h : modesFlag dev
    · rw [if_pos h, if_pos h, List.append_assoc, List.cons_append, List.cons_append,
        List.cons_append, List.cons_append, List.cons_append, List.cons_append,
        List.cons_append, List.nil_append, gip_nline, gip_header, gip_nline, gip_nline,
        gip_nline, gip_nline, gip_nline, gip_mapDline, ih]
    · rw [if_neg h, if_neg h, List.nil_append, List.nil_append, ih]

theorem groupNames_cfgModesDetail (devs : List Dev) :
    groupNames (cfgModesDetail devs) =
      (devs.filter modesFlag).map (fun dev => "thermostat_modes.id" ++ idStr dev) := by
  induction devs with
  | nil => rfl
  | cons dev devs ih =>
    rw [cfgModesDetail, List.flatMap_cons, ← cfgModesDetail]
    by_cases h : modesFlag dev
    · rw [if_pos h, List.append_assoc, List.cons_append, List.cons_append, List.cons_append,
        List.cons_append, List.cons_append, List.cons_append, List.cons_append,
        List.nil_append, groupNames_nline, groupNames_header, groupNames_nline,
        groupNames_nline, groupNames_nline, groupNames_nline, groupNames_nline,
        groupNames_append, groupNames_mapDline, List.nil_append, ih,
        List.filter_cons_of_pos h, List.map_cons]
    · rw [if_neg h, List.nil_append, ih, List.filter_cons_of_neg h]

theorem groupNames_totalLines (total : String) (idList : List String) :
    groupNames (totalLines total idList) = [] := rfl

theorem gip_totalLines (c : Option String) (total : String) (idList : List String)
    (rest : Out) : gip c (totalLines total idList ++ rest) = gip c rest := by
  rw [totalLines, List.cons_append, List.cons_append, List.cons_append, List.nil_append,
    gip_nline, gip_nline, gip_nline]

theorem lastG_totalLines (c : Option String) (total : String) (idList : List String)
    (rest : Out) : lastG c (totalLines total idList ++ rest) = lastG c rest := rfl

theorem groupNames_hostNameLines (hostName : Option String) :
    groupNames (hostNameLines hostName) = [] := by
  cases hostName with
  | none => rfl
  | some h =>
    by_cases hh : h ≠ "" <;> simp [hostNameLines, hh, groupNames, nline]

theorem gip_hostNameLines (c : Option String) (hostName : Option String) :
    gip c (hostNameLines hostName) = [] := by
  cases hostName with
  | none => rfl
  | some h =>
    by_cases hh : h ≠ ""
    · rw [hostNameLines, if_pos hh, gip_nline, gip_nil]
    · rw [hostNameLines, if_neg hh, gip_nil]

theorem gip_measTemps (devs : List Dev) :
    gip (some "temperatures") (measTemps devs) =
      (devs.filter (fun dev => devPresent dev && dictHas dev "currentTemperatureInDegC")).map
        (fun dev => (("temperatures" : String), dget dev "id")) := by
  unfold measTemps; exact gip_loop1 _ _ _ devs

theorem lastG_measTemps (c : Option String) (devs : List Dev) :
    lastG c (measTemps devs) = c := by
  unfold measTemps; exact lastG_loop1 c _ _ devs

theorem groupNames_measTemps (devs : List Dev) : groupNames (measTemps devs) = [] := by
  unfold measTemps; exact groupNames_loop1 _ _ devs

theorem gip_measHumidity (devs : List Dev) :
    gip (some "humidity") (measHumidity devs) =
      (devs.filter (fun dev => devPresent dev && dictHas dev "currentHumidityInPct")).map
        (fun dev => (("humidity" : String), dget dev "id")) := by
  unfold measHumidity; exact gip_loop1 _ _ _ devs

theorem lastG_measHumidity (c : Option String) (devs : List Dev) :
    lastG c (measHumidity devs) = c := by
  unfold measHumidity; exact lastG_loop1 c _ _ devs

theorem groupNames_measHumidity (devs : List Dev) : groupNames (measHumidity devs) = [] := by
  unfold measHumidity; exact groupNames_loop1 _ _ devs

theorem gip_measTarget (devs : List Dev) :
    gip (some "temperatures_target") (measTarget devs) =
      (devs.filter (fun dev => devPresent dev && hasTargetSet dev)).map
        (fun dev => (("temperatures_target" : String), dget dev "id")) := by
  unfold measTarget; exact gip_loop1 _ _ _ devs

theorem lastG_measTarget (c : Option String) (devs : List Dev) :
    lastG c (measTarget devs) = c := by
  unfold measTarget; exact lastG_loop1 c _ _ devs

theorem groupNames_measTarget (devs : List Dev) : groupNames (measTarget devs) = [] := by
  unfold measTarget; exact groupNames_loop1 _ _ devs

theorem gip_measModes (devs : List Dev) :
    gip (some "thermostat_modes") (measModes devs) =
      (devs.filter (fun dev => devPresent dev && dictHas dev "windowOpen")).map
        (fun dev => (("thermostat_modes" : String), dget dev "id")) := by
  unfold measModes; exact gip_loop1 _ _ _ devs

theorem lastG_measModes (c : Option String) (devs : List Dev) :
    lastG c (measModes devs) = c := by
  unfold measModes; exact lastG_loop1 c _ _ devs

theorem groupNames_measModes (devs : List Dev) : groupNames (measModes devs) = [] := by
  unfold measModes; exact groupNames_loop1 _ _ devs

theorem gip_measBattery (devs : List Dev) :
    gip (some "battery") (measBattery devs) =
      (devs.filter (fun dev => devPresent dev && dictHas dev "batteryChargeLevelInPct")).map
        (fun dev => (("battery" : String), dget dev "id")) := by
  unfold measBattery; exact gip_loop1 _ _ _ devs

theorem lastG_measBattery (c : Option String) (devs : List Dev) :
    lastG c (measBattery devs) = c := by
  unfold measBattery; exact lastG_loop1 c _ _ devs

theorem groupNames_measBattery (devs : List Dev) : groupNames (measBattery devs) = [] := by
  unfold measBattery; exact groupNames_loop1 _ _ devs

theorem gip_measBatteryLow (devs : List Dev) :
    gip (some "batterylow") (measBatteryLow devs) =
      (devs.filter (fun dev => devPresent dev && dictHas dev "batteryLow")).map
        (fun dev => (("batterylow" : String), dget dev "id")) := by
  unfold measBatteryLow; exact gip_loop1 _ _ _ devs

theorem lastG_measBatteryLow (c : Option String) (devs : List Dev) :
    lastG c (measBatteryLow devs) = c := by
  unfold measBatteryLow; exact lastG_loop1 c _ _ devs

theorem groupNames_measBatteryLow (devs : List Dev) : groupNames (measBatteryLow devs) = [] := by
  unfold measBatteryLow; exact groupNames_loop1 _ _ devs

theorem gip_measVoltage (devs : List Dev) :
    gip (some "voltage") (measVoltage devs) =
      (devs.filter (fun dev => devPresent dev && dictHas dev "voltageInVolt")).map
        (fun dev => (("voltage" : String), dget dev "id")) := by
  unfold measVoltage; exact gip_loop1 _ _ _ devs

theorem lastG_measVoltage (c : Option String) (devs : List Dev) :
    lastG c (measVoltage devs) = c := by
  unfold measVoltage; exact lastG_loop1 c _ _ devs

theorem groupNames_measVoltage (devs : List Dev) : groupNames (measVoltage devs) = [] := by
  unfold measVoltage; exact groupNames_loop1 _ _ devs

theorem gip_measPower (devs : List Dev) :
    gip (some "smarthome_power") (measPower devs) =
      (devs.filter (fun dev => devPresent dev && dictHas dev "powerInWatt")).map
        (fun dev => (("smarthome_power" : String), dget dev "id")) := by
  unfold measPower; exact gip_loop1 _ _ _ devs

theorem lastG_measPower (c : Option String) (devs : List Dev) :
    lastG c (measPower devs) = c := by
  unfold measPower; exact lastG_loop1 c _ _ devs

theorem groupNames_measPower (devs : List Dev) : groupNames (measPower devs) = [] := by
  unfold measPower; exact groupNames_loop1 _ _ devs

theorem gip_measPowerAvg (devs : List Dev) :
    gip (some "smarthome_powerAvg") (measPowerAvg devs) =
      (devs.filter (fun dev => devPresent dev && dictHas dev "energyInKWH")).map
        (fun dev => (("smarthome_powerAvg" : String), dget dev "id")) := by
  unfold measPowerAvg; exact gip_loop1 _ _ _ devs

theorem lastG_measPowerAvg (c : Option String) (devs : List Dev) :
    lastG c (measPowerAvg devs) = c := by
  unfold measPowerAvg; exact lastG_loop1 c _ _ devs

theorem groupNames_measPowerAvg (devs : List Dev) : groupNames (measPowerAvg devs) = [] := by
  unfold measPowerAvg; exact groupNames_loop1 _ _ devs

theorem gip_measEnergy (devs : List Dev) :
    gip (some "energy") (measEnergy devs) =
      (devs.filter (fun dev => devPresent dev && dictHas dev "energyInKWH")).map
        (fun dev => (("energy" : String), dget dev "id")) := by
  unfold measEnergy; exact gip_loop1 _ _ _ devs

theorem lastG_measEnergy (c : Option String) (devs : List Dev) :
    lastG c (measEnergy devs) = c := by
  unfold measEnergy; exact lastG_loop1 c _ _ devs

theorem groupNames_measEnergy (devs : List Dev) : groupNames (measEnergy devs) = [] := by
  unfold measEnergy; exact groupNames_loop1 _ _ devs

theorem gip_measPowerSwitch (devs : List Dev) :
    gip (some "smarthome_powerswitch") (measPowerSwitch devs) =
      (devs.filter (fun dev => devPresent dev && dictHas dev "powerSwitchOn")).map
        (fun dev => (("smarthome_powerswitch" : String), dget dev "id")) := by
  unfold measPowerSwitch; exact gip_loop1 _ _ _ devs

theorem lastG_measPowerSwitch (c : Option String) (devs : List Dev) :
    lastG c (measPowerSwitch devs) = c := by
  unfold measPowerSwitch; exact lastG_loop1 c _ _ devs

theorem groupNames_measPowerSwitch (devs : List Dev) : groupNames (measPowerSwitch devs) = [] := by
  unfold measPowerSwitch; exact groupNames_loop1 _ _ devs

theorem gip_cfgTemps (devs : List Dev) :
    gip (some "temperatures") (cfgTemps devs) =
      devs.flatMap (fun dev =>
        if dictHas dev "currentTemperatureInDegC" then
          (cfgTempsLines dev).map (fun _ => (("temperatures" : String), dget dev "id"))
        else []) := by
  unfold cfgTemps; exact gip_loopN _ _ _ devs

theorem lastG_cfgTemps (c : Option String) (devs : List Dev) :
    lastG c (cfgTemps devs) = c := by
  unfold cfgTemps; exact lastG_loopN c _ _ devs

theorem groupNames_cfgTemps (devs : List Dev) : groupNames (cfgTemps devs) = [] := by
  unfold cfgTemps; exact groupNames_loopN _ _ devs

theorem gip_cfgHumidity (devs : List Dev) :
    gip (some "humidity") (cfgHumidity devs) =
      devs.flatMap (fun dev =>
        if devPresent dev && dictHas dev "currentHumidityInPct" then
          (cfgHumidityLines dev).map (fun _ => (("humidity" : String), dget dev "id"))
        else []) := by
  unfold cfgHumidity; exact gip_loopN _ _ _ devs

theorem lastG_cfgHumidity (c : Option String) (devs : List Dev) :
    lastG c (cfgHumidity devs) = c := by
  unfold cfgHumidity; exact lastG_loopN c _ _ devs

theorem groupNames_cfgHumidity (devs : List Dev) : groupNames (cfgHumidity devs) = [] := by
  unfold cfgHumidity; exact groupNames_loopN _ _ devs

theorem gip_cfgTarget (devs : List Dev) :
    gip (some "temperatures_target") (cfgTarget devs) =
      devs.flatMap (fun dev =>
        if dictHas dev "targetTemperatureInDegC" then
          (cfgTargetLines dev).map (fun _ => (("temperatures_target" : String), dget dev "id"))
        else []) := by
  unfold cfgTarget; exact gip_loopN _ _ _ devs

theorem lastG_cfgTarget (c : Option String) (devs : List Dev) :
    lastG c (cfgTarget devs) = c := by
  unfold cfgTarget; exact lastG_loopN c _ _ devs

theorem groupNames_cfgTarget (devs : List Dev) : groupNames (cfgTarget devs) = [] := by
  unfold cfgTarget; exact groupNames_loopN _ _ devs

theorem gip_cfgModes (devs : List Dev) :
    gip (some "thermostat_modes") (cfgModes devs) =
      devs.flatMap (fun dev =>
        if devPresent dev && dictHas dev "windowOpen" then
          (cfgModesLines dev).map (fun _ => (("thermostat_modes" : String), dget dev "id"))
        else []) := by
  unfold cfgModes; exact gip_loopN _ _ _ devs

theorem lastG_cfgModes (c : Option String) (devs : List Dev) :
    lastG c (cfgModes devs) = c := by
  unfold cfgModes; exact lastG_loopN c _ _ devs

theorem groupNames_cfgModes (devs : List Dev) : groupNames (cfgModes devs) = [] := by
  unfold cfgModes; exact groupNames_loopN _ _ devs

theorem gip_cfgBattery (devs : List Dev) :
    gip (some "battery") (cfgBattery devs) =
      devs.flatMap (fun dev =>
        if devPresent dev && dictHas dev "batteryChargeLevelInPct" then
          (cfgBatteryLines dev).map (fun _ => (("battery" : String), dget dev "id"))
        else []) := by
  unfold cfgBattery; exact gip_loopN _ _ _ devs

theorem lastG_cfgBattery (c : Option String) (devs : List Dev) :
    lastG c (cfgBattery devs) = c := by
  unfold cfgBattery; exact lastG_loopN c _ _ devs

theorem groupNames_cfgBattery (devs : List Dev) : groupNames (cfgBattery devs) = [] := by
  unfold cfgBattery; exact groupNames_loopN _ _ devs

theorem gip_cfgBatteryLow (devs : List Dev) :
    gip (some "batterylow") (cfgBatteryLow devs) =
      devs.flatMap (fun dev =>
        if devPresent dev && dictHas dev "batteryLow" then
          (cfgBatteryLowLines dev).map (fun _ => (("batterylow" : String), dget dev "id"))
        else []) := by
  unfold cfgBatteryLow; exact gip_loopN _ _ _ devs

theorem lastG_cfgBatteryLow (c : Option String) (devs : List Dev) :
    lastG c (cfgBatteryLow devs) = c := by
  unfold cfgBatteryLow; exact lastG_loopN c _ _ devs

theorem groupNames_cfgBatteryLow (devs : List Dev) : groupNames (cfgBatteryLow devs) = [] := by
  unfold cfgBatteryLow; exact groupNames_loopN _ _ devs

theorem gip_cfgVoltage (devs : List Dev) :
    gip (some "voltage") (cfgVoltage devs) =
      devs.flatMap (fun dev =>
        if devPresent dev && dictHas dev "voltageInVolt" then
          (cfgVoltageLines dev).map (fun _ => (("voltage" : String), dget dev "id"))
        else []) := by
  unfold cfgVoltage; exact gip_loopN _ _ _ devs

theorem lastG_cfgVoltage (c : Option String) (devs : List Dev) :
    lastG c (cfgVoltage devs) = c := by
  unfold cfgVoltage; exact lastG_loopN c _ _ devs

theorem groupNames_cfgVoltage (devs : List Dev) : groupNames (cfgVoltage devs) = [] := by
  unfold cfgVoltage; exact groupNames_loopN _ _ devs

theorem gip_cfgPower (devs : List Dev) :
    gip (some "smarthome_power") (cfgPower devs) =
      devs.flatMap (fun dev =>
        if devPresent dev && dictHas dev "powerInWatt" then
          (cfgPowerLines dev).map (fun _ => (("smarthome_power" : String), dget dev "id"))
        else []) := by
  unfold cfgPower; exact gip_loopN _ _ _ devs

theorem lastG_cfgPower (c : Option String) (devs : List Dev) :
    lastG c (cfgPower devs) = c := by
  unfold cfgPower; exact lastG_loopN c _ _ devs

theorem groupNames_cfgPower (devs : List Dev) : groupNames (cfgPower devs) = [] := by
  unfold cfgPower; exact groupNames_loopN _ _ devs

theorem gip_cfgPowerAvg (devs : List Dev) :
    gip (some "smarthome_powerAvg") (cfgPowerAvg devs) =
      devs.flatMap (fun dev =>
        if devPresent dev && dictHas dev "energyInKWH" then
          (cfgPowerAvgLines dev).map (fun _ => (("smarthome_powerAvg" : String), dget dev "id"))
        else []) := by
  unfold cfgPowerAvg; exact gip_loopN _ _ _ devs

theorem lastG_cfgPowerAvg (c : Option String) (devs : List Dev) :
    lastG c (cfgPowerAvg devs) = c := by
  unfold cfgPowerAvg; exact lastG_loopN c _ _ devs

theorem groupNames_cfgPowerAvg (devs : List Dev) : groupNames (cfgPowerAvg devs) = [] := by
  unfold cfgPowerAvg; exact groupNames_loopN _ _ devs

theorem gip_cfgEnergy (devs : List Dev) :
    gip (some "energy") (cfgEnergy devs) =
      devs.flatMap (fun dev =>
        if devPresent dev && dictHas dev "energyInKWH" then
          (cfgEnergyLines dev).map (fun _ => (("energy" : String), dget dev "id"))
        else []) := by
  unfold cfgEnergy; exact gip_loopN _ _ _ devs

theorem lastG_cfgEnergy (c : Option String) (devs : List Dev) :
    lastG c (cfgEnergy devs) = c := by
  unfold cfgEnergy; exact lastG_loopN c _ _ devs

theorem groupNames_cfgEnergy (devs : List Dev) : groupNames (cfgEnergy devs) = [] := by
  unfold cfgEnergy; exact groupNames_loopN _ _ devs

theorem gip_cfgPowerSwitch (devs : List Dev) :
    gip (some "smarthome_powerswitch") (cfgPowerSwitch devs) =
      devs.flatMap (fun dev =>
        if devPresent dev && dictHas dev "powerSwitchOn" then
          (cfgPowerSwitchLines dev).map (fun _ => (("smarthome_powerswitch" : String), dget dev "id"))
        else []) := by
  unfold cfgPowerSwitch; exact gip_loopN _ _ _ devs

theorem lastG_cfgPowerSwitch (c : Option String) (devs : List Dev) :
    lastG c (cfgPowerSwitch devs) = c := by
  unfold cfgPowerSwitch; exact lastG_loopN c _ _ devs

theorem groupNames_cfgPowerSwitch (devs : List Dev) : groupNames (cfgPowerSwitch devs) = [] := by
  unfold cfgPowerSwitch; exact groupNames_loopN _ _ devs

theorem gip_meas (devs : List Dev) :
    gip none (print_smart_home_measurements devs) = measPairs devs := by
  simp only [print_smart_home_measurements, measPairs, List.append_assoc, List.cons_append,
    List.nil_append, gip_append, gip_header, gip_nline,
    lastG_header, lastG_nline, lastG_nil,
    lastG_measTemps, lastG_measHumidity, lastG_measTarget, lastG_measModes,
    lastG_measBattery, lastG_measBatteryLow, lastG_measVoltage, lastG_measPower,
    lastG_measPowerAvg, lastG_measEnergy, lastG_measPowerSwitch,
    gip_measTemps, gip_measHumidity, gip_measTarget, gip_measTempDetail, gip_measModes,
    gip_measModesDetail, gip_measBattery, gip_measBatteryLow, gip_measVoltage,
    gip_measPower, gip_measPowerAvg, gip_measEnergy, gip_measPowerSwitch]

theorem groupNames_meas (devs : List Dev) :
    groupNames (print_smart_home_measurements devs) = measGroups devs := by
  simp only [print_smart_home_measurements, measGroups, List.append_assoc, List.cons_append,
    List.nil_append, groupNames_append, groupNames_header, groupNames_nline,
    groupNames_measTemps, groupNames_measHumidity, groupNames_measTarget,
    groupNames_measTempDetail, groupNames_measModes, groupNames_measModesDetail,
    groupNames_measBattery, groupNames_measBatteryLow, groupNames_measVoltage,
    groupNames_measPower, groupNames_measPowerAvg, groupNames_measEnergy,
    groupNames_measPowerSwitch, List.append_nil]

theorem gip_totalLines_alone (c : Option String) (total : String) (idList : List String) :
    gip c (totalLines total idList) = [] := by
  rw [totalLines, gip_nline, gip_nline, gip_nline, gip_nil]

theorem gip_config (devs : List Dev) (hostName : Option String) :
    gip none (print_config devs hostName) = cfgPairs devs := by
  simp only [print_config, cfgPairs, List.append_assoc, List.cons_append,
    List.nil_append, gip_append, gip_header, gip_nline, gip_totalLines, gip_hostNameLines,
    gip_totalLines_alone, lastG_header, lastG_nline, lastG_nil,
    lastG_cfgTemps, lastG_cfgHumidity, lastG_cfgTarget, lastG_cfgModes,
    lastG_cfgBattery, lastG_cfgBatteryLow, lastG_cfgVoltage, lastG_cfgPower,
    lastG_cfgPowerAvg, lastG_cfgEnergy, lastG_cfgPowerSwitch, lastG_totalLines,
    gip_cfgTemps, gip_cfgHumidity, gip_cfgTarget, gip_cfgTempDetail, gip_cfgModes,
    gip_cfgModesDetail, gip_cfgBattery, gip_cfgBatteryLow, gip_cfgVoltage,
    gip_cfgPower, gip_cfgPowerAvg, gip_cfgEnergy, gip_cfgPowerSwitch, List.append_nil]

theorem groupNames_config (devs : List Dev) (hostName : Option String) :
    groupNames (print_config devs hostName) = cfgGroups devs := by
  simp only [print_config, cfgGroups, List.append_assoc, List.cons_append,
    List.nil_append, groupNames_append, groupNames_header, groupNames_nline,
    groupNames_totalLines, groupNames_hostNameLines,
    groupNames_cfgTemps, groupNames_cfgHumidity, groupNames_cfgTarget,
    groupNames_cfgTempDetail, groupNames_cfgModes, groupNames_cfgModesDetail,
    groupNames_cfgBattery, groupNames_cfgBatteryLow, groupNames_cfgVoltage,
    groupNames_cfgPower, groupNames_cfgPowerAvg, groupNames_cfgEnergy,
    groupNames_cfgPowerSwitch, List.append_nil]

@[simp] theorem except_bind_ok {ε α β : Type} (a : α) (f : α → Except ε β) :
    (Except.ok a >>= f) = f a := rfl

@[simp] theorem except_bind_error {ε α β : Type} (e : ε) (f : α → Except ε β) :
    ((Except.error e : Except ε α) >>= f) = Except.error e := rfl

@[simp] theorem except_pure_eq_ok {ε α : Type} (a : α) :
    (pure a : Except ε α) = Except.ok a := rfl

theorem dget?_dictSet_self (k : String) (v : J) : ∀ (d : Dev),
    dget? (dictSet d k v) k = some v := by
  intro d
  induction d with
  | nil => simp [dictSet, dget?]
  | cons p rest ih =>
    by_cases h : p.1 == k
    · simp [dictSet, h, dget?]
    · simp only [dictSet, h, Bool.false_eq_true, if_false]
      simpa [dget?, h] using ih

theorem dget?_dictSet_ne (k k2 : String) (v : J) (hne : k2 ≠ k) : ∀ (d : Dev),
    dget? (dictSet d k v) k2 = dget? d k2 := by
  intro d
  have hbeq : (k == k2) = false := by simp [hne.symm]
  induction d with
  | nil => simp [dictSet, dget?, hbeq]
  | cons p rest ih =>
    by_cases h : p.1 == k
    · have hp2 : (p.1 == k2) = false := by
        have : p.1 = k := by simpa using h
        simp [this, hne.symm]
      simp [dictSet, h, dget?, hp2]
    · simp only [dictSet, h, Bool.false_eq_true, if_false]
      by_cases h2 : p.1 == k2
      · simp [dget?, h2]
      · simpa [dget?, h2] using ih

theorem dget_dictSet_self (d : Dev) (k : String) (v : J) : dget (dictSet d k v) k = v := by
  simp [dget, dget?_dictSet_self]

theorem dget_dictSet_ne (d : Dev) (k k2 : String) (v : J) (hne : k2 ≠ k) :
    dget (dictSet d k v) k2 = dget d k2 := by
  simp [dget, dget?_dictSet_ne k k2 v hne]

theorem dictHas_dictSet (k k2 : String) (v : J) : ∀ (d : Dev),
    dictHas (dictSet d k v) k2 = (k2 == k || dictHas d k2) := by
  intro d
  induction d with
  | nil => simp [dictSet, dictHas, BEq.comm]
  | cons p rest ih =>
    by_cases h : p.1 == k
    · have hp : p.1 = k := by simpa using h
      by_cases h2 : k2 = k <;> simp [dictSet, h, dictHas, hp, h2]
    · simp only [dictSet, h, Bool.false_eq_true, if_false]
      by_cases h2 : p.1 == k2
      · simp [dictHas, h2]
      · simp only [dictHas, List.any_cons, h2, Bool.false_or]
        simpa [dictHas] using ih

theorem dictHas_eq_isSome_dget? (k : String) : ∀ (d : Dev),
    dictHas d k = (dget? d k).isSome := by
  intro d
  induction d with
  | nil => simp [dictHas, dget?]
  | cons p rest ih =>
    by_cases h : p.1 == k
    · simp [dictHas, dget?, h]
    · simpa [dictHas, dget?, h] using ih

theorem dget_ite_dictSet {c : Prop} [Decidable c] (x : Dev) (k k2 : String) (v : J)
    (h : k2 ≠ k) : dget (if c then dictSet x k v else x) k2 = dget x k2 := by
  split
  · exact dget_dictSet_ne x k k2 v h
  · rfl

theorem dget_ite_dictSet2 {c : Prop} [Decidable c] (x : Dev) (k k2 : String) (v w : J)
    (h : k2 ≠ k) :
    dget (if c then dictSet x k v else dictSet x k w) k2 = dget x k2 := by
  split
  · exact dget_dictSet_ne x k k2 v h
  · exact dget_dictSet_ne x k k2 w h

theorem bind_ok_iff {ε α β : Type} (x : Except ε α) (f : α → Except ε β) (b : β) :
    (x >>= f) = Except.ok b ↔ ∃ a, x = Except.ok a ∧ f a = Except.ok b := by
  cases x with
  | ok a => simp [except_bind_ok]
  | error e => simp [except_bind_error]

theorem isOkE_iff {ε α : Type} (x : Except ε α) : isOkE x = true ↔ ∃ v, x = Except.ok v := by
  cases x <;> simp [isOkE]

theorem jIndex_of_jHas (j : J) (k : String) (h : jHas j k = true) :
    jIndex j k = Except.ok (jget j k) := by
  unfold jHas at h
  unfold jIndex jget
  cases hv : jGet? j k with
  | none => rw [hv] at h; simp at h
  | some v => simp

theorem foldlM_except_preserve {α σ : Type} (P : σ → Prop) (f : σ → α → Except String σ)
    (hf : ∀ (d : σ) (a : α) (d2 : σ), f d a = Except.ok d2 → P d → P d2) :
    ∀ (l : List α) (d d2 : σ), List.foldlM f d l = Except.ok d2 → P d → P d2 := by
  intro l
  induction l with
  | nil =>
    intro d d2 h hp
    simp only [List.foldlM_nil, except_pure_eq_ok, Except.ok.injEq] at h
    subst h; exact hp
  | cons a l ih =>
    intro d d2 h hp
    rw [List.foldlM_cons] at h
    cases hfa : f d a with
    | error e => rw [hfa] at h; simp only [except_bind_error] at h; exact absurd h (by simp)
    | ok d1 => rw [hfa] at h; simp only [except_bind_ok] at h; exact ih d1 d2 h (hf d a d1 hfa hp)

theorem any_eq_find?_isSome {α : Type} (p : α → Bool) :
    ∀ l : List α, l.any p = (l.find? p).isSome := by
  intro l
  induction l with
  | nil => rfl
  | cons a l ih => cases hp : p a <;> simp [List.any_cons, List.find?, hp, ih]

theorem pyIn_obj (k : String) (fs : List (String × J)) :
    pyIn k (J.obj fs) = Except.ok (jHas (J.obj fs) k) := by
  simp only [pyIn, jHas, jGet?, Except.ok.injEq]
  rw [any_eq_find?_isSome]
  cases fs.find? (fun p => p.1 == k) <;> rfl

theorem dget?_ite_dictSet {c : Prop} [Decidable c] (x : Dev) (k k2 : String) (v : J)
    (h : k2 ≠ k) : dget? (if c then dictSet x k v else x) k2 = dget? x k2 := by
  split
  · exact dget?_dictSet_ne k k2 v h x
  · rfl

theorem dget?_ite_dictSet2 {c : Prop} [Decidable c] (x : Dev) (k k2 : String) (v w : J)
    (h : k2 ≠ k) :
    dget? (if c then dictSet x k v else dictSet x k w) k2 = dget? x k2 := by
  split
  · exact dget?_dictSet_ne k k2 v h x
  · exact dget?_dictSet_ne k k2 w h x

theorem thermoStateStep_nostate (skill : J) (h : jHas skill "state" = false) (d : Dev) :
    thermoStateStep skill d = Except.ok d := by
  unfold thermoStateStep
  rw [if_neg (by rw [h]; simp)]
  rfl

theorem thermoStateStep_dget?_ne (skill : J) (d d2 : Dev)
    (h : thermoStateStep skill d = Except.ok d2) (k : String)
    (n2 : k ≠ "summerActive") (n3 : k ≠ "holidyActive") (n4 : k ≠ "windowOpen") :
    dget? d2 k = dget? d k := by
  unfold thermoStateStep at h
  by_cases hst : jHas skill "state" = true
  · rw [if_pos hst] at h
    simp only [bind_ok_iff] at h
    obtain ⟨b, hpi, h⟩ := h
    cases b with
    | false =>
      simp only [Bool.false_eq_true, if_false, except_pure_eq_ok, Except.ok.injEq] at h
      subst h; rfl
    | true =>
      simp only [eq_self_iff_true, if_true, bind_ok_iff] at h
      obtain ⟨c, hji, h⟩ := h
      simp only [except_pure_eq_ok, Except.ok.injEq] at h
      subst h
      rw [dget?_dictSet_ne _ _ _ n4, dget?_dictSet_ne _ _ _ n3, dget?_dictSet_ne _ _ _ n2]
  · rw [if_neg hst] at h
    simp only [except_pure_eq_ok, Except.ok.injEq] at h
    subst h; rfl

theorem thermoStateStep_ok (skill : J)
    (h1 : (!(jHas skill "state") || jIsObj (jget skill "state")) = true) (d : Dev) :
    isOkE (thermoStateStep skill d) = true := by
  by_cases hst : jHas skill "state" = true
  · rw [hst] at h1
    simp only [Bool.not_true, Bool.false_or] at h1
    cases hjg : jget skill "state" with
    | obj fs =>
      simp only [thermoStateStep, hst, eq_self_iff_true, if_true, hjg, pyIn_obj,
        except_bind_ok]
      by_cases hcur : jHas (J.obj fs) "current" = true
      · rw [if_pos hcur, jIndex_of_jHas _ _ hcur]
        rfl
      · rw [if_neg hcur]; rfl
    | null => rw [hjg] at h1; simp [jIsObj] at h1
    | bool b => rw [hjg] at h1; simp [jIsObj] at h1
    | num q => rw [hjg] at h1; simp [jIsObj] at h1
    | str s => rw [hjg] at h1; simp [jIsObj] at h1
    | arr xs => rw [hjg] at h1; simp [jIsObj] at h1
  · simp only [thermoStateStep]
    rw [if_neg hst]; rfl

theorem thermoTddStep_notdd (skill : J)
    (h : jHas skill "temperatureDropDetection" = false) (d : Dev) :
    thermoTddStep skill d = Except.ok d := by
  unfold thermoTddStep
  rw [if_neg (by rw [h]; simp)]
  rfl

theorem thermoTddStep_dget?_ne (skill : J) (d d2 : Dev)
    (h : thermoTddStep skill d = Except.ok d2) (k : String) (n4 : k ≠ "windowOpen") :
    dget? d2 k = dget? d k := by
  unfold thermoTddStep at h
  by_cases htd : jHas skill "temperatureDropDetection" = true
  · rw [if_pos htd] at h
    simp only [bind_ok_iff] at h
    obtain ⟨b, hpi, h⟩ := h
    cases b with
    | false =>
      simp only [Bool.false_eq_true, if_false, except_pure_eq_ok, Except.ok.injEq] at h
      subst h; rfl
    | true =>
      simp only [eq_self_iff_true, if_true, bind_ok_iff] at h
      obtain ⟨c, hji, h⟩ := h
      simp only [except_pure_eq_ok, Except.ok.injEq] at h
      subst h
      exact dget?_dictSet_ne _ _ _ n4 d
  · rw [if_neg htd] at h
    simp only [except_pure_eq_ok, Except.ok.injEq] at h
    subst h; rfl

theorem thermoTddStep_ok (skill : J)
    (h2 : (!(jHas skill "temperatureDropDetection") ||
      jIsObj (jget skill "temperatureDropDetection")) = true) (d : Dev) :
    isOkE (thermoTddStep skill d) = true := by
  by_cases htd : jHas skill "temperatureDropDetection" = true
  · rw [htd] at h2
    simp only [Bool.not_true, Bool.false_or] at h2
    cases hjg : jget skill "temperatureDropDetection" with
    | obj fs =>
      simp only [thermoTddStep, htd, eq_self_iff_true, if_true, hjg, pyIn_obj,
        except_bind_ok]
      by_cases hw : jHas (J.obj fs) "isWindowOpen" = true
      · rw [if_pos hw, jIndex_of_jHas _ _ hw]
        rfl
      · rw [if_neg hw]; rfl
    | null => rw [hjg] at h2; simp [jIsObj] at h2
    | bool b => rw [hjg] at h2; simp [jIsObj] at h2
    | num q => rw [hjg] at h2; simp [jIsObj] at h2
    | str s => rw [hjg] at h2; simp [jIsObj] at h2
    | arr xs => rw [hjg] at h2; simp [jIsObj] at h2
  · simp only [thermoTddStep]
    rw [if_neg htd]; rfl

theorem thermoRefStep_dget?_ne (r : J) (acc acc2 : Dev)
    (h : thermoRefStep r acc = Except.ok acc2) (k : String)
    (n7 : k ≠ "refTemperatureInDegC") : dget? acc2 k = dget? acc k := by
  unfold thermoRefStep at h
  simp only [bind_ok_iff] at h
  obtain ⟨b, hpi, h⟩ := h
  cases b with
  | false =>
    simp only [Bool.false_eq_true, if_false, except_pure_eq_ok, Except.ok.injEq] at h
    subst h; rfl
  | true =>
    simp only [eq_self_iff_true, if_true, bind_ok_iff] at h
    obtain ⟨c, hji, h⟩ := h
    simp only [except_pure_eq_ok, Except.ok.injEq] at h
    subst h
    exact dget?_dictSet_ne _ _ _ n7 acc

theorem thermoRefStep_ok (r : J) (hobj : jIsObj r = true) (acc : Dev) :
    isOkE (thermoRefStep r acc) = true := by
  cases r with
  | obj fs =>
    simp only [thermoRefStep, pyIn_obj, except_bind_ok]
    by_cases hc : jHas (J.obj fs) "currentInCelsius" = true
    · rw [if_pos hc, jIndex_of_jHas _ _ hc]
      rfl
    · rw [if_neg hc]; rfl
  | null => simp [jIsObj] at hobj
  | bool b => simp [jIsObj] at hobj
  | num q => simp [jIsObj] at hobj
  | str s => simp [jIsObj] at hobj
  | arr xs => simp [jIsObj] at hobj

theorem refFoldM_dget?_ne (k : String) (n7 : k ≠ "refTemperatureInDegC") (l : List J)
    (acc d2 : Dev)
    (h : List.foldlM (fun acc refSkill => thermoRefStep refSkill acc) acc l = Except.ok d2) :
    dget? d2 k = dget? acc k :=
  foldlM_except_preserve (fun x => dget? x k = dget? acc k) _
    (fun a r a2 hstep hp => by
      show dget? a2 k = dget? acc k
      rw [thermoRefStep_dget?_ne r a a2 hstep k n7]
      exact hp) l acc d2 h rfl

theorem refFoldM_ok (l : List J) (hl : l.all jIsObj = true) : ∀ (acc : Dev),
    isOkE (List.foldlM (fun acc refSkill => thermoRefStep refSkill acc) acc l) = true := by
  induction l with
  | nil => intro acc; rfl
  | cons r rest ih =>
    intro acc
    simp only [List.all_cons, Bool.and_eq_true] at hl
    obtain ⟨a2, h2⟩ := (isOkE_iff _).mp (thermoRefStep_ok r hl.1 acc)
    rw [List.foldlM_cons, h2, except_bind_ok]
    exact ih hl.2 a2

theorem thermoTail_dget?_ne (skill : J) (dC d2 : Dev) (k : String)
    (n7 : k ≠ "refTemperatureInDegC")
    (h : (if jHas skill "usedTempSensor" then do
        let refSkills ← jIndex (jget skill "usedTempSensor") "skills"
        let refL ← asArr refSkills
        refL.foldlM (fun acc refSkill => thermoRefStep refSkill acc) dC
      else pure dC) = Except.ok d2) :
    dget? d2 k = dget? dC k := by
  by_cases husd : jHas skill "usedTempSensor" = true
  · rw [if_pos husd] at h
    simp only [bind_ok_iff] at h
    obtain ⟨rs, hr, refL, ha, h⟩ := h
    exact refFoldM_dget?_ne k n7 refL dC d2 h
  · rw [if_neg husd] at h
    simp only [except_pure_eq_ok, Except.ok.injEq] at h
    subst h; rfl

theorem thermoSkillStep_dget?_ne (skill : J) (d d2 : Dev)
    (h : thermoSkillStep skill d = Except.ok d2) (k : String)
    (n1 : k ≠ "mode") (n2 : k ≠ "summerActive") (n3 : k ≠ "holidyActive")
    (n4 : k ≠ "windowOpen") (n5 : k ≠ "holidayActive")
    (n6 : k ≠ "targetTemperatureInDegC") (n7 : k ≠ "refTemperatureInDegC") :
    dget? d2 k = dget? d k := by
  simp only [thermoSkillStep, bind_ok_iff] at h
  obtain ⟨dA, hA, dB, hB, h⟩ := h
  have e1 : dget? dA k = dget? d k := by
    rw [thermoStateStep_dget?_ne skill _ dA hA k n2 n3 n4]
    exact dget?_ite_dictSet d "mode" k _ n1
  have e2 : dget? dB k = dget? dA k := by
    rw [thermoTddStep_dget?_ne skill _ dB hB k n4,
      dget?_ite_dictSet _ "holidayActive" k _ n5,
      dget?_ite_dictSet _ "summerActive" k _ n2]
  rw [thermoTail_dget?_ne skill _ d2 k n7 h,
    dget?_ite_dictSet2 dB "targetTemperatureInDegC" k _ _ n6, e2, e1]

theorem thermoSkillStep_dictHas_ne (skill : J) (d d2 : Dev)
    (h : thermoSkillStep skill d = Except.ok d2) (k : String)
    (n1 : k ≠ "mode") (n2 : k ≠ "summerActive") (n3 : k ≠ "holidyActive")
    (n4 : k ≠ "windowOpen") (n5 : k ≠ "holidayActive")
    (n6 : k ≠ "targetTemperatureInDegC") (n7 : k ≠ "refTemperatureInDegC") :
    dictHas d2 k = dictHas d k := by
  rw [dictHas_eq_isSome_dget? k d2, dictHas_eq_isSome_dget? k d,
    thermoSkillStep_dget?_ne skill d d2 h k n1 n2 n3 n4 n5 n6 n7]

theorem thermoSkillStep_mode_unset (skill : J) (d d2 : Dev)
    (h : thermoSkillStep skill d = Except.ok d2)
    (hg : jHas skill "mode" = false) : dictHas d2 "mode" = dictHas d "mode" := by
  simp only [thermoSkillStep, bind_ok_iff] at h
  obtain ⟨dA, hA, dB, hB, h⟩ := h
  rw [if_neg (by rw [hg]; simp)] at hA
  have e1 : dget? dA "mode" = dget? d "mode" :=
    thermoStateStep_dget?_ne skill d dA hA _ (by decide) (by decide) (by decide)
  have e2 : dget? dB "mode" = dget? dA "mode" := by
    rw [thermoTddStep_dget?_ne skill _ dB hB _ (by decide),
      dget?_ite_dictSet _ "holidayActive" _ _ (by decide),
      dget?_ite_dictSet _ "summerActive" _ _ (by decide)]
  rw [dictHas_eq_isSome_dget? _ d2, dictHas_eq_isSome_dget? _ d,
    thermoTail_dget?_ne skill _ d2 _ (by decide) h,
    dget?_ite_dictSet2 dB "targetTemperatureInDegC" _ _ _ (by decide), e2, e1]

theorem thermoSkillStep_holiday_unset (skill : J) (d d2 : Dev)
    (h : thermoSkillStep skill d = Except.ok d2)
    (hg : jHas skill "holidayActive" = false) :
    dictHas d2 "holidayActive" = dictHas d "holidayActive" := by
  simp only [thermoSkillStep, bind_ok_iff] at h
  obtain ⟨dA, hA, dB, hB, h⟩ := h
  have e1 : dget? dA "holidayActive" = dget? d "holidayActive" := by
    rw [thermoStateStep_dget?_ne skill _ dA hA _ (by decide) (by decide) (by decide),
      dget?_ite_dictSet d "mode" _ _ (by decide)]
  have e2 : dget? dB "holidayActive" = dget? dA "holidayActive" := by
    rw [thermoTddStep_dget?_ne skill _ dB hB _ (by decide)]
    rw [if_neg (by rw [hg]; simp)]
    rw [dget?_ite_dictSet _ "summerActive" _ _ (by decide)]
  rw [dictHas_eq_isSome_dget? _ d2, dictHas_eq_isSome_dget? _ d,
    thermoTail_dget?_ne skill _ d2 _ (by decide) h,
    dget?_ite_dictSet2 dB "targetTemperatureInDegC" _ _ _ (by decide), e2, e1]

theorem thermoSkillStep_target_null (skill : J) (d d2 : Dev)
    (h : thermoSkillStep skill d = Except.ok d2)
    (htt : jHas skill "targetTemp" = false) :
    dget? d2 "targetTemperatureInDegC" = some J.null := by
  simp only [thermoSkillStep, bind_ok_iff] at h
  obtain ⟨dA, hA, dB, hB, h⟩ := h
  rw [thermoTail_dget?_ne skill _ d2 _ (by decide) h,
    if_neg (by rw [htt]; simp), dget?_dictSet_self]

theorem thermoSkillStep_dget_summer (skill : J) (d d2 : Dev)
    (h2 : jHas skill "summerActive" = true)
    (h : thermoSkillStep skill d = Except.ok d2) :
    dget d2 "summerActive" = jget skill "summerActive" := by
  simp only [thermoSkillStep, bind_ok_iff] at h
  obtain ⟨dA, hA, dB, hB, h⟩ := h
  have e2 : dget? dB "summerActive" = some (jget skill "summerActive") := by
    rw [thermoTddStep_dget?_ne skill _ dB hB _ (by decide),
      dget?_ite_dictSet _ "holidayActive" _ _ (by decide),
      if_pos h2, dget?_dictSet_self]
  unfold dget
  rw [thermoTail_dget?_ne skill _ d2 _ (by decide) h,
    dget?_ite_dictSet2 dB "targetTemperatureInDegC" _ _ _ (by decide), e2]
  rfl

theorem thermoSkillStep_flags_unset (skill : J) (d d2 : Dev)
    (h : thermoSkillStep skill d = Except.ok d2)
    (hst : jHas skill "state" = false) :
    (jHas skill "summerActive" = false →
      dictHas d2 "summerActive" = dictHas d "summerActive")
    ∧ dictHas d2 "holidyActive" = dictHas d "holidyActive"
    ∧ (jHas skill "temperatureDropDetection" = false →
      dictHas d2 "windowOpen" = dictHas d "windowOpen") := by
  simp only [thermoSkillStep, bind_ok_iff] at h
  obtain ⟨dA, hA, dB, hB, h⟩ := h
  rw [thermoStateStep_nostate skill hst] at hA
  simp only [Except.ok.injEq] at hA
  subst hA
  refine ⟨?_, ?_, ?_⟩
  · intro hsum
    rw [dictHas_eq_isSome_dget? _ d2, dictHas_eq_isSome_dget? _ d,
      thermoTail_dget?_ne skill _ d2 _ (by decide) h,
      dget?_ite_dictSet2 dB "targetTemperatureInDegC" _ _ _ (by decide),
      thermoTddStep_dget?_ne skill _ dB hB _ (by decide),
      dget?_ite_dictSet _ "holidayActive" _ _ (by decide),
      if_neg (by rw [hsum]; simp),
      dget?_ite_dictSet d "mode" _ _ (by decide)]
  · rw [dictHas_eq_isSome_dget? _ d2, dictHas_eq_isSome_dget? _ d,
      thermoTail_dget?_ne skill _ d2 _ (by decide) h,
      dget?_ite_dictSet2 dB "targetTemperatureInDegC" _ _ _ (by decide),
      thermoTddStep_dget?_ne skill _ dB hB _ (by decide),
      dget?_ite_dictSet _ "holidayActive" _ _ (by decide),
      dget?_ite_dictSet _ "summerActive" _ _ (by decide),
      dget?_ite_dictSet d "mode" _ _ (by decide)]
  · intro htd
    rw [thermoTddStep_notdd skill htd] at hB
    simp only [Except.ok.injEq] at hB
    subst hB
    rw [dictHas_eq_isSome_dget? _ d2, dictHas_eq_isSome_dget? _ d,
      thermoTail_dget?_ne skill _ d2 _ (by decide) h,
      dget?_ite_dictSet2 _ "targetTemperatureInDegC" _ _ _ (by decide),
      dget?_ite_dictSet _ "holidayActive" _ _ (by decide),
      dget?_ite_dictSet _ "summerActive" _ _ (by decide),
      dget?_ite_dictSet d "mode" _ _ (by decide)]

theorem thermoSkillStep_ok (skill : J)
    (h1 : (!(jHas skill "state") || jIsObj (jget skill "state")) = true)
    (h2 : (!(jHas skill "temperatureDropDetection") ||
      jIsObj (jget skill "temperatureDropDetection")) = true)
    (h3 : (!(jHas skill "usedTempSensor") ||
      (match jGet? (jget skill "usedTempSensor") "skills" with
       | some (J.arr rl) => rl.all jIsObj
       | _ => false)) = true)
    (d : Dev) : isOkE (thermoSkillStep skill d) = true := by
  simp only [thermoSkillStep]
  obtain ⟨dA, hA⟩ := (isOkE_iff _).mp (thermoStateStep_ok skill h1
    (if jHas skill "mode" then dictSet d "mode" (jget skill "mode") else d))
  rw [hA]
  simp only [except_bind_ok]
  obtain ⟨dB, hB⟩ := (isOkE_iff _).mp (thermoTddStep_ok skill h2
    (if jHas skill "holidayActive" then
      dictSet (if jHas skill "summerActive" then
        dictSet dA "summerActive" (jget skill "summerActive") else dA)
        "holidayActive" (jget skill "holidayActive")
    else (if jHas skill "summerActive" then
      dictSet dA "summerActive" (jget skill "summerActive") else dA)))
  rw [hB]
  simp only [except_bind_ok]
  by_cases husd : jHas skill "usedTempSensor" = true
  · rw [if_pos husd]
    rw [husd] at h3
    simp only [Bool.not_true, Bool.false_or] at h3
    cases hskv : jGet? (jget skill "usedTempSensor") "skills" with
    | none => rw [hskv] at h3; simp at h3
    | some v =>
      cases v with
      | arr rl =>
        rw [hskv] at h3
        simp only [jIndex, hskv, except_bind_ok, asArr]
        exact refFoldM_ok rl h3 _
      | null => rw [hskv] at h3; simp at h3
      | bool b => rw [hskv] at h3; simp at h3
      | num q => rw [hskv] at h3; simp at h3
      | str s => rw [hskv] at h3; simp at h3
      | obj fs => rw [hskv] at h3; simp at h3
  · rw [if_neg husd]; rfl

/-- C1: on every thermostat skill carrying a legacy `summerActive` field, the
normalizer's record ends with `summerActive` equal to the legacy value (the
legacy assignment runs after the newer `state.current` extraction and
overwrites it); concretely, with `state.current = "HOLIDAY"` and legacy
`summerActive = 1` the record has `summerActive = 1`, while the newer shape
alone would have set `summerActive = 0`. -/
theorem C1_legacy_summer_overwrites :
    (∀ (skill : J) (dev dev2 : Dev),
        jGet? skill "type" = some (J.str "SmartHomeThermostat") →
        jHas skill "summerActive" = true →
        processSkill skill dev = Except.ok dev2 →
        dget dev2 "summerActive" = jget skill "summerActive")
    ∧ (∀ v : J,
        (getSimplifiedDevices (c1Input v)).map
          (fun m => m.map (fun p => dget p.2 "summerActive")) = Except.ok [v])
    ∧ (getSimplifiedDevices c1InputNewOnly).map
        (fun m => m.map (fun p => dget p.2 "summerActive")) = Except.ok [J.num 0] := by
  refine ⟨?_, fun v => rfl, rfl⟩
  intro skill dev dev2 h1 h2 h3
  have hidx : jIndex skill "type" = Except.ok (J.str "SmartHomeThermostat") := by
    simp [jIndex, h1]
  simp only [processSkill] at h3
  rw [hidx] at h3
  simp only [except_bind_ok] at h3
  rw [if_pos (show jeqStr (J.str "SmartHomeThermostat") "SmartHomeThermostat" = true
    from rfl)] at h3
  exact thermoSkillStep_dget_summer skill dev dev2 h2 h3

/-- Closed witness for the first conjunct of C1 at a concrete skill. -/
theorem C1_witness :
    dget (firstDev (getSimplifiedDevices (c1Input (J.num 1)))) "summerActive" = J.num 1 :=
  C1_legacy_summer_overwrites.1
    (J.obj [("type", J.str "SmartHomeThermostat"),
            ("state", J.obj [("current", J.str "HOLIDAY")]),
            ("summerActive", J.num 1)])
    [("id", J.num 7), ("displayName", J.str "T"), ("present", J.bool true),
     ("model", J.str "M"), ("identifier", J.str "A1")]
    _ rfl rfl rfl

/-- C2 (bug evidence): on `state.current = "WINDOW_OPEN"` the record gets
`windowOpen = 1` and `summerActive = 0` as specified, but the holiday flag is
stored under the misspelled key `"holidyActive"` (source line 91), so the
record carries no `holidayActive` field at all. -/
theorem C2_window_open_flags :
    dget (firstDev (getSimplifiedDevices c2Input)) "windowOpen" = J.num 1
    ∧ dget (firstDev (getSimplifiedDevices c2Input)) "summerActive" = J.num 0
    ∧ dictHas (firstDev (getSimplifiedDevices c2Input)) "holidayActive" = false
    ∧ dget (firstDev (getSimplifiedDevices c2Input)) "holidayActive" = J.null
    ∧ dget (firstDev (getSimplifiedDevices c2Input)) "holidyActive" = J.num 0 :=
  ⟨rfl, rfl, rfl, rfl, rfl⟩

/-- C8: the sorter returns the mapping's values ordered by display name
(case-sensitive code-point comparison, ascending): consecutive records are
pairwise related by `devLE`, and the output is a permutation of the values. -/
theorem C8_sorter_sorted_perm (m : SDict) :
    (sortDevices m).Pairwise devLE ∧ (sortDevices m).Perm (m.map (·.2)) := by
  unfold sortDevices
  constructor
  · show List.Sorted devLE (List.insertionSort devLE (m.map (·.2)))
    exact List.sorted_insertionSort devLE (m.map (·.2))
  · exact List.perm_insertionSort devLE (m.map (·.2))

/-- C5: a multimeter skill with a `powerPerHour` field yields
`energyInKWH = powerPerHour / 1000`, and the Metric Emitter prints the
power-average value as that figure times 3600000 truncated to an integer:
with `powerPerHour = 500`, `energyInKWH = 1/2` and the emitted value line
reads `1800000` (right-aligned to width 15). -/
theorem C5_powerPerHour_conversion :
    (∀ (skill : J) (dev dev2 : Dev) (q : ℚ),
        jGet? skill "type" = some (J.str "SmartHomeMultimeter") →
        jGet? skill "powerPerHour" = some (J.num q) →
        processSkill skill dev = Except.ok dev2 →
        dget dev2 "energyInKWH" = J.num (q / 1000))
    ∧ dget (firstDev (getSimplifiedDevices c5Input)) "energyInKWH" = J.num (1 / 2)
    ∧ Entry.line (some (J.num 7)) "smarthome_powerAvg7.value         1800000"
        ∈ print_smart_home_measurements (devsOf (getDevices c5Input)) := by
  refine ⟨?_, ?_, ?_⟩
  · intro skill dev dev2 q h1 h2 h3
    have hidx : jIndex skill "type" = Except.ok (J.str "SmartHomeMultimeter") := by
      simp [jIndex, h1]
    have hph : jHas skill "powerPerHour" = true := by simp [jHas, h2]
    have hphv : jget skill "powerPerHour" = J.num q := by simp [jget, h2]
    simp only [processSkill] at h3
    rw [hidx] at h3
    simp only [except_bind_ok] at h3
    rw [if_neg (by decide : ¬jeqStr (J.str "SmartHomeMultimeter") "SmartHomeThermostat"
        = true)] at h3
    rw [if_neg (by decide : ¬jeqStr (J.str "SmartHomeMultimeter")
        "SmartHomeTemperatureSensor" = true)] at h3
    rw [if_neg (by decide : ¬jeqStr (J.str "SmartHomeMultimeter") "SmartHomeHumiditySensor"
        = true)] at h3
    rw [if_neg (by decide : ¬jeqStr (J.str "SmartHomeMultimeter") "SmartHomeBattery"
        = true)] at h3
    rw [if_pos (by decide : jeqStr (J.str "SmartHomeMultimeter") "SmartHomeMultimeter"
        = true)] at h3
    rw [if_pos hph, hphv] at h3
    simp only [pyFloat, except_bind_ok, except_pure_eq_ok, Except.ok.injEq] at h3
    subst h3
    rw [dget_ite_dictSet _ _ _ _ (by decide), dget_dictSet_self]
  · have h : ((500 : ℚ) / 1000) = 1 / 2 := by norm_num
    show J.num ((500 : ℚ) / 1000) = J.num (1 / 2)
    rw [h]
  · have hdev : devsOf (getDevices c5Input) = [c5dev] := rfl
    have key : jNumVal (J.num ((500 : ℚ) / 1000)) * 3600000 = (1800000 : ℚ) := by
      norm_num [jNumVal]
    have key2 : ratTrunc (jNumVal (J.num ((500 : ℚ) / 1000)) * 3600000) = 1800000 := by
      rw [key]; norm_num [ratTrunc]
    have key3 : pad15 (toString (ratTrunc (jNumVal (J.num ((500 : ℚ) / 1000)) * 3600000)))
        = "        1800000" := by rw [key2]; rfl
    rw [hdev]
    simp [print_smart_home_measurements, measTemps, measHumidity, measTarget,
      measTempDetail, measModes, measModesDetail, measBattery, measBatteryLow,
      measVoltage, measPower, measPowerAvg, measEnergy, measPowerSwitch,
      measTempDetailLines, measModesDetailLines, c5dev, devPresent, dictHas, dget, dget?,
      jTruthy, idStr, fmtJ, dline, nline, hasTargetSet, modesFlag, jIsNull, key3]
    exact Or.inl (by rfl)

/-- Closed witness for the first conjunct of C5 at a concrete skill. -/
theorem C5_witness :
    dget (firstDev (getSimplifiedDevices c5Input)) "energyInKWH" = J.num ((500 : ℚ) / 1000) :=
  C5_powerPerHour_conversion.1
    (J.obj [("type", J.str "SmartHomeMultimeter"), ("powerPerHour", J.num 500)])
    [("id", J.num 7), ("displayName", J.str "P"), ("present", J.bool true),
     ("model", J.str "M"), ("identifier", J.str "A1")]
    _ 500 rfl rfl rfl

/-- C4 counterexample: a normalized record that is not present but has a
current temperature gets no line in the `temperatures` group of the Metric
Emitter (source line 194 also requires `dev["present"]` there), refuting the
claimed carve-out. -/
theorem C4_counterexample :
    devPresent (firstDev (getSimplifiedDevices c4Input)) = false
    ∧ dictHas (firstDev (getSimplifiedDevices c4Input)) "currentTemperatureInDegC" = true
    ∧ dget (firstDev (getSimplifiedDevices c4Input)) "id" = J.num 9
    ∧ ("temperatures", J.num 9) ∉
        gip none (print_smart_home_measurements (devsOf (getDevices c4Input))) := by
  refine ⟨rfl, rfl, rfl, ?_⟩
  have hdev : devsOf (getDevices c4Input) =
      [[("id", J.num 9), ("displayName", J.str "S"), ("present", J.bool false),
        ("model", J.str "M"), ("identifier", J.str "A1"),
        ("currentTemperatureInDegC", J.num 20)]] := rfl
  rw [hdev, gip_meas]
  simp [measPairs, devPresent, dget, dget?, jTruthy, dictHas, hasTargetSet, modesFlag,
    measTempDetailLines, measModesDetailLines, jIsNull]

/-- C4 (amended): a non-present record is excluded from every group of the
Metric Emitter except the per-device `thermostat_modes.id<id>` detail block,
which carries no presence filter; in particular it gets no line in the
top-level `temperatures` listing even when a current temperature is set. -/
theorem C4_nonpresent_only_modes_detail :
    ∀ (dev : Dev) (g : String) (i : J),
      devPresent dev = false →
      (g, i) ∈ gip none (print_smart_home_measurements [dev]) →
      g = "thermostat_modes.id" ++ idStr dev := by
  intro dev g i hp hmem
  rw [gip_meas] at hmem
  simp only [measPairs, List.filter_cons, List.filter_nil, hp, Bool.false_and,
    Bool.false_eq_true, if_false, List.map_nil, List.flatMap_cons, List.flatMap_nil,
    List.nil_append, List.append_nil] at hmem
  by_cases hm : modesFlag dev = true
  · rw [if_pos hm] at hmem
    rcases List.mem_map.mp hmem with ⟨s, _, heq⟩
    exact (congrArg Prod.fst heq).symm
  · rw [if_neg hm] at hmem
    simp at hmem

/-- Closed witness for the amended C4 at a concrete non-present record. -/
theorem C4_witness :
    devPresent (firstDev (getSimplifiedDevices c4bInput)) = false
    ∧ ("thermostat_modes.id9", J.num 9) ∈
        gip none (print_smart_home_measurements [firstDev (getSimplifiedDevices c4bInput)])
    ∧ "thermostat_modes.id9" =
        "thermostat_modes.id" ++ idStr (firstDev (getSimplifiedDevices c4bInput)) := by
  have hfd : firstDev (getSimplifiedDevices c4bInput) = c4bDev := rfl
  have hmem : ("thermostat_modes.id9", J.num 9) ∈
      gip none (print_smart_home_measurements [firstDev (getSimplifiedDevices c4bInput)]) := by
    rw [hfd, gip_meas]
    simp [measPairs, c4bDev, devPresent, dget, dget?, jTruthy, dictHas,
      hasTargetSet, modesFlag, measTempDetailLines, measModesDetailLines, jIsNull, idStr,
      fmtJ]
    rfl
  exact ⟨rfl, hmem,
    C4_nonpresent_only_modes_detail (firstDev (getSimplifiedDevices c4bInput))
      "thermostat_modes.id9" (J.num 9) rfl hmem⟩

/-- `processSkill` writes only its fixed set of metric keys: any other key's
presence is unchanged. -/
theorem processSkill_other_key (k : String)
    (e1 : (k == "mode") = false) (e2 : (k == "summerActive") = false)
    (e3 : (k == "holidyActive") = false) (e4 : (k == "windowOpen") = false)
    (e5 : (k == "holidayActive") = false) (e6 : (k == "targetTemperatureInDegC") = false)
    (e7 : (k == "refTemperatureInDegC") = false)
    (e8 : (k == "currentTemperatureInDegC") = false)
    (e9 : (k == "currentHumidityInPct") = false)
    (e10 : (k == "batteryChargeLevelInPct") = false)
    (e11 : (k == "currentInAmp") = false) (e12 : (k == "powerInWatt") = false)
    (e13 : (k == "energyInKWH") = false) (e14 : (k == "voltageInVolt") = false)
    (e15 : (k == "powerSwitchOn") = false) :
    ∀ (skill : J) (d d2 : Dev), processSkill skill d = Except.ok d2 →
      dictHas d2 k = dictHas d k := by
  intro skill d d2 h
  cases ht : jIndex skill "type" with
  | error e =>
    simp only [processSkill] at h; rw [ht] at h
    simp only [except_bind_error] at h; exact absurd h (by simp)
  | ok st =>
    simp only [processSkill] at h; rw [ht] at h
    simp only [except_bind_ok] at h
    by_cases b1 : jeqStr st "SmartHomeThermostat" = true
    · rw [if_pos b1] at h
      exact thermoSkillStep_dictHas_ne skill d d2 h k
        (by intro hh; rw [hh] at e1; simp at e1)
        (by intro hh; rw [hh] at e2; simp at e2)
        (by intro hh; rw [hh] at e3; simp at e3)
        (by intro hh; rw [hh] at e4; simp at e4)
        (by intro hh; rw [hh] at e5; simp at e5)
        (by intro hh; rw [hh] at e6; simp at e6)
        (by intro hh; rw [hh] at e7; simp at e7)
    · rw [if_neg b1] at h
      by_cases b2 : jeqStr st "SmartHomeTemperatureSensor" = true
      · rw [if_pos b2] at h
        simp only [except_pure_eq_ok, Except.ok.injEq] at h
        subst h
        rw [dictHas_dictSet]; simp [e8]
      · rw [if_neg b2] at h
        by_cases b3 : jeqStr st "SmartHomeHumiditySensor" = true
        · rw [if_pos b3] at h
          simp only [except_pure_eq_ok, Except.ok.injEq] at h
          subst h
          rw [dictHas_dictSet]; simp [e9]
        · rw [if_neg b3] at h
          by_cases b4 : jeqStr st "SmartHomeBattery" = true
          · rw [if_pos b4] at h
            simp only [except_pure_eq_ok, Except.ok.injEq] at h
            subst h
            rw [dictHas_dictSet]; simp [e10]
          · rw [if_neg b4] at h
            by_cases b5 : jeqStr st "SmartHomeMultimeter" = true
            · rw [if_pos b5] at h
              by_cases hpp : jHas skill "powerPerHour" = true
              · rw [if_pos hpp] at h
                cases hq : pyFloat (jget skill "powerPerHour") with
                | error e =>
                  rw [hq] at h; simp only [except_bind_error] at h
                  exact absurd h (by simp)
                | ok q =>
                  rw [hq] at h
                  simp only [except_bind_ok, except_pure_eq_ok, Except.ok.injEq] at h
                  subst h
                  simp [apply_ite (fun dd : Dev => dictHas dd k), dictHas_dictSet,
                    e11, e12, e13, e14]
              · rw [if_neg hpp] at h
                simp only [except_bind_ok, except_pure_eq_ok, Except.ok.injEq] at h
                subst h
                simp [apply_ite (fun dd : Dev => dictHas dd k), dictHas_dictSet,
                  e11, e12, e14]
            · rw [if_neg b5] at h
              by_cases b6 : jeqStr st "SmartHomeSocket" = true
              · rw [if_pos b6] at h
                simp only [except_pure_eq_ok, Except.ok.injEq] at h
                subst h; rfl
              · rw [if_neg b6] at h
                by_cases b7 : jeqStr st "SmartHomeSwitch" = true
                · rw [if_pos b7] at h
                  simp only [except_pure_eq_ok, Except.ok.injEq] at h
                  subst h
                  simp [apply_ite (fun dd : Dev => dictHas dd k), dictHas_dictSet, e15]
                · rw [if_neg b7] at h
                  simp only [except_pure_eq_ok, Except.ok.injEq] at h
                  subst h; rfl

/-- `processUnit` writes only the skill-handler keys. -/
theorem processUnit_other_key (k : String)
    (e1 : (k == "mode") = false) (e2 : (k == "summerActive") = false)
    (e3 : (k == "holidyActive") = false) (e4 : (k == "windowOpen") = false)
    (e5 : (k == "holidayActive") = false) (e6 : (k == "targetTemperatureInDegC") = false)
    (e7 : (k == "refTemperatureInDegC") = false)
    (e8 : (k == "currentTemperatureInDegC") = false)
    (e9 : (k == "currentHumidityInPct") = false)
    (e10 : (k == "batteryChargeLevelInPct") = false)
    (e11 : (k == "currentInAmp") = false) (e12 : (k == "powerInWatt") = false)
    (e13 : (k == "energyInKWH") = false) (e14 : (k == "voltageInVolt") = false)
    (e15 : (k == "powerSwitchOn") = false) :
    ∀ (unit : J) (d d2 : Dev), processUnit unit d = Except.ok d2 →
      dictHas d2 k = dictHas d k := by
  intro unit d d2 h
  cases h1 : jIndex unit "displayName" with
  | error e =>
    simp only [processUnit] at h; rw [h1] at h
    simp only [except_bind_error] at h; exact absurd h (by simp)
  | ok v1 =>
    simp only [processUnit] at h; rw [h1] at h
    simp only [except_bind_ok] at h
    cases h2 : jIndex unit "skills" with
    | error e => rw [h2] at h; simp only [except_bind_error] at h; exact absurd h (by simp)
    | ok skills =>
      rw [h2] at h; simp only [except_bind_ok] at h
      cases h3 : jIndex unit "type" with
      | error e => rw [h3] at h; simp only [except_bind_error] at h; exact absurd h (by simp)
      | ok v3 =>
        rw [h3] at h; simp only [except_bind_ok] at h
        cases h4 : jIndex unit "id" with
        | error e => rw [h4] at h; simp only [except_bind_error] at h; exact absurd h (by simp)
        | ok v4 =>
          rw [h4] at h; simp only [except_bind_ok] at h
          cases h5 : asArr skills with
          | error e => rw [h5] at h; simp only [except_bind_error] at h; exact absurd h (by simp)
          | ok skillsL =>
            rw [h5] at h; simp only [except_bind_ok] at h
            exact foldlM_except_preserve (fun dd => dictHas dd k = dictHas d k)
              (fun acc skill => processSkill skill acc)
              (fun acc skill acc2 hok hacc => by
                show dictHas acc2 k = dictHas d k
                rw [processSkill_other_key k e1 e2 e3 e4 e5 e6 e7 e8 e9 e10 e11 e12 e13
                  e14 e15 skill acc acc2 hok]
                exact hacc)
              skillsL d d2 h rfl

/-- A record produced by `processDevice` never carries a `batteryLow` field
(the field is commented out in the source, lines 140–141). -/
theorem processDevice_no_batteryLow :
    ∀ (device : J) (r : J × Dev), processDevice device = Except.ok r →
      dictHas r.2 "batteryLow" = false := by
  intro device r h
  cases h1 : jIndex device "displayName" with
  | error e =>
    simp only [processDevice] at h; rw [h1] at h
    simp only [except_bind_error] at h; exact absurd h (by simp)
  | ok v1 =>
  simp only [processDevice] at h; rw [h1] at h
  simp only [except_bind_ok] at h
  cases h2 : jIndex device "category" with
  | error e => rw [h2] at h; simp only [except_bind_error] at h; exact absurd h (by simp)
  | ok v2 =>
  rw [h2] at h; simp only [except_bind_ok] at h
  cases h3 : jIndex device "type" with
  | error e => rw [h3] at h; simp only [except_bind_error] at h; exact absurd h (by simp)
  | ok v3 =>
  rw [h3] at h; simp only [except_bind_ok] at h
  cases h4 : jIndex device "units" with
  | error e => rw [h4] at h; simp only [except_bind_error] at h; exact absurd h (by simp)
  | ok units =>
  rw [h4] at h; simp only [except_bind_ok] at h
  cases h5 : jIndex device "masterConnectionState" with
  | error e => rw [h5] at h; simp only [except_bind_error] at h; exact absurd h (by simp)
  | ok conn =>
  rw [h5] at h; simp only [except_bind_ok] at h
  cases h6 : jIndex device "id" with
  | error e => rw [h6] at h; simp only [except_bind_error] at h; exact absurd h (by simp)
  | ok devID =>
  rw [h6] at h; simp only [except_bind_ok] at h
  cases h7 : jIndex device "model" with
  | error e => rw [h7] at h; simp only [except_bind_error] at h; exact absurd h (by simp)
  | ok model =>
  rw [h7] at h; simp only [except_bind_ok] at h
  cases h8 : jIndex device "actorIdentificationNumber" with
  | error e => rw [h8] at h; simp only [except_bind_error] at h; exact absurd h (by simp)
  | ok ident =>
  rw [h8] at h; simp only [except_bind_ok] at h
  cases h9 : asArr units with
  | error e => rw [h9] at h; simp only [except_bind_error] at h; exact absurd h (by simp)
  | ok unitsL =>
  rw [h9] at h; simp only [except_bind_ok] at h
  cases h10 : List.foldlM (fun acc unit => processUnit unit acc)
      [("id", devID), ("displayName", v1),
       ("present", J.bool (jeqStr conn "CONNECTED")),
       ("model", model), ("identifier", ident)] unitsL with
  | error e => rw [h10] at h; simp only [except_bind_error] at h; exact absurd h (by simp)
  | ok finalDev =>
  rw [h10] at h
  simp only [except_bind_ok, except_pure_eq_ok, Except.ok.injEq] at h
  subst h
  exact foldlM_except_preserve (fun dd => dictHas dd "batteryLow" = false)
    (fun acc unit => processUnit unit acc)
    (fun acc unit acc2 hok hacc => by
      show dictHas acc2 "batteryLow" = false
      rw [processUnit_other_key "batteryLow" rfl rfl rfl rfl rfl rfl rfl rfl rfl rfl rfl
        rfl rfl rfl rfl unit acc acc2 hok]
      exact hacc)
    unitsL _ finalDev h10 (by rfl)

theorem dictSetJ_mem : ∀ (m : SDict) (key : J) (v : Dev) (p : J × Dev),
    p ∈ dictSetJ m key v → p.2 = v ∨ p ∈ m := by
  intro m key v
  induction m with
  | nil =>
    intro p hp
    simp only [dictSetJ, List.mem_singleton] at hp
    exact Or.inl (by rw [hp])
  | cons q rest ih =>
    intro p hp
    rw [dictSetJ] at hp
    by_cases hb : jbeq q.1 key = true
    · rw [if_pos hb] at hp
      rcases List.mem_cons.mp hp with hh | ht
      · exact Or.inl (by rw [hh])
      · exact Or.inr (List.mem_cons_of_mem q ht)
    · rw [if_neg hb] at hp
      rcases List.mem_cons.mp hp with hh | ht
      · exact Or.inr (by rw [hh]; exact List.mem_cons_self q rest)
      · rcases ih p ht with hv | hm
        · exact Or.inl hv
        · exact Or.inr (List.mem_cons_of_mem q hm)

theorem gsdFold_values (Q : Dev → Prop)
    (hQ : ∀ (device : J) (r : J × Dev), processDevice device = Except.ok r → Q r.2) :
    ∀ (l : List J) (acc m : SDict),
      List.foldlM (fun acc device => do
        let r ← processDevice device
        pure (dictSetJ acc r.1 r.2)) acc l = Except.ok m →
      (∀ p ∈ acc, Q p.2) → ∀ p ∈ m, Q p.2 := by
  intro l
  induction l with
  | nil =>
    intro acc m h hacc
    simp only [List.foldlM_nil, except_pure_eq_ok, Except.ok.injEq] at h
    subst h; exact hacc
  | cons device l ih =>
    intro acc m h hacc
    rw [List.foldlM_cons] at h
    cases hd : processDevice device with
    | error e => rw [hd] at h; simp only [except_bind_error] at h; exact absurd h (by simp)
    | ok r =>
      rw [hd] at h
      simp only [except_bind_ok, except_pure_eq_ok] at h
      refine ih (dictSetJ acc r.1 r.2) m h ?_
      intro p hp
      rcases dictSetJ_mem acc r.1 r.2 p hp with hv | hm
      · rw [hv]; exact hQ device r hd
      · exact hacc p hm

/-- Every record in a normalizer result satisfies any property enjoyed by all
`processDevice` outputs. -/
theorem getSimplifiedDevices_values (Q : Dev → Prop)
    (hQ : ∀ (device : J) (r : J × Dev), processDevice device = Except.ok r → Q r.2) :
    ∀ (j : J) (m : SDict), getSimplifiedDevices j = Except.ok m → ∀ p ∈ m, Q p.2 := by
  intro j m h
  cases h1 : jIndex j "data" with
  | error e =>
    simp only [getSimplifiedDevices] at h; rw [h1] at h
    simp only [except_bind_error] at h; exact absurd h (by simp)
  | ok d1 =>
    simp only [getSimplifiedDevices] at h; rw [h1] at h
    simp only [except_bind_ok] at h
    cases h2 : jIndex d1 "devices" with
    | error e => rw [h2] at h; simp only [except_bind_error] at h; exact absurd h (by simp)
    | ok devices =>
      rw [h2] at h; simp only [except_bind_ok] at h
      cases h3 : asArr devices with
      | error e => rw [h3] at h; simp only [except_bind_error] at h; exact absurd h (by simp)
      | ok devL =>
        rw [h3] at h; simp only [except_bind_ok] at h
        exact gsdFold_values Q hQ devL [] m h (by simp)

theorem tempDetail_name_ne_batterylow (s : String) : ("temperatures.t" ++ s) ≠ "batterylow" := by
  intro h
  have h2 : ("temperatures.t".length + s.length) = "batterylow".length := by
    rw [← String.length_append, h]
  rw [show "temperatures.t".length = 14 from rfl, show "batterylow".length = 10 from rfl] at h2
  omega

theorem modesDetail_name_ne_batterylow (s : String) :
    ("thermostat_modes.id" ++ s) ≠ "batterylow" := by
  intro h
  have h2 : ("thermostat_modes.id".length + s.length) = "batterylow".length := by
    rw [← String.length_append, h]
  rw [show "thermostat_modes.id".length = 19 from rfl,
    show "batterylow".length = 10 from rfl] at h2
  omega

theorem measPairs_no_batterylow (devs : List Dev)
    (hB : ∀ dev ∈ devs, dictHas dev "batteryLow" = false) (i : J) :
    ("batterylow", i) ∉ measPairs devs := by
  intro hmem
  simp only [measPairs, List.mem_append, or_assoc] at hmem
  rcases hmem with h | h | h | h | h | h | h | h | h | h | h | h | h
  · rcases List.mem_map.mp h with ⟨dev, _, heq⟩
    have hf := congrArg Prod.fst heq; simp at hf
  · rcases List.mem_map.mp h with ⟨dev, _, heq⟩
    have hf := congrArg Prod.fst heq; simp at hf
  · rcases List.mem_map.mp h with ⟨dev, _, heq⟩
    have hf := congrArg Prod.fst heq; simp at hf
  · rcases List.mem_flatMap.mp h with ⟨dev, _, hin⟩
    by_cases hp : devPresent dev = true
    · rw [if_pos hp] at hin
      rcases List.mem_map.mp hin with ⟨s, _, heq⟩
      exact absurd (congrArg Prod.fst heq) (tempDetail_name_ne_batterylow (idStr dev))
    · rw [if_neg hp] at hin; simp at hin
  · rcases List.mem_map.mp h with ⟨dev, _, heq⟩
    have hf := congrArg Prod.fst heq; simp at hf
  · rcases List.mem_flatMap.mp h with ⟨dev, _, hin⟩
    by_cases hp : modesFlag dev = true
    · rw [if_pos hp] at hin
      rcases List.mem_map.mp hin with ⟨s, _, heq⟩
      exact absurd (congrArg Prod.fst heq) (modesDetail_name_ne_batterylow (idStr dev))
    · rw [if_neg hp] at hin; simp at hin
  · rcases List.mem_map.mp h with ⟨dev, _, heq⟩
    have hf := congrArg Prod.fst heq; simp at hf
  · rcases List.mem_map.mp h with ⟨dev, hdev, heq⟩
    rcases List.mem_filter.mp hdev with ⟨hmemd, hpred⟩
    simp only [Bool.and_eq_true] at hpred
    exact absurd hpred.2 (by rw [hB dev hmemd]; decide)
  · rcases List.mem_map.mp h with ⟨dev, _, heq⟩
    have hf := congrArg Prod.fst heq; simp at hf
  · rcases List.mem_map.mp h with ⟨dev, _, heq⟩
    have hf := congrArg Prod.fst heq; simp at hf
  · rcases List.mem_map.mp h with ⟨dev, _, heq⟩
    have hf := congrArg Prod.fst heq; simp at hf
  · rcases List.mem_map.mp h with ⟨dev, _, heq⟩
    have hf := congrArg Prod.fst heq; simp at hf
  · rcases List.mem_map.mp h with ⟨dev, _, heq⟩
    have hf := congrArg Prod.fst heq; simp at hf

theorem cfgPairs_no_batterylow (devs : List Dev)
    (hB : ∀ dev ∈ devs, dictHas dev "batteryLow" = false) (i : J) :
    ("batterylow", i) ∉ cfgPairs devs := by
  intro hmem
  simp only [cfgPairs, List.mem_append, or_assoc] at hmem
  rcases hmem with h | h | h | h | h | h | h | h | h | h | h | h | h
  · rcases List.mem_flatMap.mp h with ⟨dev, _, hin⟩
    by_cases hp : dictHas dev "currentTemperatureInDegC" = true
    · rw [if_pos hp] at hin
      rcases List.mem_map.mp hin with ⟨s, _, heq⟩
      have hf := congrArg Prod.fst heq; simp at hf
    · rw [if_neg hp] at hin; simp at hin
  · rcases List.mem_flatMap.mp h with ⟨dev, _, hin⟩
    by_cases hp : (devPresent dev && dictHas dev "currentHumidityInPct") = true
    · rw [if_pos hp] at hin
      rcases List.mem_map.mp hin with ⟨s, _, heq⟩
      have hf := congrArg Prod.fst heq; simp at hf
    · rw [if_neg hp] at hin; simp at hin
  · rcases List.mem_flatMap.mp h with ⟨dev, _, hin⟩
    by_cases hp : dictHas dev "targetTemperatureInDegC" = true
    · rw [if_pos hp] at hin
      rcases List.mem_map.mp hin with ⟨s, _, heq⟩
      have hf := congrArg Prod.fst heq; simp at hf
    · rw [if_neg hp] at hin; simp at hin
  · rcases List.mem_flatMap.mp h with ⟨dev, _, hin⟩
    rcases List.mem_map.mp hin with ⟨s, _, heq⟩
    exact absurd (congrArg Prod.fst heq) (tempDetail_name_ne_batterylow (idStr dev))
  · rcases List.mem_flatMap.mp h with ⟨dev, _, hin⟩
    by_cases hp : (devPresent dev && dictHas dev "windowOpen") = true
    · rw [if_pos hp] at hin
      rcases List.mem_map.mp hin with ⟨s, _, heq⟩
      have hf := congrArg Prod.fst heq; simp at hf
    · rw [if_neg hp] at hin; simp at hin
  · rcases List.mem_flatMap.mp h with ⟨dev, _, hin⟩
    by_cases hp : modesFlag dev = true
    · rw [if_pos hp] at hin
      rcases List.mem_map.mp hin with ⟨s, _, heq⟩
      exact absurd (congrArg Prod.fst heq) (modesDetail_name_ne_batterylow (idStr dev))
    · rw [if_neg hp] at hin; simp at hin
  · rcases List.mem_flatMap.mp h with ⟨dev, _, hin⟩
    by_cases hp : (devPresent dev && dictHas dev "batteryChargeLevelInPct") = true
    · rw [if_pos hp] at hin
      rcases List.mem_map.mp hin with ⟨s, _, heq⟩
      have hf := congrArg Prod.fst heq; simp at hf
    · rw [if_neg hp] at hin; simp at hin
  · rcases List.mem_flatMap.mp h with ⟨dev, hdev, hin⟩
    by_cases hp : (devPresent dev && dictHas dev "batteryLow") = true
    · simp only [Bool.and_eq_true] at hp
      exact absurd hp.2 (by rw [hB dev hdev]; decide)
    · rw [if_neg hp] at hin; simp at hin
  · rcases List.mem_flatMap.mp h with ⟨dev, _, hin⟩
    by_cases hp : (devPresent dev && dictHas dev "voltageInVolt") = true
    · rw [if_pos hp] at hin
      rcases List.mem_map.mp hin with ⟨s, _, heq⟩
      have hf := congrArg Prod.fst heq; simp at hf
    · rw [if_neg hp] at hin; simp at hin
  · rcases List.mem_flatMap.mp h with ⟨dev, _, hin⟩
    by_cases hp : (devPresent dev && dictHas dev "powerInWatt") = true
    · rw [if_pos hp] at hin
      rcases List.mem_map.mp hin with ⟨s, _, heq⟩
      have hf := congrArg Prod.fst heq; simp at hf
    · rw [if_neg hp] at hin; simp at hin
  · rcases List.mem_flatMap.mp h with ⟨dev, _, hin⟩
    by_cases hp : (devPresent dev && dictHas dev "energyInKWH") = true
    · rw [if_pos hp] at hin
      rcases List.mem_map.mp hin with ⟨s, _, heq⟩
      have hf := congrArg Prod.fst heq; simp at hf
    · rw [if_neg hp] at hin; simp at hin
  · rcases List.mem_flatMap.mp h with ⟨dev, _, hin⟩
    by_cases hp : (devPresent dev && dictHas dev "energyInKWH") = true
    · rw [if_pos hp] at hin
      rcases List.mem_map.mp hin with ⟨s, _, heq⟩
      have hf := congrArg Prod.fst heq; simp at hf
    · rw [if_neg hp] at hin; simp at hin
  · rcases List.mem_flatMap.mp h with ⟨dev, _, hin⟩
    by_cases hp : (devPresent dev && dictHas dev "powerSwitchOn") = true
    · rw [if_pos hp] at hin
      rcases List.mem_map.mp hin with ⟨s, _, heq⟩
      have hf := congrArg Prod.fst heq; simp at hf
    · rw [if_neg hp] at hin; simp at hin

/-- C9: the normalizer never sets a `batteryLow` field (the only write is
commented out, source lines 140–141), so both emitters announce the
`batterylow` group as a bare header with no device lines, whatever the input. -/
theorem C9_batterylow_always_empty :
    ∀ (j : J) (m : SDict) (hostName : Option String),
      getSimplifiedDevices j = Except.ok m →
      (∀ p ∈ m, dictHas p.2 "batteryLow" = false)
      ∧ "batterylow" ∈ groupNames (print_smart_home_measurements (sortDevices m))
      ∧ "batterylow" ∈ groupNames (print_config (sortDevices m) hostName)
      ∧ (∀ i : J, ("batterylow", i) ∉
          gip none (print_smart_home_measurements (sortDevices m)))
      ∧ (∀ i : J, ("batterylow", i) ∉ gip none (print_config (sortDevices m) hostName)) := by
  intro j m hostName h
  have hvals : ∀ p ∈ m, dictHas p.2 "batteryLow" = false :=
    getSimplifiedDevices_values (fun dd => dictHas dd "batteryLow" = false)
      processDevice_no_batteryLow j m h
  have hdevs : ∀ dev ∈ sortDevices m, dictHas dev "batteryLow" = false := by
    intro dev hdev
    have hmm : dev ∈ m.map (·.2) :=
      (List.perm_insertionSort devLE (m.map (·.2))).mem_iff.mp hdev
    rcases List.mem_map.mp hmm with ⟨p, hpm, hpe⟩
    rw [← hpe]
    exact hvals p hpm
  refine ⟨hvals, ?_, ?_, ?_, ?_⟩
  · rw [groupNames_meas]; simp [measGroups]
  · rw [groupNames_config]; simp [cfgGroups]
  · intro i
    rw [gip_meas]
    exact measPairs_no_batterylow (sortDevices m) hdevs i
  · intro i
    rw [gip_config]
    exact cfgPairs_no_batterylow (sortDevices m) hdevs i

/-- Closed witness for C9 on the multimeter fixture. -/
theorem C9_witness :
    getSimplifiedDevices c5Input = Except.ok [(J.num 7, c5dev)]
    ∧ "batterylow" ∈ groupNames (print_smart_home_measurements
        (sortDevices [(J.num 7, c5dev)]))
    ∧ ∀ i : J, ("batterylow", i) ∉
        gip none (print_smart_home_measurements (sortDevices [(J.num 7, c5dev)])) := by
  have h : getSimplifiedDevices c5Input = Except.ok [(J.num 7, c5dev)] := rfl
  have hc := C9_batterylow_always_empty c5Input [(J.num 7, c5dev)] none h
  exact ⟨h, hc.2.1, hc.2.2.2.1⟩

theorem mem_filter_map (devs : List Dev) (p : Dev → Bool) (f : Dev → String × J)
    (x : String × J) :
    x ∈ (devs.filter p).map f ↔
      ∃ dev, dev ∈ devs ∧ (p dev = true ∧ True) ∧ x = f dev := by
  constructor
  · intro h
    rcases List.mem_map.mp h with ⟨dev, hd, he⟩
    rcases List.mem_filter.mp hd with ⟨h1, h2⟩
    exact ⟨dev, h1, ⟨h2, trivial⟩, he.symm⟩
  · rintro ⟨dev, h1, ⟨h2, -⟩, rfl⟩
    exact List.mem_map_of_mem f (List.mem_filter.mpr ⟨h1, h2⟩)

theorem mem_flatMap_ifmap (devs : List Dev) (p : Dev → Bool) (lns : Dev → List String)
    (f : Dev → String × J) (x : String × J) :
    (x ∈ devs.flatMap (fun dev => if p dev then (lns dev).map (fun _ => f dev) else []))
      ↔ ∃ dev, dev ∈ devs ∧ (p dev = true ∧ lns dev ≠ []) ∧ x = f dev := by
  constructor
  · intro h
    rcases List.mem_flatMap.mp h with ⟨dev, hd, hin⟩
    by_cases hp : p dev = true
    · rw [if_pos hp] at hin
      rcases List.mem_map.mp hin with ⟨s, hs, he⟩
      exact ⟨dev, hd, ⟨hp, fun hnil => by rw [hnil] at hs; simp at hs⟩, he.symm⟩
    · rw [if_neg hp] at hin; simp at hin
  · rintro ⟨dev, hd, ⟨hp, hne⟩, rfl⟩
    refine List.mem_flatMap.mpr ⟨dev, hd, ?_⟩
    rw [if_pos hp]
    rcases List.exists_mem_of_ne_nil (lns dev) hne with ⟨s, hs⟩
    exact List.mem_map.mpr ⟨s, hs, rfl⟩

theorem mem_flatMap_map_noif (devs : List Dev) (lns : Dev → List String)
    (f : Dev → String × J) (x : String × J) :
    (x ∈ devs.flatMap (fun dev => (lns dev).map (fun _ => f dev)))
      ↔ ∃ dev, dev ∈ devs ∧ lns dev ≠ [] ∧ x = f dev := by
  constructor
  · intro h
    rcases List.mem_flatMap.mp h with ⟨dev, hd, hin⟩
    rcases List.mem_map.mp hin with ⟨s, hs, he⟩
    exact ⟨dev, hd, fun hnil => by rw [hnil] at hs; simp at hs, he.symm⟩
  · rintro ⟨dev, hd, hne, rfl⟩
    refine List.mem_flatMap.mpr ⟨dev, hd, ?_⟩
    rcases List.exists_mem_of_ne_nil (lns dev) hne with ⟨s, hs⟩
    exact List.mem_map.mpr ⟨s, hs, rfl⟩

theorem occ_congr (devs : List Dev) (A B : Dev → Prop) (f : Dev → String × J)
    (x : String × J) (h : ∀ dev ∈ devs, (A dev ↔ B dev)) :
    (∃ dev, dev ∈ devs ∧ A dev ∧ x = f dev) ↔ (∃ dev, dev ∈ devs ∧ B dev ∧ x = f dev) := by
  constructor
  · rintro ⟨dev, hd, ha, rfl⟩; exact ⟨dev, hd, (h dev hd).mp ha, rfl⟩
  · rintro ⟨dev, hd, hb, rfl⟩; exact ⟨dev, hd, (h dev hd).mpr hb, rfl⟩

theorem cfgTempDetailLines_ne_nil (dev : Dev) :
    cfgTempDetailLines dev ≠ [] ↔
      (dictHas dev "currentTemperatureInDegC" = true
        ∨ dictHas dev "refTemperatureInDegC" = true
        ∨ dictHas dev "targetTemperatureInDegC" = true) := by
  by_cases h1 : dictHas dev "currentTemperatureInDegC" = true <;>
    by_cases h2 : dictHas dev "refTemperatureInDegC" = true <;>
      by_cases h3 : dictHas dev "targetTemperatureInDegC" = true <;>
        simp [cfgTempDetailLines, h1, h2, h3]

theorem measTempDetailLines_ne_nil (dev : Dev) :
    measTempDetailLines dev ≠ [] ↔
      (dictHas dev "refTemperatureInDegC" = true
        ∨ dictHas dev "currentTemperatureInDegC" = true
        ∨ hasTargetSet dev = true) := by
  by_cases h1 : dictHas dev "refTemperatureInDegC" = true <;>
    by_cases h2 : dictHas dev "currentTemperatureInDegC" = true <;>
      by_cases h3 : hasTargetSet dev = true <;>
        simp [measTempDetailLines, h1, h2, h3]

theorem cfgModesDetailLines_ne_nil (dev : Dev) :
    cfgModesDetailLines dev ≠ [] ↔ modesFlag dev = true := by
  by_cases h1 : dictHas dev "windowOpen" = true <;>
    by_cases h2 : dictHas dev "summerActive" = true <;>
      by_cases h3 : dictHas dev "holidayActive" = true <;>
        simp [cfgModesDetailLines, modesFlag, h1, h2, h3]

theorem measModesDetailLines_ne_nil (dev : Dev) :
    measModesDetailLines dev ≠ [] ↔ modesFlag dev = true := by
  by_cases h1 : dictHas dev "windowOpen" = true <;>
    by_cases h2 : dictHas dev "summerActive" = true <;>
      by_cases h3 : dictHas dev "holidayActive" = true <;>
        simp [measModesDetailLines, modesFlag, h1, h2, h3]

theorem seg_iff_same (devs : List Dev) (p : Dev → Bool) (lns : Dev → List String)
    (f : Dev → String × J) (x : String × J) (hne : ∀ dev, lns dev ≠ []) :
    (x ∈ devs.flatMap (fun dev => if p dev then (lns dev).map (fun _ => f dev) else []))
      ↔ x ∈ (devs.filter p).map f := by
  rw [mem_flatMap_ifmap, mem_filter_map]
  exact occ_congr devs _ _ f x (fun dev hd => by simp [hne dev])

theorem seg_iff_temps (devs : List Dev) (hp : ∀ dev ∈ devs, devPresent dev = true)
    (x : String × J) :
    (x ∈ devs.flatMap (fun dev =>
      if dictHas dev "currentTemperatureInDegC" then
        (cfgTempsLines dev).map (fun _ => (("temperatures" : String), dget dev "id"))
      else []))
    ↔ x ∈ (devs.filter (fun dev =>
        devPresent dev && dictHas dev "currentTemperatureInDegC")).map
          (fun dev => (("temperatures" : String), dget dev "id")) := by
  rw [mem_flatMap_ifmap, mem_filter_map]
  exact occ_congr devs _ _ _ x (fun dev hd => by simp [cfgTempsLines, hp dev hd])

theorem seg_iff_target (devs : List Dev) (hp : ∀ dev ∈ devs, devPresent dev = true)
    (htar : ∀ dev ∈ devs, dictHas dev "targetTemperatureInDegC" = true →
      jIsNull (dget dev "targetTemperatureInDegC") = false) (x : String × J) :
    (x ∈ devs.flatMap (fun dev =>
      if dictHas dev "targetTemperatureInDegC" then
        (cfgTargetLines dev).map (fun _ => (("temperatures_target" : String), dget dev "id"))
      else []))
    ↔ x ∈ (devs.filter (fun dev => devPresent dev && hasTargetSet dev)).map
        (fun dev => (("temperatures_target" : String), dget dev "id")) := by
  rw [mem_flatMap_ifmap, mem_filter_map]
  refine occ_congr devs _ _ _ x (fun dev hd => ?_)
  by_cases ht : dictHas dev "targetTemperatureInDegC" = true
  · simp [cfgTargetLines, hasTargetSet, hp dev hd, ht, htar dev hd ht]
  · simp [cfgTargetLines, hasTargetSet, hp dev hd, ht]

theorem seg_iff_tempdetail (devs : List Dev) (hp : ∀ dev ∈ devs, devPresent dev = true)
    (htar : ∀ dev ∈ devs, dictHas dev "targetTemperatureInDegC" = true →
      jIsNull (dget dev "targetTemperatureInDegC") = false) (x : String × J) :
    (x ∈ devs.flatMap (fun dev =>
      (cfgTempDetailLines dev).map (fun _ => ("temperatures.t" ++ idStr dev, dget dev "id"))))
    ↔ x ∈ devs.flatMap (fun dev =>
        if devPresent dev then
          (measTempDetailLines dev).map
            (fun _ => ("temperatures.t" ++ idStr dev, dget dev "id"))
        else []) := by
  rw [mem_flatMap_map_noif, mem_flatMap_ifmap]
  refine occ_congr devs _ _ _ x (fun dev hd => ?_)
  rw [cfgTempDetailLines_ne_nil, measTempDetailLines_ne_nil]
  by_cases ht : dictHas dev "targetTemperatureInDegC" = true
  · simp only [hasTargetSet, ht, htar dev hd ht, hp dev hd, true_and, Bool.true_and,
      Bool.not_false, Bool.and_self]
    constructor
    · rintro (h | h | h) <;> simp [h]
    · rintro (h | h | h) <;> simp [h]
  · simp only [hasTargetSet, ht, hp dev hd, true_and, Bool.false_and, Bool.and_false]
    constructor
    · rintro (h | h | h)
      · exact Or.inr (Or.inl h)
      · exact Or.inl h
      · simp at h
    · rintro (h | h | h)
      · exact Or.inr (Or.inl h)
      · exact Or.inl h
      · simp at h

theorem seg_iff_modesdetail (devs : List Dev) (x : String × J) :
    (x ∈ devs.flatMap (fun dev =>
      if modesFlag dev then
        (cfgModesDetailLines dev).map
          (fun _ => ("thermostat_modes.id" ++ idStr dev, dget dev "id"))
      else []))
    ↔ x ∈ devs.flatMap (fun dev =>
        if modesFlag dev then
          (measModesDetailLines dev).map
            (fun _ => ("thermostat_modes.id" ++ idStr dev, dget dev "id"))
        else []) := by
  rw [mem_flatMap_ifmap, mem_flatMap_ifmap]
  refine occ_congr devs _ _ _ x (fun dev hd => ?_)
  rw [cfgModesDetailLines_ne_nil, measModesDetailLines_ne_nil]

/-- C3 (amended): when every device in the sequence is present and no device
carries a null target temperature, the two emitters announce the same ordered
group list and, in each group, lines for the same device ids. -/
theorem C3_same_groups_same_ids :
    ∀ (devs : List Dev) (hostName : Option String),
      (∀ dev ∈ devs, devPresent dev = true) →
      (∀ dev ∈ devs, dictHas dev "targetTemperatureInDegC" = true →
        jIsNull (dget dev "targetTemperatureInDegC") = false) →
      groupNames (print_config devs hostName)
        = groupNames (print_smart_home_measurements devs)
      ∧ ∀ (g : String) (i : J),
          ((g, i) ∈ gip none (print_config devs hostName)
            ↔ (g, i) ∈ gip none (print_smart_home_measurements devs)) := by
  intro devs hostName hp htar
  constructor
  · rw [groupNames_config, groupNames_meas]
    unfold cfgGroups measGroups
    rw [List.filter_eq_self.mpr hp]
  · intro g i
    rw [gip_config, gip_meas]
    simp only [cfgPairs, measPairs, List.mem_append]
    rw [seg_iff_temps devs hp (g, i),
      seg_iff_same devs (fun dev => devPresent dev && dictHas dev "currentHumidityInPct")
        cfgHumidityLines (fun dev => (("humidity" : String), dget dev "id")) (g, i)
        (fun dev => by simp [cfgHumidityLines]),
      seg_iff_target devs hp htar (g, i),
      seg_iff_tempdetail devs hp htar (g, i),
      seg_iff_same devs (fun dev => devPresent dev && dictHas dev "windowOpen")
        cfgModesLines (fun dev => (("thermostat_modes" : String), dget dev "id")) (g, i)
        (fun dev => by simp [cfgModesLines]),
      seg_iff_modesdetail devs (g, i),
      seg_iff_same devs
        (fun dev => devPresent dev && dictHas dev "batteryChargeLevelInPct")
        cfgBatteryLines (fun dev => (("battery" : String), dget dev "id")) (g, i)
        (fun dev => by simp [cfgBatteryLines]),
      seg_iff_same devs (fun dev => devPresent dev && dictHas dev "batteryLow")
        cfgBatteryLowLines (fun dev => (("batterylow" : String), dget dev "id")) (g, i)
        (fun dev => by simp [cfgBatteryLowLines]),
      seg_iff_same devs (fun dev => devPresent dev && dictHas dev "voltageInVolt")
        cfgVoltageLines (fun dev => (("voltage" : String), dget dev "id")) (g, i)
        (fun dev => by simp [cfgVoltageLines]),
      seg_iff_same devs (fun dev => devPresent dev && dictHas dev "powerInWatt")
        cfgPowerLines (fun dev => (("smarthome_power" : String), dget dev "id")) (g, i)
        (fun dev => by simp [cfgPowerLines]),
      seg_iff_same devs (fun dev => devPresent dev && dictHas dev "energyInKWH")
        cfgPowerAvgLines (fun dev => (("smarthome_powerAvg" : String), dget dev "id")) (g, i)
        (fun dev => by simp [cfgPowerAvgLines]),
      seg_iff_same devs (fun dev => devPresent dev && dictHas dev "energyInKWH")
        cfgEnergyLines (fun dev => (("energy" : String), dget dev "id")) (g, i)
        (fun dev => by simp [cfgEnergyLines]),
      seg_iff_same devs (fun dev => devPresent dev && dictHas dev "powerSwitchOn")
        cfgPowerSwitchLines
        (fun dev => (("smarthome_powerswitch" : String), dget dev "id")) (g, i)
        (fun dev => by simp [cfgPowerSwitchLines])]

/-- C3 counterexample: on a sequence holding one non-present record the two
emitters announce different group lists — the Metadata Emitter emits a
`temperatures.t<id>` block for every device while the Metric Emitter emits it
only for present devices. -/
theorem C3_counterexample :
    groupNames (print_config (devsOf (getDevices c3Input)) none) ≠
      groupNames (print_smart_home_measurements (devsOf (getDevices c3Input))) := by
  have hdev : devsOf (getDevices c3Input) = [c3dev] := rfl
  rw [hdev, groupNames_config, groupNames_meas]
  intro h
  have hlen := congrArg List.length h
  simp [cfgGroups, measGroups, c3dev, devPresent, modesFlag, dget, dget?, dictHas,
    jTruthy] at hlen

/-- Closed witness for the amended C3 on an all-present sequence. -/
theorem C3_witness :
    groupNames (print_config [c5dev] none)
      = groupNames (print_smart_home_measurements [c5dev])
    ∧ (("energy", J.num 7) ∈ gip none (print_config [c5dev] none)
        ↔ ("energy", J.num 7) ∈ gip none (print_smart_home_measurements [c5dev])) := by
  have hp : ∀ dev ∈ [c5dev], devPresent dev = true := by
    intro dev hd
    rw [List.mem_singleton] at hd
    subst hd
    rfl
  have htar : ∀ dev ∈ [c5dev], dictHas dev "targetTemperatureInDegC" = true →
      jIsNull (dget dev "targetTemperatureInDegC") = false := by
    intro dev hd htt
    rw [List.mem_singleton] at hd
    subst hd
    exact absurd htt (by decide)
  exact ⟨(C3_same_groups_same_ids [c5dev] none hp htar).1,
    (C3_same_groups_same_ids [c5dev] none hp htar).2 "energy" (J.num 7)⟩

theorem processSkill_inert (skill : J) (h : inertSkill skill = true) :
    ∀ (d : Dev), processSkill skill d = Except.ok d := by
  intro d
  simp only [inertSkill, Bool.and_eq_true, Bool.not_eq_true'] at h
  obtain ⟨⟨⟨⟨⟨⟨ht, h1⟩, h2⟩, h3⟩, h4⟩, h5⟩, h7⟩ := h
  simp only [processSkill, jIndex_of_jHas skill "type" ht, except_bind_ok]
  rw [if_neg (by rw [h1]; exact Bool.false_ne_true),
    if_neg (by rw [h2]; exact Bool.false_ne_true),
    if_neg (by rw [h3]; exact Bool.false_ne_true),
    if_neg (by rw [h4]; exact Bool.false_ne_true),
    if_neg (by rw [h5]; exact Bool.false_ne_true)]
  by_cases h6 : jeqStr (jget skill "type") "SmartHomeSocket" = true
  · rw [if_pos h6]; rfl
  · rw [if_neg h6, if_neg (by rw [h7]; exact Bool.false_ne_true)]; rfl

theorem inert_skills_fold (skills : List J) (h : skills.all inertSkill = true) :
    ∀ (d : Dev),
      List.foldlM (fun acc skill => processSkill skill acc) d skills = Except.ok d := by
  induction skills with
  | nil => intro d; rfl
  | cons s rest ih =>
    intro d
    simp only [List.all_cons, Bool.and_eq_true] at h
    rw [List.foldlM_cons, processSkill_inert s h.1 d, except_bind_ok]
    exact ih h.2 d

theorem processUnit_inert (unit : J) (h : inertUnit unit = true) :
    ∀ (d : Dev), processUnit unit d = Except.ok d := by
  intro d
  simp only [inertUnit, Bool.and_eq_true] at h
  obtain ⟨⟨⟨hdn, htp⟩, hid⟩, hsk⟩ := h
  cases hv : jGet? unit "skills" with
  | none => rw [hv] at hsk; simp at hsk
  | some sk =>
    cases sk with
    | arr skills =>
      have hskills : jHas unit "skills" = true := by simp [jHas, hv]
      have hgs : jget unit "skills" = J.arr skills := by simp [jget, hv]
      simp only [processUnit, jIndex_of_jHas unit "displayName" hdn,
        jIndex_of_jHas unit "skills" hskills, jIndex_of_jHas unit "type" htp,
        jIndex_of_jHas unit "id" hid, except_bind_ok, hgs]
      simp only [asArr, except_bind_ok]
      rw [hv] at hsk
      exact inert_skills_fold skills hsk d
    | null => rw [hv] at hsk; simp at hsk
    | bool b => rw [hv] at hsk; simp at hsk
    | num q => rw [hv] at hsk; simp at hsk
    | str s => rw [hv] at hsk; simp at hsk
    | obj fs => rw [hv] at hsk; simp at hsk

theorem inert_units_fold (units : List J) (h : units.all inertUnit = true) :
    ∀ (d : Dev),
      List.foldlM (fun acc unit => processUnit unit acc) d units = Except.ok d := by
  induction units with
  | nil => intro d; rfl
  | cons u rest ih =>
    intro d
    simp only [List.all_cons, Bool.and_eq_true] at h
    rw [List.foldlM_cons, processUnit_inert u h.1 d, except_bind_ok]
    exact ih h.2 d

/-- C6: a device with none of the six field-extracting skill types (socket
and unknown skills included) normalizes to exactly the five always-present
fields, and unrecognized skill types never cause a failure. -/
theorem C6_inert_device_five_fields :
    ∀ (device : J), inertDevice device = true →
      processDevice device = Except.ok (jget device "id",
        [("id", jget device "id"), ("displayName", jget device "displayName"),
         ("present", J.bool (jeqStr (jget device "masterConnectionState") "CONNECTED")),
         ("model", jget device "model"),
         ("identifier", jget device "actorIdentificationNumber")]) := by
  intro device h
  simp only [inertDevice, Bool.and_eq_true] at h
  obtain ⟨⟨⟨⟨⟨⟨⟨hdn, hcat⟩, htp⟩, hconn⟩, hid⟩, hmod⟩, hain⟩, hun⟩ := h
  cases hv : jGet? device "units" with
  | none => rw [hv] at hun; simp at hun
  | some un =>
    cases un with
    | arr units =>
      have hunits : jHas device "units" = true := by simp [jHas, hv]
      have hgu : jget device "units" = J.arr units := by simp [jget, hv]
      simp only [processDevice, jIndex_of_jHas device "displayName" hdn,
        jIndex_of_jHas device "category" hcat, jIndex_of_jHas device "type" htp,
        jIndex_of_jHas device "units" hunits,
        jIndex_of_jHas device "masterConnectionState" hconn,
        jIndex_of_jHas device "id" hid, jIndex_of_jHas device "model" hmod,
        jIndex_of_jHas device "actorIdentificationNumber" hain,
        except_bind_ok, hgu]
      simp only [asArr, except_bind_ok]
      rw [hv] at hun
      rw [inert_units_fold units hun _, except_bind_ok]
      rfl
    | null => rw [hv] at hun; simp at hun
    | bool b => rw [hv] at hun; simp at hun
    | num q => rw [hv] at hun; simp at hun
    | str s => rw [hv] at hun; simp at hun
    | obj fs => rw [hv] at hun; simp at hun

/-- Closed witness for C6 on a socket-plus-unknown-skill device. -/
theorem C6_witness :
    inertDevice c6Device = true
    ∧ processDevice c6Device = Except.ok (J.num 3,
        [("id", J.num 3), ("displayName", J.str "X"), ("present", J.bool true),
         ("model", J.str "M"), ("identifier", J.str "A1")]) := by
  refine ⟨rfl, ?_⟩
  have h := C6_inert_device_five_fields c6Device rfl
  exact h

theorem jIndex_ok_isSome (j : J) (k : String) (v : J) (h : jIndex j k = Except.ok v) :
    (jGet? j k).isSome = true := by
  unfold jIndex at h
  cases hv : jGet? j k with
  | none => rw [hv] at h; simp at h
  | some w => simp

theorem processDevice_ok_attrs :
    ∀ (device : J) (r : J × Dev), processDevice device = Except.ok r →
      ∀ k ∈ required8, (jGet? device k).isSome = true := by
  intro device r h k hk
  cases h1 : jIndex device "displayName" with
  | error e =>
    simp only [processDevice] at h; rw [h1] at h
    simp only [except_bind_error] at h; exact absurd h (by simp)
  | ok v1 =>
  simp only [processDevice] at h; rw [h1] at h
  simp only [except_bind_ok] at h
  cases h2 : jIndex device "category" with
  | error e => rw [h2] at h; simp only [except_bind_error] at h; exact absurd h (by simp)
  | ok v2 =>
  rw [h2] at h; simp only [except_bind_ok] at h
  cases h3 : jIndex device "type" with
  | error e => rw [h3] at h; simp only [except_bind_error] at h; exact absurd h (by simp)
  | ok v3 =>
  rw [h3] at h; simp only [except_bind_ok] at h
  cases h4 : jIndex device "units" with
  | error e => rw [h4] at h; simp only [except_bind_error] at h; exact absurd h (by simp)
  | ok v4 =>
  rw [h4] at h; simp only [except_bind_ok] at h
  cases h5 : jIndex device "masterConnectionState" with
  | error e => rw [h5] at h; simp only [except_bind_error] at h; exact absurd h (by simp)
  | ok v5 =>
  rw [h5] at h; simp only [except_bind_ok] at h
  cases h6 : jIndex device "id" with
  | error e => rw [h6] at h; simp only [except_bind_error] at h; exact absurd h (by simp)
  | ok v6 =>
  rw [h6] at h; simp only [except_bind_ok] at h
  cases h7 : jIndex device "model" with
  | error e => rw [h7] at h; simp only [except_bind_error] at h; exact absurd h (by simp)
  | ok v7 =>
  rw [h7] at h; simp only [except_bind_ok] at h
  cases h8 : jIndex device "actorIdentificationNumber" with
  | error e => rw [h8] at h; simp only [except_bind_error] at h; exact absurd h (by simp)
  | ok v8 =>
  simp only [required8, List.mem_cons, List.not_mem_nil, or_false] at hk
  rcases hk with rfl | rfl | rfl | rfl | rfl | rfl | rfl | rfl
  · exact jIndex_ok_isSome _ _ _ h1
  · exact jIndex_ok_isSome _ _ _ h2
  · exact jIndex_ok_isSome _ _ _ h3
  · exact jIndex_ok_isSome _ _ _ h4
  · exact jIndex_ok_isSome _ _ _ h5
  · exact jIndex_ok_isSome _ _ _ h6
  · exact jIndex_ok_isSome _ _ _ h7
  · exact jIndex_ok_isSome _ _ _ h8

theorem gsdFold_error (l : List J)
    (hbad : ∃ dev ∈ l, ∃ k ∈ required8, jGet? dev k = none) :
    ∀ (acc : SDict),
      isOkE (List.foldlM (fun acc device => do
        let r ← processDevice device
        pure (dictSetJ acc r.1 r.2)) acc l) = false := by
  induction l with
  | nil => rcases hbad with ⟨dev, hd, -⟩; simp at hd
  | cons device l ih =>
    intro acc
    rw [List.foldlM_cons]
    cases hd : processDevice device with
    | error e => simp only [except_bind_error]; rfl
    | ok r =>
      simp only [except_bind_ok, except_pure_eq_ok]
      rcases hbad with ⟨dev2, hmem, k, hk, hnone⟩
      rcases List.mem_cons.mp hmem with rfl | htail
      · have := processDevice_ok_attrs dev2 r hd k hk
        rw [hnone] at this
        simp at this
      · exact ih ⟨dev2, htail, k, hk, hnone⟩ _

theorem processSkill_wf_ok (skill : J) (h : wfSkill skill = true) :
    ∀ (d : Dev), isOkE (processSkill skill d) = true := by
  intro d
  simp only [wfSkill, Bool.and_eq_true] at h
  obtain ⟨⟨ht, hth⟩, hmm⟩ := h
  simp only [processSkill, jIndex_of_jHas skill "type" ht, except_bind_ok]
  by_cases b1 : jeqStr (jget skill "type") "SmartHomeThermostat" = true
  · rw [if_pos b1]
    rw [if_pos b1] at hth
    simp only [Bool.and_eq_true] at hth
    exact thermoSkillStep_ok skill hth.1.1 hth.1.2 hth.2 d
  · rw [if_neg b1]
    by_cases b2 : jeqStr (jget skill "type") "SmartHomeTemperatureSensor" = true
    · rw [if_pos b2]; rfl
    · rw [if_neg b2]
      by_cases b3 : jeqStr (jget skill "type") "SmartHomeHumiditySensor" = true
      · rw [if_pos b3]; rfl
      · rw [if_neg b3]
        by_cases b4 : jeqStr (jget skill "type") "SmartHomeBattery" = true
        · rw [if_pos b4]; rfl
        · rw [if_neg b4]
          by_cases b5 : jeqStr (jget skill "type") "SmartHomeMultimeter" = true
          · rw [if_pos b5]
            rw [if_pos b5] at hmm
            by_cases hpp : jHas skill "powerPerHour" = true
            · rw [if_pos hpp]
              rw [hpp] at hmm
              simp only [Bool.not_true, Bool.false_or] at hmm
              cases hppv : jget skill "powerPerHour" with
              | num q =>
                simp only [pyFloat, except_bind_ok, except_pure_eq_ok]
                rfl
              | bool b =>
                simp only [pyFloat, except_bind_ok, except_pure_eq_ok]
                rfl
              | null => rw [hppv] at hmm; simp at hmm
              | str s => rw [hppv] at hmm; simp at hmm
              | arr xs => rw [hppv] at hmm; simp at hmm
              | obj fs => rw [hppv] at hmm; simp at hmm
            · rw [if_neg hpp]; rfl
          · rw [if_neg b5]
            by_cases b6 : jeqStr (jget skill "type") "SmartHomeSocket" = true
            · rw [if_pos b6]; rfl
            · rw [if_neg b6]
              by_cases b7 : jeqStr (jget skill "type") "SmartHomeSwitch" = true
              · rw [if_pos b7]; rfl
              · rw [if_neg b7]; rfl

theorem wf_skills_fold (skills : List J) (h : skills.all wfSkill = true) :
    ∀ (d : Dev),
      isOkE (List.foldlM (fun acc skill => processSkill skill acc) d skills) = true := by
  induction skills with
  | nil => intro d; rfl
  | cons s rest ih =>
    intro d
    simp only [List.all_cons, Bool.and_eq_true] at h
    obtain ⟨d1, hd1⟩ := (isOkE_iff _).mp (processSkill_wf_ok s h.1 d)
    rw [List.foldlM_cons, hd1, except_bind_ok]
    exact ih h.2 d1

theorem processUnit_wf_ok (unit : J) (h : wfUnit unit = true) :
    ∀ (d : Dev), isOkE (processUnit unit d) = true := by
  intro d
  simp only [wfUnit, Bool.and_eq_true] at h
  obtain ⟨⟨⟨hdn, htp⟩, hid⟩, hsk⟩ := h
  cases hv : jGet? unit "skills" with
  | none => rw [hv] at hsk; simp at hsk
  | some sk =>
    cases sk with
    | arr skills =>
      have hskills : jHas unit "skills" = true := by simp [jHas, hv]
      have hgs : jget unit "skills" = J.arr skills := by simp [jget, hv]
      simp only [processUnit, jIndex_of_jHas unit "displayName" hdn,
        jIndex_of_jHas unit "skills" hskills, jIndex_of_jHas unit "type" htp,
        jIndex_of_jHas unit "id" hid, except_bind_ok, hgs]
      simp only [asArr, except_bind_ok]
      rw [hv] at hsk
      exact wf_skills_fold skills hsk d
    | null => rw [hv] at hsk; simp at hsk
    | bool b => rw [hv] at hsk; simp at hsk
    | num q => rw [hv] at hsk; simp at hsk
    | str s => rw [hv] at hsk; simp at hsk
    | obj fs => rw [hv] at hsk; simp at hsk

theorem wf_units_fold (units : List J) (h : units.all wfUnit = true) :
    ∀ (d : Dev),
      isOkE (List.foldlM (fun acc unit => processUnit unit acc) d units) = true := by
  induction units with
  | nil => intro d; rfl
  | cons u rest ih =>
    intro d
    simp only [List.all_cons, Bool.and_eq_true] at h
    obtain ⟨d1, hd1⟩ := (isOkE_iff _).mp (processUnit_wf_ok u h.1 d)
    rw [List.foldlM_cons, hd1, except_bind_ok]
    exact ih h.2 d1

theorem processDevice_wf_ok (device : J) (h : wfDevice device = true) :
    isOkE (processDevice device) = true := by
  simp only [wfDevice, Bool.and_eq_true] at h
  obtain ⟨⟨⟨⟨⟨⟨⟨⟨hdn, hcat⟩, htp⟩, hconn⟩, hid⟩, hhash⟩, hmod⟩, hain⟩, hun⟩ := h
  cases hv : jGet? device "units" with
  | none => rw [hv] at hun; simp at hun
  | some un =>
    cases un with
    | arr units =>
      have hunits : jHas device "units" = true := by simp [jHas, hv]
      have hgu : jget device "units" = J.arr units := by simp [jget, hv]
      simp only [processDevice, jIndex_of_jHas device "displayName" hdn,
        jIndex_of_jHas device "category" hcat, jIndex_of_jHas device "type" htp,
        jIndex_of_jHas device "units" hunits,
        jIndex_of_jHas device "masterConnectionState" hconn,
        jIndex_of_jHas device "id" hid, jIndex_of_jHas device "model" hmod,
        jIndex_of_jHas device "actorIdentificationNumber" hain,
        except_bind_ok, hgu]
      simp only [asArr, except_bind_ok]
      rw [hv] at hun
      obtain ⟨dfin, hfin⟩ := (isOkE_iff _).mp (wf_units_fold units hun _)
      rw [hfin, except_bind_ok]
      rfl
    | null => rw [hv] at hun; simp at hun
    | bool b => rw [hv] at hun; simp at hun
    | num q => rw [hv] at hun; simp at hun
    | str s => rw [hv] at hun; simp at hun
    | obj fs => rw [hv] at hun; simp at hun

theorem wf_gsd_fold (l : List J) (h : l.all wfDevice = true) :
    ∀ (acc : SDict),
      isOkE (List.foldlM (fun acc device => do
        let r ← processDevice device
        pure (dictSetJ acc r.1 r.2)) acc l) = true := by
  induction l with
  | nil => intro acc; rfl
  | cons device rest ih =>
    intro acc
    simp only [List.all_cons, Bool.and_eq_true] at h
    obtain ⟨r, hr⟩ := (isOkE_iff _).mp (processDevice_wf_ok device h.1)
    rw [List.foldlM_cons, hr]
    simp only [except_bind_ok, except_pure_eq_ok]
    exact ih h.2 _

/-- The single-guard optional extractions leave their key untouched when the
source field is absent. -/
theorem processSkill_guarded_unset :
    ∀ (skill : J) (d d2 : Dev), processSkill skill d = Except.ok d2 →
      (jHas skill "mode" = false → dictHas d2 "mode" = dictHas d "mode")
      ∧ (jHas skill "holidayActive" = false →
          dictHas d2 "holidayActive" = dictHas d "holidayActive")
      ∧ (jHas skill "electricCurrentInAmpere" = false →
          dictHas d2 "currentInAmp" = dictHas d "currentInAmp")
      ∧ (jHas skill "powerConsumptionInWatt" = false →
          dictHas d2 "powerInWatt" = dictHas d "powerInWatt")
      ∧ (jHas skill "powerPerHour" = false →
          dictHas d2 "energyInKWH" = dictHas d "energyInKWH")
      ∧ (jHas skill "voltageInVolt" = false →
          dictHas d2 "voltageInVolt" = dictHas d "voltageInVolt")
      ∧ (jHas skill "state" = false →
          dictHas d2 "powerSwitchOn" = dictHas d "powerSwitchOn") := by
  intro skill d d2 h
  cases ht : jIndex skill "type" with
  | error e =>
    simp only [processSkill] at h; rw [ht] at h
    simp only [except_bind_error] at h; exact absurd h (by simp)
  | ok st =>
    simp only [processSkill] at h; rw [ht] at h
    simp only [except_bind_ok] at h
    by_cases b1 : jeqStr st "SmartHomeThermostat" = true
    · rw [if_pos b1] at h
      refine ⟨?_, ?_, ?_, ?_, ?_, ?_, ?_⟩
      · intro hg; exact thermoSkillStep_mode_unset skill d d2 h hg
      · intro hg; exact thermoSkillStep_holiday_unset skill d d2 h hg
      · intro hg
        exact thermoSkillStep_dictHas_ne skill d d2 h "currentInAmp" (by decide)
          (by decide) (by decide) (by decide) (by decide) (by decide) (by decide)
      · intro hg
        exact thermoSkillStep_dictHas_ne skill d d2 h "powerInWatt" (by decide)
          (by decide) (by decide) (by decide) (by decide) (by decide) (by decide)
      · intro hg
        exact thermoSkillStep_dictHas_ne skill d d2 h "energyInKWH" (by decide)
          (by decide) (by decide) (by decide) (by decide) (by decide) (by decide)
      · intro hg
        exact thermoSkillStep_dictHas_ne skill d d2 h "voltageInVolt" (by decide)
          (by decide) (by decide) (by decide) (by decide) (by decide) (by decide)
      · intro hg
        exact thermoSkillStep_dictHas_ne skill d d2 h "powerSwitchOn" (by decide)
          (by decide) (by decide) (by decide) (by decide) (by decide) (by decide)
    · rw [if_neg b1] at h
      by_cases b2 : jeqStr st "SmartHomeTemperatureSensor" = true
      · rw [if_pos b2] at h
        simp only [except_pure_eq_ok, Except.ok.injEq] at h
        subst h
        refine ⟨?_, ?_, ?_, ?_, ?_, ?_, ?_⟩ <;> intro hg <;>
          simp [dictHas_dictSet, hg]
      · rw [if_neg b2] at h
        by_cases b3 : jeqStr st "SmartHomeHumiditySensor" = true
        · rw [if_pos b3] at h
          simp only [except_pure_eq_ok, Except.ok.injEq] at h
          subst h
          refine ⟨?_, ?_, ?_, ?_, ?_, ?_, ?_⟩ <;> intro hg <;>
            simp [dictHas_dictSet, hg]
        · rw [if_neg b3] at h
          by_cases b4 : jeqStr st "SmartHomeBattery" = true
          · rw [if_pos b4] at h
            simp only [except_pure_eq_ok, Except.ok.injEq] at h
            subst h
            refine ⟨?_, ?_, ?_, ?_, ?_, ?_, ?_⟩ <;> intro hg <;>
              simp [dictHas_dictSet, hg]
          · rw [if_neg b4] at h
            by_cases b5 : jeqStr st "SmartHomeMultimeter" = true
            · rw [if_pos b5] at h
              by_cases hpp : jHas skill "powerPerHour" = true
              · rw [if_pos hpp] at h
                cases hq : pyFloat (jget skill "powerPerHour") with
                | error e =>
                  rw [hq] at h; simp only [except_bind_error] at h
                  exact absurd h (by simp)
                | ok q =>
                  rw [hq] at h
                  simp only [except_bind_ok, except_pure_eq_ok, Except.ok.injEq] at h
                  subst h
                  refine ⟨?_, ?_, ?_, ?_, ?_, ?_, ?_⟩ <;> intro hg
                  · simp [apply_ite (fun dd : Dev => dictHas dd "mode"),
                      dictHas_dictSet, hg]
                  · simp [apply_ite (fun dd : Dev => dictHas dd "holidayActive"),
                      dictHas_dictSet, hg]
                  · simp [apply_ite (fun dd : Dev => dictHas dd "currentInAmp"),
                      dictHas_dictSet, hg]
                  · simp [apply_ite (fun dd : Dev => dictHas dd "powerInWatt"),
                      dictHas_dictSet, hg]
                  · exact absurd hpp (by rw [hg]; simp)
                  · simp [apply_ite (fun dd : Dev => dictHas dd "voltageInVolt"),
                      dictHas_dictSet, hg]
                  · simp [apply_ite (fun dd : Dev => dictHas dd "powerSwitchOn"),
                      dictHas_dictSet, hg]
              · rw [if_neg hpp] at h
                simp only [except_bind_ok, except_pure_eq_ok, Except.ok.injEq] at h
                subst h
                refine ⟨?_, ?_, ?_, ?_, ?_, ?_, ?_⟩ <;> intro hg <;>
                  simp [apply_ite (fun dd : Dev => dictHas dd "mode"),
                    apply_ite (fun dd : Dev => dictHas dd "holidayActive"),
                    apply_ite (fun dd : Dev => dictHas dd "currentInAmp"),
                    apply_ite (fun dd : Dev => dictHas dd "powerInWatt"),
                    apply_ite (fun dd : Dev => dictHas dd "energyInKWH"),
                    apply_ite (fun dd : Dev => dictHas dd "voltageInVolt"),
                    apply_ite (fun dd : Dev => dictHas dd "powerSwitchOn"),
                    dictHas_dictSet, hg]
            · rw [if_neg b5] at h
              by_cases b6 : jeqStr st "SmartHomeSocket" = true
              · rw [if_pos b6] at h
                simp only [except_pure_eq_ok, Except.ok.injEq] at h
                subst h
                exact ⟨fun _ => rfl, fun _ => rfl, fun _ => rfl, fun _ => rfl,
                  fun _ => rfl, fun _ => rfl, fun _ => rfl⟩
              · rw [if_neg b6] at h
                by_cases b7 : jeqStr st "SmartHomeSwitch" = true
                · rw [if_pos b7] at h
                  simp only [except_pure_eq_ok, Except.ok.injEq] at h
                  subst h
                  refine ⟨?_, ?_, ?_, ?_, ?_, ?_, ?_⟩ <;> intro hg <;>
                    simp [apply_ite (fun dd : Dev => dictHas dd "mode"),
                      apply_ite (fun dd : Dev => dictHas dd "holidayActive"),
                      apply_ite (fun dd : Dev => dictHas dd "currentInAmp"),
                      apply_ite (fun dd : Dev => dictHas dd "powerInWatt"),
                      apply_ite (fun dd : Dev => dictHas dd "energyInKWH"),
                      apply_ite (fun dd : Dev => dictHas dd "voltageInVolt"),
                      apply_ite (fun dd : Dev => dictHas dd "powerSwitchOn"),
                      dictHas_dictSet, hg]
                · rw [if_neg b7] at h
                  simp only [except_pure_eq_ok, Except.ok.injEq] at h
                  subst h
                  exact ⟨fun _ => rfl, fun _ => rfl, fun _ => rfl, fun _ => rfl,
                    fun _ => rfl, fun _ => rfl, fun _ => rfl⟩

/-- C7 (amended): malformed input — missing `data`/`devices` or a device
lacking one of the eight required attributes — makes the whole invocation
fail, surfacing no mapping, and a structurally well-typed input never fails;
absence of an optional skill field never raises, but it does not always
leave the field unset: the thermostat handler always assigns
`targetTemperatureInDegC` (explicit null when `targetTemp` is absent), and
the temperature, humidity and battery handlers always assign their field
(explicit null when the source key is absent); a thermostat without a
`state` key writes none of the three state flags, and the single-guard
extractions (mode, legacy holidayActive, multimeter fields, switch state)
leave their record key untouched when the source field is absent. -/
theorem C7_error_handling :
    (∀ j : J, badInput j → isOkE (getSimplifiedDevices j) = false)
    ∧ (∀ j : J, wellFormed j = true → isOkE (getSimplifiedDevices j) = true)
    ∧ (∀ (skill : J) (d d2 : Dev),
        jGet? skill "type" = some (J.str "SmartHomeThermostat") →
        jHas skill "targetTemp" = false →
        processSkill skill d = Except.ok d2 →
        dget? d2 "targetTemperatureInDegC" = some J.null)
    ∧ (∀ (skill : J) (d d2 : Dev),
        jGet? skill "type" = some (J.str "SmartHomeTemperatureSensor") →
        jHas skill "currentInCelsius" = false →
        processSkill skill d = Except.ok d2 →
        dget? d2 "currentTemperatureInDegC" = some J.null)
    ∧ (∀ (skill : J) (d d2 : Dev),
        jGet? skill "type" = some (J.str "SmartHomeHumiditySensor") →
        jHas skill "currentInPercent" = false →
        processSkill skill d = Except.ok d2 →
        dget? d2 "currentHumidityInPct" = some J.null)
    ∧ (∀ (skill : J) (d d2 : Dev),
        jGet? skill "type" = some (J.str "SmartHomeBattery") →
        jHas skill "chargeLevelInPercent" = false →
        processSkill skill d = Except.ok d2 →
        dget? d2 "batteryChargeLevelInPct" = some J.null)
    ∧ (∀ (skill : J) (d d2 : Dev),
        jGet? skill "type" = some (J.str "SmartHomeThermostat") →
        processSkill skill d = Except.ok d2 →
        jHas skill "state" = false →
        (jHas skill "summerActive" = false →
          dictHas d2 "summerActive" = dictHas d "summerActive")
        ∧ dictHas d2 "holidyActive" = dictHas d "holidyActive"
        ∧ (jHas skill "temperatureDropDetection" = false →
          dictHas d2 "windowOpen" = dictHas d "windowOpen"))
    ∧ (∀ (skill : J) (d d2 : Dev), processSkill skill d = Except.ok d2 →
        (jHas skill "mode" = false → dictHas d2 "mode" = dictHas d "mode")
        ∧ (jHas skill "holidayActive" = false →
            dictHas d2 "holidayActive" = dictHas d "holidayActive")
        ∧ (jHas skill "electricCurrentInAmpere" = false →
            dictHas d2 "currentInAmp" = dictHas d "currentInAmp")
        ∧ (jHas skill "powerConsumptionInWatt" = false →
            dictHas d2 "powerInWatt" = dictHas d "powerInWatt")
        ∧ (jHas skill "powerPerHour" = false →
            dictHas d2 "energyInKWH" = dictHas d "energyInKWH")
        ∧ (jHas skill "voltageInVolt" = false →
            dictHas d2 "voltageInVolt" = dictHas d "voltageInVolt")
        ∧ (jHas skill "state" = false →
            dictHas d2 "powerSwitchOn" = dictHas d "powerSwitchOn")) := by
  refine ⟨?_, ?_, ?_, ?_, ?_, ?_, ?_, processSkill_guarded_unset⟩
  · intro j hbad
    rcases hbad with h0 | ⟨d, hd, hdev⟩ | ⟨d, l, hd, hds, hbaddev⟩
    · simp [getSimplifiedDevices, jIndex, h0, isOkE]
    · simp [getSimplifiedDevices, jIndex, hd, hdev, isOkE]
    · have h1 : jIndex j "data" = Except.ok d := by simp [jIndex, hd]
      have h2 : jIndex d "devices" = Except.ok (J.arr l) := by simp [jIndex, hds]
      simp only [getSimplifiedDevices, h1, h2, except_bind_ok, asArr]
      exact gsdFold_error l hbaddev []
  · intro j hwf
    unfold wellFormed at hwf
    split at hwf
    · rename_i d hd
      split at hwf
      · rename_i l hds
        have h1 : jIndex j "data" = Except.ok d := by simp [jIndex, hd]
        have h2 : jIndex d "devices" = Except.ok (J.arr l) := by simp [jIndex, hds]
        simp only [getSimplifiedDevices, h1, h2, except_bind_ok, asArr]
        exact wf_gsd_fold l hwf []
      · simp at hwf
    · simp at hwf
  · intro skill d d2 h1 htt h3
    have hidx : jIndex skill "type" = Except.ok (J.str "SmartHomeThermostat") := by
      simp [jIndex, h1]
    simp only [processSkill] at h3
    rw [hidx] at h3
    simp only [except_bind_ok] at h3
    rw [if_pos (show jeqStr (J.str "SmartHomeThermostat") "SmartHomeThermostat" = true
      from rfl)] at h3
    exact thermoSkillStep_target_null skill d d2 h3 htt
  · intro skill d d2 h1 hg h3
    have hidx : jIndex skill "type" = Except.ok (J.str "SmartHomeTemperatureSensor") := by
      simp [jIndex, h1]
    simp only [processSkill] at h3
    rw [hidx] at h3
    simp only [except_bind_ok] at h3
    rw [if_neg (by decide),
      if_pos (show jeqStr (J.str "SmartHomeTemperatureSensor")
        "SmartHomeTemperatureSensor" = true from rfl)] at h3
    simp only [except_pure_eq_ok, Except.ok.injEq] at h3
    subst h3
    rw [if_neg (by rw [hg]; simp), dget?_dictSet_self]
  · intro skill d d2 h1 hg h3
    have hidx : jIndex skill "type" = Except.ok (J.str "SmartHomeHumiditySensor") := by
      simp [jIndex, h1]
    simp only [processSkill] at h3
    rw [hidx] at h3
    simp only [except_bind_ok] at h3
    rw [if_neg (by decide), if_neg (by decide),
      if_pos (show jeqStr (J.str "SmartHomeHumiditySensor")
        "SmartHomeHumiditySensor" = true from rfl)] at h3
    simp only [except_pure_eq_ok, Except.ok.injEq] at h3
    subst h3
    rw [if_neg (by rw [hg]; simp), dget?_dictSet_self]
  · intro skill d d2 h1 hg h3
    have hidx : jIndex skill "type" = Except.ok (J.str "SmartHomeBattery") := by
      simp [jIndex, h1]
    simp only [processSkill] at h3
    rw [hidx] at h3
    simp only [except_bind_ok] at h3
    rw [if_neg (by decide), if_neg (by decide), if_neg (by decide),
      if_pos (show jeqStr (J.str "SmartHomeBattery")
        "SmartHomeBattery" = true from rfl)] at h3
    simp only [except_pure_eq_ok, Except.ok.injEq] at h3
    subst h3
    rw [if_neg (by rw [hg]; simp), dget?_dictSet_self]
  · intro skill d d2 h1 h3 hst
    have hidx : jIndex skill "type" = Except.ok (J.str "SmartHomeThermostat") := by
      simp [jIndex, h1]
    simp only [processSkill] at h3
    rw [hidx] at h3
    simp only [except_bind_ok] at h3
    rw [if_pos (show jeqStr (J.str "SmartHomeThermostat") "SmartHomeThermostat" = true
      from rfl)] at h3
    exact thermoSkillStep_flags_unset skill d d2 h3 hst

/-- C7 counterexample: absence of the optional `targetTemp` field does not
leave `targetTemperatureInDegC` unset — the thermostat handler stores an
explicit null (source lines 111–112); likewise a temperature sensor without
`currentInCelsius` stores an explicit null (source line 128). -/
theorem C7_counterexample :
    jHas (J.obj [("type", J.str "SmartHomeThermostat")]) "targetTemp" = false
    ∧ dictHas (firstDev (getSimplifiedDevices c7cInput)) "targetTemperatureInDegC" = true
    ∧ dget (firstDev (getSimplifiedDevices c7cInput)) "targetTemperatureInDegC" = J.null
    ∧ processSkill (J.obj [("type", J.str "SmartHomeTemperatureSensor")]) []
        = Except.ok [("currentTemperatureInDegC", J.null)] :=
  ⟨rfl, rfl, rfl, rfl⟩

/-- Closed witness for C7 at concrete inputs. -/
theorem C7_witness :
    badInput (J.obj [])
    ∧ isOkE (getSimplifiedDevices (J.obj [])) = false
    ∧ wellFormed c7cInput = true
    ∧ isOkE (getSimplifiedDevices c7cInput) = true
    ∧ dget? [("targetTemperatureInDegC", J.null)] "targetTemperatureInDegC" = some J.null
    ∧ dget? [("currentTemperatureInDegC", J.null)] "currentTemperatureInDegC" = some J.null
    ∧ dictHas [("targetTemperatureInDegC", J.null)] "summerActive"
        = dictHas ([] : Dev) "summerActive"
    ∧ dictHas [("targetTemperatureInDegC", J.null)] "mode" = dictHas ([] : Dev) "mode" := by
  have hb : badInput (J.obj []) := Or.inl rfl
  have hsk : processSkill (J.obj [("type", J.str "SmartHomeThermostat")]) [] =
      Except.ok [("targetTemperatureInDegC", J.null)] := rfl
  have hts : processSkill (J.obj [("type", J.str "SmartHomeTemperatureSensor")]) [] =
      Except.ok [("currentTemperatureInDegC", J.null)] := rfl
  exact ⟨hb, C7_error_handling.1 (J.obj []) hb, rfl,
    C7_error_handling.2.1 c7cInput rfl,
    C7_error_handling.2.2.1 (J.obj [("type", J.str "SmartHomeThermostat")]) [] _ rfl rfl hsk,
    C7_error_handling.2.2.2.1 (J.obj [("type", J.str "SmartHomeTemperatureSensor")]) [] _
      rfl rfl hts,
    (C7_error_handling.2.2.2.2.2.2.1 (J.obj [("type", J.str "SmartHomeThermostat")]) [] _
      rfl hsk rfl).1 rfl,
    (C7_error_handling.2.2.2.2.2.2.2 (J.obj [("type", J.str "SmartHomeThermostat")]) [] _
      hsk).1 rfl⟩

theorem jbeq_refl (a : J) : jbeq a a = true := (jbeq_iff a a).mpr rfl

theorem lookupJ_dictSetJ (k : J) (v : Dev) (i : J) : ∀ (m : SDict),
    lookupJ (dictSetJ m k v) i = if jbeq k i = true then some v else lookupJ m i := by
  intro m
  induction m with
  | nil =>
    by_cases hki : jbeq k i = true <;>
      simp [dictSetJ, lookupJ, List.find?, hki]
  | cons q rest ih =>
    by_cases hqk : jbeq q.1 k = true
    · have hq : q.1 = k := (jbeq_iff q.1 k).mp hqk
      rw [dictSetJ, if_pos hqk]
      by_cases hki : jbeq k i = true <;>
        simp [lookupJ, List.find?, hq, hki]
    · have hq : q.1 ≠ k := fun hh => hqk ((jbeq_iff q.1 k).mpr hh)
      by_cases hqi : jbeq q.1 i = true
      · have hqi2 : q.1 = i := (jbeq_iff _ _).mp hqi
        have hki : jbeq k i = false := by
          cases hkib : jbeq k i
          · rfl
          · exact absurd ((jbeq_iff _ _).mp hkib)
              (fun hh => hq (hqi2.trans hh.symm))
        simp [dictSetJ, hqk, lookupJ, List.find?, hqi, hki]
      · by_cases hki : jbeq k i = true <;>
          simp only [dictSetJ, hqk, Bool.false_eq_true, if_false, lookupJ, List.find?,
            hqi, hki, if_true] <;>
          simpa [lookupJ, hki] using ih

theorem dictSetJ_keys_mem (k : J) (v : Dev) (x : J) : ∀ (m : SDict),
    x ∈ (dictSetJ m k v).map (·.1) → x ∈ m.map (·.1) ∨ x = k := by
  intro m
  induction m with
  | nil => intro h; simp [dictSetJ] at h; exact Or.inr h
  | cons q rest ih =>
    intro h
    by_cases hqk : jbeq q.1 k = true
    · rw [dictSetJ, if_pos hqk] at h
      simp only [List.map_cons, List.mem_cons] at h
      rcases h with h | h
      · exact Or.inl (by simp [h])
      · exact Or.inl (by simp [h])
    · rw [dictSetJ, if_neg hqk] at h
      simp only [List.map_cons, List.mem_cons] at h
      rcases h with h | h
      · exact Or.inl (by simp [h])
      · rcases ih h with h2 | h2
        · exact Or.inl (by simp [h2])
        · exact Or.inr h2

theorem dictSetJ_nodup (k : J) (v : Dev) : ∀ (m : SDict),
    (m.map (·.1)).Nodup → ((dictSetJ m k v).map (·.1)).Nodup := by
  intro m
  induction m with
  | nil => intro _; simp [dictSetJ]
  | cons q rest ih =>
    intro h
    simp only [List.map_cons, List.nodup_cons] at h
    by_cases hqk : jbeq q.1 k = true
    · rw [dictSetJ, if_pos hqk]
      simp only [List.map_cons, List.nodup_cons]
      exact h
    · rw [dictSetJ, if_neg hqk]
      simp only [List.map_cons, List.nodup_cons]
      refine ⟨?_, ih h.2⟩
      intro hmem
      rcases dictSetJ_keys_mem k v q.1 rest hmem with h2 | h2
      · exact h.1 h2
      · exact hqk ((jbeq_iff _ _).mpr h2)

theorem gsdFold_lookup (l : List J) : ∀ (acc m : SDict),
    List.foldlM (fun acc device => do
      let r ← processDevice device
      pure (dictSetJ acc r.1 r.2)) acc l = Except.ok m →
    ∀ i : J, lookupJ m i = lastDevFrom (lookupJ acc i) l i := by
  induction l with
  | nil =>
    intro acc m h i
    simp only [List.foldlM_nil, except_pure_eq_ok, Except.ok.injEq] at h
    subst h; rfl
  | cons device rest ih =>
    intro acc m h i
    rw [List.foldlM_cons] at h
    cases hd : processDevice device with
    | error e => rw [hd] at h; simp only [except_bind_error] at h; exact absurd h (by simp)
    | ok r =>
      rw [hd] at h
      simp only [except_bind_ok, except_pure_eq_ok] at h
      have := ih (dictSetJ acc r.1 r.2) m h i
      rw [this, lookupJ_dictSetJ]
      show lastDevFrom _ rest i = lastDevFrom _ (device :: rest) i
      rw [lastDevFrom, lastDevFrom, List.foldl_cons, hd]

theorem gsdFold_nodup (l : List J) : ∀ (acc m : SDict),
    List.foldlM (fun acc device => do
      let r ← processDevice device
      pure (dictSetJ acc r.1 r.2)) acc l = Except.ok m →
    (acc.map (·.1)).Nodup → (m.map (·.1)).Nodup := by
  induction l with
  | nil =>
    intro acc m h hn
    simp only [List.foldlM_nil, except_pure_eq_ok, Except.ok.injEq] at h
    subst h; exact hn
  | cons device rest ih =>
    intro acc m h hn
    rw [List.foldlM_cons] at h
    cases hd : processDevice device with
    | error e => rw [hd] at h; simp only [except_bind_error] at h; exact absurd h (by simp)
    | ok r =>
      rw [hd] at h
      simp only [except_bind_ok, except_pure_eq_ok] at h
      exact ih (dictSetJ acc r.1 r.2) m h (dictSetJ_nodup r.1 r.2 acc hn)

/-- C10: the normalizer's id-keyed mapping has pairwise-distinct keys (so at
most one entry per id), and lookup at any id returns exactly the record built
from the last device in input order carrying that id — records of earlier
same-id devices are overwritten by `simplifiedDevices[devID] = simpleDev`. -/
theorem C10_duplicate_ids_last_wins :
    ∀ (j : J) (m : SDict), getSimplifiedDevices j = Except.ok m →
      (m.map (·.1)).Nodup
      ∧ ∃ l, devicesArr j = some l ∧ ∀ i : J, lookupJ m i = lastDev l i := by
  intro j m h
  cases h1 : jIndex j "data" with
  | error e =>
    simp only [getSimplifiedDevices] at h; rw [h1] at h
    simp only [except_bind_error] at h; exact absurd h (by simp)
  | ok d =>
    simp only [getSimplifiedDevices] at h; rw [h1] at h
    simp only [except_bind_ok] at h
    cases h2 : jIndex d "devices" with
    | error e => rw [h2] at h; simp only [except_bind_error] at h; exact absurd h (by simp)
    | ok ds =>
      rw [h2] at h; simp only [except_bind_ok] at h
      cases h3 : asArr ds with
      | error e => rw [h3] at h; simp only [except_bind_error] at h; exact absurd h (by simp)
      | ok devL =>
        rw [h3] at h; simp only [except_bind_ok] at h
        have hd : jGet? j "data" = some d := by
          unfold jIndex at h1
          cases hv : jGet? j "data" with
          | none => rw [hv] at h1; simp at h1
          | some w => rw [hv] at h1; simp at h1; rw [h1]
        have hds : jGet? d "devices" = some ds := by
          unfold jIndex at h2
          cases hv : jGet? d "devices" with
          | none => rw [hv] at h2; simp at h2
          | some w => rw [hv] at h2; simp at h2; rw [h2]
        have hdsarr : ds = J.arr devL := by
          unfold asArr at h3
          cases ds with
          | arr xs => simp at h3; rw [h3]
          | null => simp at h3
          | bool b => simp at h3
          | num q => simp at h3
          | str s => simp at h3
          | obj fs => simp at h3
        refine ⟨gsdFold_nodup devL [] m h (by simp), devL, ?_, ?_⟩
        · simp only [devicesArr, hd, hds, hdsarr]
        · intro i
          have := gsdFold_lookup devL [] m h i
          rw [this]
          rfl

/-- C10 witness: on the two-device duplicate-id fixture the mapping holds a
single entry for id 7, and it is the second device's record. -/
theorem C10_witness :
    getSimplifiedDevices c10Input = Except.ok [(J.num 7, c10dev2)]
    ∧ (([(J.num 7, c10dev2)] : SDict).map (·.1)).Nodup
    ∧ lookupJ [(J.num 7, c10dev2)] (J.num 7) = some c10dev2
    ∧ lastDev [c10raw1, c10raw2] (J.num 7) = some c10dev2 := by
  have h0 : getSimplifiedDevices c10Input
      = Except.ok (dictSetJ [(J.num 7, c10dev1)] (J.num 7) c10dev2) := rfl
  have hset : dictSetJ [(J.num 7, c10dev1)] (J.num 7) c10dev2
      = [(J.num 7, c10dev2)] := by
    simp [dictSetJ, jbeq_refl]
  have h : getSimplifiedDevices c10Input = Except.ok [(J.num 7, c10dev2)] := by
    rw [h0, hset]
  obtain ⟨hnodup, l, hl, hlook⟩ :=
    C10_duplicate_ids_last_wins c10Input [(J.num 7, c10dev2)] h
  have harr : devicesArr c10Input = some [c10raw1, c10raw2] := rfl
  rw [harr] at hl
  have hl2 : l = [c10raw1, c10raw2] := (Option.some_inj.mp hl).symm
  have h1 : processDevice c10raw1 = Except.ok (J.num 7, c10dev1) := rfl
  have h2 : processDevice c10raw2 = Except.ok (J.num 7, c10dev2) := rfl
  have hlast : lastDev [c10raw1, c10raw2] (J.num 7) = some c10dev2 := by
    simp [lastDev, lastDevFrom, h1, h2, jbeq_refl]
  refine ⟨h, hnodup, ?_, hlast⟩
  rw [hlook (J.num 7), hl2, hlast]
